import Mathlib

/-!
# satc: a shallow embedding of `satc.h`

The C library works on `double`.  The embedding is written over an arbitrary type `K`
with the operations that the library uses (`+ - * /`, unary `-`, `<`, `<=`, `==` and
integer literals), of which no law is assumed, and takes the functions of `math.h` that
the library calls (`sqrt`, `cos`, `sin`) as a record `MathFns K`.  Two kinds of `K` are
used.  `Dbl` is `double` itself, IEEE 754 binary64 with rounding to nearest: at `Dbl` the
definitions compute what the library computes, rounding, infinities and NaN included.  A
linear ordered field is exact arithmetic (no rounding, no infinities, no NaN, and
`x / 0 = 0`): what the library computes when no operation rounds.  Theorems over a field
that depend on what `sqrt` computes assume an exact square root, `MathFns.IsSqrt`; their
closed instances are stated over `ℝ` with `Real.sqrt`.

A point (`double *` to two doubles) is a value `satc_point K`; the C functions that
mutate their first argument and return it become functions returning the new value.
An array together with its length counter is a `List`; a `for` loop over indices is
a fold over `List.range`, with in-place writes `List.set` and reads `List.getD`.
An optional `satc_response_t *` is an `Option (satc_response K)`, threaded through
the calls and returned together with the boolean.
-/

set_option autoImplicit false

/-- The functions of `math.h` called by the library. -/
structure MathFns (K : Type) where
  /-- The function `sqrt`. -/
  sqrt : K → K
  /-- The function `cos`. -/
  cos : K → K
  /-- The function `sin`. -/
  sin : K → K

/-- A point: the array of two doubles `p[SATC_POINT_X]`, `p[SATC_POINT_Y]`. -/
@[ext] structure satc_point (K : Type) where
  /-- The value `p[0]`. -/
  x : K
  /-- The value `p[1]`. -/
  y : K

/-- The struct `satc_circle`. -/
structure satc_circle (K : Type) where
  /-- The position of the circle. -/
  pos : satc_point K
  /-- The radius of the circle. -/
  r : K

/-- The struct `satc_polygon`; the counters `num_points`, `num_calc_points`, `num_edges`
and `num_normals` are the lengths of the four lists. -/
structure satc_polygon (K : Type) where
  /-- The position of the polygon. -/
  pos : satc_point K
  /-- The list of points of the polygon. -/
  points : List (satc_point K)
  /-- The angle of rotation. -/
  angle : K
  /-- The offset. -/
  offset : satc_point K
  /-- The calculated points. -/
  calc_points : List (satc_point K)
  /-- The calculated edges. -/
  edges : List (satc_point K)
  /-- The calculated normals. -/
  normals : List (satc_point K)

/-- The struct `satc_box`. -/
structure satc_box (K : Type) where
  /-- The position of the box. -/
  pos : satc_point K
  /-- The width of the box. -/
  w : K
  /-- The height of the box. -/
  h : K

/-- What a `void *` of a response points to: a circle or a polygon. -/
inductive satc_shape (K : Type) where
  | circle (c : satc_circle K) : satc_shape K
  | polygon (p : satc_polygon K) : satc_shape K

/-- The struct `satc_response`; a `NULL` shape pointer is `none`. -/
structure satc_response (K : Type) where
  /-- The first shape participating in the collision. -/
  a : Option (satc_shape K)
  /-- The second shape participating in the collision. -/
  b : Option (satc_shape K)
  /-- The length of overlap of the collision. -/
  overlap : K
  /-- The unit vector of the overlap. -/
  overlap_n : satc_point K
  /-- The unit vector of the overlap scaled by the length of overlap. -/
  overlap_v : satc_point K
  /-- True if shape `a` is entirely within shape `b`. -/
  a_in_b : Bool
  /-- True if shape `b` is entirely within shape `a`. -/
  b_in_a : Bool

section Defs

variable {K : Type} [Zero K] [One K] [NatCast K] [Add K] [Sub K] [Mul K] [Div K] [Neg K]
  [LT K] [LE K] [DecidableEq K] [∀ a b : K, Decidable (a < b)]
  [∀ a b : K, Decidable (a ≤ b)]

/-- The square root of the record is an exact square root on the non-negative scalars (an
assumption of exact arithmetic: the rounded `sqrt` of doubles does not meet it). -/
def MathFns.IsSqrt (m : MathFns K) : Prop :=
  ∀ x : K, 0 ≤ x → 0 ≤ m.sqrt x ∧ m.sqrt x * m.sqrt x = x

/-- The constant `DBL_MAX` of `float.h`, the largest finite double `2^1024 - 2^971`, as the
value of that natural number in `K`. -/
def DBL_MAX : K := ((2 ^ 1024 - 2 ^ 971 : ℕ) : K)

/-- The function `fabs` of `math.h`: the argument with its sign cleared. -/
def fabs (x : K) : K := if x < 0 then -x else x

/-- The contents of a point just allocated by `satc_point_alloca`, before it is written;
every use below overwrites both coordinates first. -/
def satc_point_alloca : satc_point K := ⟨0, 0⟩

/-- The function `satc_point_create`. -/
def satc_point_create (x y : K) : satc_point K := ⟨x, y⟩

/-- The macro `satc_point_clone`. -/
def satc_point_clone (p : satc_point K) : satc_point K := satc_point_create p.x p.y

/-- The function `satc_point_copy`: `p[0] = q[0]; p[1] = q[1]`. -/
def satc_point_copy (_p q : satc_point K) : satc_point K := ⟨q.x, q.y⟩

/-- The function `satc_point_perp`. -/
def satc_point_perp (p : satc_point K) : satc_point K :=
  let x := p.y
  let y := -p.x
  ⟨x, y⟩

/-- The function `satc_point_reverse`: `p[0] = -p[0]; p[1] = -p[1]`. -/
def satc_point_reverse (p : satc_point K) : satc_point K := ⟨-p.x, -p.y⟩

/-- The macro `satc_point_dot`, at the places where its expansion is not torn apart by
a neighbouring operator. -/
def satc_point_dot (p q : satc_point K) : K := p.x * q.x + p.y * q.y

/-- The macro `satc_point_len2`. -/
def satc_point_len2 (p : satc_point K) : K := satc_point_dot p p

/-- The macro `satc_point_len`: `sqrt(p[0] * p[0] + p[1] * p[1])`. -/
def satc_point_len (m : MathFns K) (p : satc_point K) : K := m.sqrt (satc_point_len2 p)

/-- The function `satc_point_add`. -/
def satc_point_add (p q : satc_point K) : satc_point K := ⟨p.x + q.x, p.y + q.y⟩

/-- The function `satc_point_sub`. -/
def satc_point_sub (p q : satc_point K) : satc_point K := ⟨p.x - q.x, p.y - q.y⟩

/-- The function `satc_point_scale_xy`. -/
def satc_point_scale_xy (p : satc_point K) (x y : K) : satc_point K := ⟨p.x * x, p.y * y⟩

/-- The function `satc_point_scale_x`. -/
def satc_point_scale_x (p : satc_point K) (x : K) : satc_point K := satc_point_scale_xy p x x

/-- The function `satc_point_rotate`; the second coordinate is
`x * sin(angle) - y * cos(angle)`, as in the source. -/
def satc_point_rotate (m : MathFns K) (p : satc_point K) (angle : K) : satc_point K :=
  let x := p.x
  let y := p.y
  ⟨x * m.cos angle - y * m.sin angle, x * m.sin angle - y * m.cos angle⟩

/-- The function `satc_point_normalize`.  The macro `satc_point_set_xy` expands to two
statements, so the source reads `if (d > 0) p[0] = p[0] / d; p[1] = p[1] / d;`: the
guard covers the first coordinate only.  On doubles `p[1] / d` at `d = 0` is a NaN or an
infinity; in a field it is `p.y / 0 = 0`. -/
def satc_point_normalize (m : MathFns K) (p : satc_point K) : satc_point K :=
  let d := satc_point_len m p
  let x := if d > 0 then p.x / d else p.x
  ⟨x, p.y / d⟩

/-- The function `satc_circle_create`. -/
def satc_circle_create (pos : satc_point K) (r : K) : satc_circle K :=
  { pos := satc_point_clone pos, r := r }

/-- The function `_satc_polygon_recalc`: the first loop writes `calc_points[i]`, the
second `edges[i]` and `normals[i]`, for `i < num_points`. -/
def _satc_polygon_recalc (m : MathFns K) (polygon : satc_polygon K) : satc_polygon K :=
  let points := polygon.points
  let offset := polygon.offset
  let angle := polygon.angle
  let num_points := polygon.points.length
  let calc_points := (List.range num_points).foldl
    (fun (cps : List (satc_point K)) i =>
      let calc_point := satc_point_add
        (satc_point_copy (cps.getD i satc_point_alloca) (points.getD i satc_point_alloca)) offset
      cps.set i (if angle ≠ 0 then satc_point_rotate m calc_point angle else calc_point))
    polygon.calc_points
  let en := (List.range num_points).foldl
    (fun (en : List (satc_point K) × List (satc_point K)) i =>
      let p1 := calc_points.getD i satc_point_alloca
      let p2 := if i < num_points - 1 then calc_points.getD (i + 1) satc_point_alloca
        else calc_points.getD 0 satc_point_alloca
      let edge := satc_point_sub (satc_point_copy (en.1.getD i satc_point_alloca) p2) p1
      let normal := satc_point_normalize m
        (satc_point_perp (satc_point_copy (en.2.getD i satc_point_alloca) edge))
      (en.1.set i edge, en.2.set i normal))
    (polygon.edges, polygon.normals)
  { polygon with calc_points := calc_points, edges := en.1, normals := en.2 }

/-- The function `_satc_polygon_reset_calc_points`. -/
def _satc_polygon_reset_calc_points (polygon : satc_polygon K) (num_calc_points : Nat) :
    satc_polygon K :=
  { polygon with calc_points := List.replicate num_calc_points (satc_point_create 0 0) }

/-- The function `_satc_polygon_reset_edges`. -/
def _satc_polygon_reset_edges (polygon : satc_polygon K) (num_edges : Nat) : satc_polygon K :=
  { polygon with edges := List.replicate num_edges (satc_point_create 0 0) }

/-- The function `_satc_polygon_reset_normals`. -/
def _satc_polygon_reset_normals (polygon : satc_polygon K) (num_normals : Nat) :
    satc_polygon K :=
  { polygon with normals := List.replicate num_normals (satc_point_create 0 0) }

/-- The function `_satc_polygon_copy_points`. -/
def _satc_polygon_copy_points (m : MathFns K) (polygon : satc_polygon K)
    (points : List (satc_point K)) : satc_polygon K :=
  _satc_polygon_recalc m { polygon with points := points.map satc_point_clone }

/-- The function `satc_polygon_set_points`; `num_points` is the length of `points`. -/
def satc_polygon_set_points (m : MathFns K) (polygon : satc_polygon K)
    (points : List (satc_point K)) : satc_polygon K :=
  let num_points := points.length
  let length_changed := num_points ≠ polygon.points.length
  let polygon := if length_changed then
      _satc_polygon_reset_normals
        (_satc_polygon_reset_edges (_satc_polygon_reset_calc_points polygon num_points) num_points)
        num_points
    else polygon
  _satc_polygon_copy_points m polygon points

/-- The function `satc_polygon_create`. -/
def satc_polygon_create (m : MathFns K) (pos : satc_point K) (points : List (satc_point K)) :
    satc_polygon K :=
  satc_polygon_set_points m
    { pos := satc_point_clone pos, points := [], angle := 0, offset := satc_point_create 0 0,
      calc_points := [], edges := [], normals := [] }
    points

/-- The function `satc_polygon_set_angle`. -/
def satc_polygon_set_angle (m : MathFns K) (polygon : satc_polygon K) (angle : K) :
    satc_polygon K :=
  _satc_polygon_recalc m { polygon with angle := angle }

/-- The function `satc_polygon_set_offset`. -/
def satc_polygon_set_offset (m : MathFns K) (polygon : satc_polygon K) (offset : satc_point K) :
    satc_polygon K :=
  _satc_polygon_recalc m { polygon with offset := satc_point_copy polygon.offset offset }

/-- The function `satc_box_create`. -/
def satc_box_create (pos : satc_point K) (w h : K) : satc_box K :=
  { pos := satc_point_clone pos, w := w, h := h }

/-- The function `satc_box_to_polygon`. -/
def satc_box_to_polygon (m : MathFns K) (box : satc_box K) : satc_polygon K :=
  let pos := box.pos
  let w := box.w
  let h := box.h
  let nw : satc_point K := ⟨0, 0⟩
  let ne : satc_point K := ⟨w, 0⟩
  let se : satc_point K := ⟨w, h⟩
  let sw : satc_point K := ⟨0, h⟩
  satc_polygon_create m pos [nw, ne, se, sw]

/-- The function `satc_response_create`. -/
def satc_response_create : satc_response K :=
  { a := none, b := none, overlap_n := satc_point_create 0 0, overlap_v := satc_point_create 0 0,
    overlap := DBL_MAX, a_in_b := true, b_in_a := true }

/-- The function `satc_flatten_points_on`; the result is `(result[0], result[1])`. -/
def satc_flatten_points_on (len : Nat) (points : List (satc_point K)) (normal : satc_point K) :
    K × K :=
  (List.range len).foldl
    (fun (mm : K × K) i =>
      let dot := satc_point_dot (points.getD i satc_point_alloca) normal
      let min := if dot < mm.1 then dot else mm.1
      let max := if dot > mm.2 then dot else mm.2
      (min, max))
    (DBL_MAX, -DBL_MAX)

/-- The block of `satc_is_separating_axis` guarded by `response != NULL`, reached when the
axis does not separate: `range_a` is A's range, `range_b` is B's range already moved by
the projected offset. -/
def satc_is_separating_axis_response (range_a range_b : K × K) (axis : satc_point K)
    (response : satc_response K) : satc_response K :=
  let ro : satc_response K × K :=
    if range_a.1 < range_b.1 then
      let response := { response with a_in_b := false }
      if range_a.2 < range_b.2 then
        ({ response with b_in_a := false }, range_a.2 - range_b.2)
      else
        let option_1 := range_a.2 - range_b.1
        let option_2 := range_b.2 - range_a.1
        (response, if option_1 < option_2 then option_1 else -option_2)
    else
      let response := { response with b_in_a := false }
      if range_a.2 > range_b.2 then
        ({ response with a_in_b := false }, range_a.1 - range_b.2)
      else
        let option_1 := range_a.2 - range_b.1
        let option_2 := range_b.2 - range_a.1
        (response, if option_1 < option_2 then option_1 else -option_2)
  let response := ro.1
  let overlap := ro.2
  let abs_overlap := fabs overlap
  if abs_overlap < response.overlap then
    let response := { response with overlap := abs_overlap,
                                    overlap_n := satc_point_copy response.overlap_n axis }
    if overlap < 0 then
      { response with overlap_n := satc_point_reverse response.overlap_n }
    else response
  else response

/-- The function `satc_is_separating_axis`: the returned boolean and the response after
the call. -/
def satc_is_separating_axis (a_pos b_pos : satc_point K) (a_len : Nat)
    (a_points : List (satc_point K)) (b_len : Nat) (b_points : List (satc_point K))
    (axis : satc_point K) (response : Option (satc_response K)) :
    Bool × Option (satc_response K) :=
  let offset_v := satc_point_sub (satc_point_copy satc_point_alloca b_pos) a_pos
  let projected_offset := satc_point_dot offset_v axis
  let range_a := satc_flatten_points_on a_len a_points axis
  let range_b := satc_flatten_points_on b_len b_points axis
  let range_b := (range_b.1 + projected_offset, range_b.2 + projected_offset)
  if range_a.1 > range_b.2 ∨ range_b.1 > range_a.2 then (true, response)
  else
    match response with
    | none => (false, none)
    | some response =>
      (false, some (satc_is_separating_axis_response range_a range_b axis response))

/-- One `for` loop of `satc_test_polygon_polygon` over the indices `is` of `normals`:
`true` when the loop ran to its end, `false` when it returned early. -/
def satc_test_polygon_polygon_loop (a b : satc_polygon K) (normals : List (satc_point K)) :
    List Nat → Option (satc_response K) → Bool × Option (satc_response K)
  | [], response => (true, response)
  | i :: is, response =>
    match satc_is_separating_axis a.pos b.pos a.points.length a.points b.points.length b.points
        (normals.getD i satc_point_alloca) response with
    | (true, response) => (false, response)
    | (false, response) => satc_test_polygon_polygon_loop a b normals is response

/-- The function `satc_test_polygon_polygon`; the point sets handed to the axis test are
`a->points` and `b->points`. -/
def satc_test_polygon_polygon (a b : satc_polygon K) (response : Option (satc_response K)) :
    Bool × Option (satc_response K) :=
  let a_len := a.points.length
  let b_len := b.points.length
  match satc_test_polygon_polygon_loop a b a.normals (List.range a_len) response with
  | (false, response) => (false, response)
  | (true, response) =>
    match satc_test_polygon_polygon_loop a b b.normals (List.range b_len) response with
    | (false, response) => (false, response)
    | (true, response) =>
      match response with
      | none => (true, none)
      | some response =>
        let response := { response with a := some (satc_shape.polygon a),
                                        b := some (satc_shape.polygon b) }
        let response := { response with
          overlap_v := satc_point_copy response.overlap_v response.overlap_n }
        (true, some { response with
          overlap_v := satc_point_scale_x response.overlap_v response.overlap })

/-- The function `satc_point_in_circle`. -/
def satc_point_in_circle (point : satc_point K) (circle : satc_circle K) : Bool :=
  let difference_v := satc_point_sub (satc_point_copy satc_point_alloca point) circle.pos
  let radius_sq := circle.r * circle.r
  let distance_sq := satc_point_len2 difference_v
  decide (distance_sq ≤ radius_sq)

/-- The function `_satc_test_point_create`; the literal `0.000001` is `1 / 1000000`, on
doubles the double nearest to that quotient. -/
def _satc_test_point_create (m : MathFns K) : satc_polygon K :=
  let zero : satc_point K := ⟨0, 0⟩
  let box := satc_box_create zero (1 / 1000000) (1 / 1000000)
  satc_box_to_polygon m box

/-- The function `satc_point_in_polygon`. -/
def satc_point_in_polygon (m : MathFns K) (point : satc_point K) (polygon : satc_polygon K) :
    Bool :=
  let test_point := _satc_test_point_create m
  let test_point := { test_point with pos := satc_point_copy test_point.pos point }
  let response : satc_response K := satc_response_create
  match satc_test_polygon_polygon test_point polygon (some response) with
  | (true, some response) => response.a_in_b
  | (true, none) => true
  | (false, _) => false

/-- The function `satc_test_circle_circle`. -/
def satc_test_circle_circle (m : MathFns K) (a b : satc_circle K)
    (response : Option (satc_response K)) : Bool × Option (satc_response K) :=
  let difference_v := satc_point_sub (satc_point_copy satc_point_alloca b.pos) a.pos
  let total_radius := a.r + b.r
  let total_radius_sq := total_radius * total_radius
  let distance_sq := satc_point_len2 difference_v
  if distance_sq > total_radius_sq then (false, response)
  else
    match response with
    | none => (true, none)
    | some response =>
      let distance := m.sqrt distance_sq
      let response := { response with a := some (satc_shape.circle a),
                                      b := some (satc_shape.circle b),
                                      overlap := total_radius - distance }
      let difference_v := satc_point_normalize m difference_v
      let response := { response with
        overlap_n := satc_point_copy response.overlap_n difference_v }
      let difference_v := satc_point_scale_x difference_v response.overlap
      let response := { response with
        overlap_v := satc_point_copy response.overlap_v difference_v }
      (true, some { response with
        a_in_b := decide (a.r ≤ b.r) && decide (distance ≤ b.r - a.r),
        b_in_a := decide (b.r ≤ a.r) && decide (distance ≤ a.r - b.r) })

/-- The function `satc_polygon_rotate`: every point is rotated in place, then the
polygon is recalculated. -/
def satc_polygon_rotate (m : MathFns K) (polygon : satc_polygon K) (angle : K) :
    satc_polygon K :=
  let points := (List.range polygon.points.length).foldl
    (fun (ps : List (satc_point K)) i =>
      ps.set i (satc_point_rotate m (ps.getD i satc_point_alloca) angle))
    polygon.points
  _satc_polygon_recalc m { polygon with points := points }

/-- The function `satc_polygon_translate`.  The macro `satc_point_set_xy` expands to two
statements, so the source reads
`for (; i < num_points; i++) points[i][0] = x; points[i][1] = y;`: the loop writes the
first coordinate of every point, and the second statement runs once after the loop, with
`i = num_points`.  The result is `none` when that index is outside the array `points`. -/
def satc_polygon_translate (m : MathFns K) (polygon : satc_polygon K) (x y : K) :
    Option (satc_polygon K) :=
  let num_points := polygon.points.length
  let points := (List.range num_points).foldl
    (fun (ps : List (satc_point K)) i => ps.set i ⟨x, (ps.getD i satc_point_alloca).y⟩)
    polygon.points
  let i := num_points
  if i < points.length then
    some (_satc_polygon_recalc m
      { polygon with points := points.set i ⟨(points.getD i satc_point_alloca).x, y⟩ })
  else none

/-- The macro `SATC_LEFT_VORONOI_REGION`. -/
def SATC_LEFT_VORONOI_REGION : Int := -1

/-- The macro `SATC_MIDDLE_VORONOI_REGION`. -/
def SATC_MIDDLE_VORONOI_REGION : Int := 0

/-- The macro `SATC_RIGHT_VORONOI_REGION`. -/
def SATC_RIGHT_VORONOI_REGION : Int := 1

/-- The function `satc_voronoi_region`. -/
def satc_voronoi_region (line point : satc_point K) : Int :=
  let len_2 := satc_point_len2 line
  let dp := satc_point_dot point line
  if dp < 0 then SATC_LEFT_VORONOI_REGION
  else if dp > len_2 then SATC_RIGHT_VORONOI_REGION
  else SATC_MIDDLE_VORONOI_REGION

/-- The three branches on `region` in the loop body of `satc_test_polygon_circle`, for the
index `i`, with `point` the circle centre relative to `points[i]` and `edge` a copy of
`edges[i]`.  The result is `none` when an absent response is dereferenced
(`response->b_in_a = false` in the middle region is not guarded), `some none` when the
function returns false, and otherwise the local `overlap`, the local `overlap_n` (`none`
for `NULL`) and the response. -/
def satc_test_polygon_circle_region (m : MathFns K) (polygon : satc_polygon K)
    (circle_pos : satc_point K) (radius : K) (i : Nat) (edge point : satc_point K)
    (response : Option (satc_response K)) :
    Option (Option (K × Option (satc_point K) × Option (satc_response K))) :=
  let points := polygon.calc_points
  let len := polygon.calc_points.length
  let next := if i = len - 1 then 0 else i + 1
  let prev := if i = 0 then len - 1 else i - 1
  let overlap : K := 0
  let overlap_n : Option (satc_point K) := none
  let region := satc_voronoi_region edge point
  if region = SATC_LEFT_VORONOI_REGION then
    let edge := satc_point_copy edge (polygon.edges.getD prev satc_point_alloca)
    let point2 := satc_point_sub (satc_point_copy satc_point_alloca circle_pos)
      (points.getD prev satc_point_alloca)
    let region := satc_voronoi_region edge point2
    if region = SATC_RIGHT_VORONOI_REGION then
      let dist := satc_point_len m point
      if dist > radius then some none
      else
        match response with
        | some response =>
          let response := { response with b_in_a := false }
          let point := satc_point_normalize m point
          some (some (radius - dist, some point, some response))
        | none => some (some (overlap, overlap_n, none))
    else some (some (overlap, overlap_n, response))
  else if region = SATC_RIGHT_VORONOI_REGION then
    let edge := satc_point_copy edge (polygon.edges.getD next satc_point_alloca)
    let point := satc_point_sub (satc_point_copy point circle_pos)
      (points.getD next satc_point_alloca)
    let region := satc_voronoi_region edge point
    if region = SATC_LEFT_VORONOI_REGION then
      let dist := satc_point_len m point
      if dist > radius then some none
      else
        match response with
        | some response =>
          let response := { response with b_in_a := false }
          let point := satc_point_normalize m point
          some (some (radius - dist, some point, some response))
        | none => some (some (overlap, overlap_n, none))
    else some (some (overlap, overlap_n, response))
  else
    let edge := satc_point_normalize m (satc_point_perp edge)
    let normal := satc_point_copy satc_point_alloca edge
    let dist := satc_point_dot point normal
    let dist_abs := fabs dist
    if dist > 0 ∧ dist_abs > radius then some none
    else
      let overlap_n := some normal
      let overlap := radius - dist
      if dist ≥ 0 ∨ overlap < 2 * radius then
        match response with
        | some response => some (some (overlap, overlap_n, some { response with b_in_a := false }))
        | none => none
      else some (some (overlap, overlap_n, response))

/-- The statement `if (response != NULL && satc_point_len2(point) > radius2)
response->a_in_b = false;` of the loop body of `satc_test_polygon_circle`. -/
def satc_test_polygon_circle_a_in_b (point : satc_point K) (radius2 : K)
    (response : Option (satc_response K)) : Option (satc_response K) :=
  match response with
  | some response =>
    if satc_point_len2 point > radius2 then some { response with a_in_b := false }
    else some response
  | none => none

/-- The last statement of the loop body of `satc_test_polygon_circle`:
`if (overlap_n != NULL && response != NULL && fabs(overlap) < fabs(response->overlap))`
the overlap and its normal are stored in the response. -/
def satc_test_polygon_circle_update (overlap : K) (overlap_n : Option (satc_point K))
    (response : Option (satc_response K)) : Option (satc_response K) :=
  match overlap_n, response with
  | some overlap_n, some response =>
    if fabs overlap < fabs response.overlap then
      some { response with
        overlap := overlap, overlap_n := satc_point_copy response.overlap_n overlap_n }
    else some response
  | _, response => response

/-- The body of the `for` loop of `satc_test_polygon_circle` for the index `i`: `none` when
an absent response is dereferenced, `some (false, response)` when the function returns
false, `some (true, response)` when the loop goes on. -/
def satc_test_polygon_circle_body (m : MathFns K) (polygon : satc_polygon K)
    (circle : satc_circle K) (i : Nat) (response : Option (satc_response K)) :
    Option (Bool × Option (satc_response K)) :=
  let circle_pos := satc_point_sub (satc_point_copy satc_point_alloca circle.pos) polygon.pos
  let radius := circle.r
  let radius2 := radius * radius
  let points := polygon.calc_points
  let edge := satc_point_copy satc_point_alloca (polygon.edges.getD i satc_point_alloca)
  let point := satc_point_sub (satc_point_copy satc_point_alloca circle_pos)
    (points.getD i satc_point_alloca)
  let response := satc_test_polygon_circle_a_in_b point radius2 response
  match satc_test_polygon_circle_region m polygon circle_pos radius i edge point response with
  | none => none
  | some none => some (false, response)
  | some (some (overlap, overlap_n, response)) =>
    some (true, satc_test_polygon_circle_update overlap overlap_n response)

/-- The `for` loop of `satc_test_polygon_circle` over the indices `is`. -/
def satc_test_polygon_circle_loop (m : MathFns K) (polygon : satc_polygon K)
    (circle : satc_circle K) :
    List Nat → Option (satc_response K) → Option (Bool × Option (satc_response K))
  | [], response => some (true, response)
  | i :: is, response =>
    match satc_test_polygon_circle_body m polygon circle i response with
    | none => none
    | some (false, response) => some (false, response)
    | some (true, response) => satc_test_polygon_circle_loop m polygon circle is response

/-- The function `satc_test_polygon_circle`: `none` when the absent response is
dereferenced, otherwise the returned boolean and the response after the call. -/
def satc_test_polygon_circle (m : MathFns K) (polygon : satc_polygon K)
    (circle : satc_circle K) (response : Option (satc_response K)) :
    Option (Bool × Option (satc_response K)) :=
  let len := polygon.calc_points.length
  match satc_test_polygon_circle_loop m polygon circle (List.range len) response with
  | none => none
  | some (false, response) => some (false, response)
  | some (true, response) =>
    match response with
    | none => some (true, none)
    | some response =>
      let response := { response with a := some (satc_shape.polygon polygon),
                                      b := some (satc_shape.circle circle) }
      let response := { response with
        overlap_v := satc_point_copy response.overlap_v response.overlap_n }
      some (true, some { response with
        overlap_v := satc_point_scale_x response.overlap_v response.overlap })

/-- The function `satc_test_circle_polygon`. -/
def satc_test_circle_polygon (m : MathFns K) (circle : satc_circle K)
    (polygon : satc_polygon K) (response : Option (satc_response K)) :
    Option (Bool × Option (satc_response K)) :=
  match satc_test_polygon_circle m polygon circle response with
  | none => none
  | some (result, response) =>
    match result, response with
    | true, some response =>
      let a := response.a
      let a_in_b := response.a_in_b
      let response := { response with
        overlap_n := satc_point_reverse response.overlap_n }
      let response := { response with
        overlap_v := satc_point_reverse response.overlap_v }
      let response := { response with a := response.b }
      let response := { response with b := a }
      let response := { response with a_in_b := response.b_in_a }
      some (result, some { response with b_in_a := a_in_b })
    | result, response => some (result, response)

/-- Spec wording of C1 for one axis `n`: the range of `dot(w, n)` over A's world points
(`calc_points`) and the range of `dot(w, n)` over B's world points moved by
`dot(B.pos - A.pos, n)` intersect, that is the least value of each is at most the greatest
value of the other. -/
def spec_ranges_intersect (a b : satc_polygon K) (n : satc_point K) : Prop :=
  (∃ wa ∈ a.calc_points, ∃ wb ∈ b.calc_points,
      satc_point_dot wa n ≤ satc_point_dot wb n + satc_point_dot (satc_point_sub b.pos a.pos) n) ∧
  (∃ wa ∈ a.calc_points, ∃ wb ∈ b.calc_points,
      satc_point_dot wb n + satc_point_dot (satc_point_sub b.pos a.pos) n ≤ satc_point_dot wa n)

/-- Spec wording of C1: no normal of A and no normal of B separates the world-space point
sets. -/
def spec_no_separating_normal (a b : satc_polygon K) : Prop :=
  ∀ n ∈ a.normals ++ b.normals, spec_ranges_intersect a b n

/-- Spec wording of C2: after moving A's position by `-overlap_v`, the projections of A and
of B onto `overlap_n` overlap in at most a single point. -/
def spec_separated_by (a b : satc_polygon K) (r : satc_response K) : Prop :=
  (∀ wa ∈ a.calc_points, ∀ wb ∈ b.calc_points,
      satc_point_dot (satc_point_add wa (satc_point_sub a.pos r.overlap_v)) r.overlap_n ≤
        satc_point_dot (satc_point_add wb b.pos) r.overlap_n) ∨
  (∀ wa ∈ a.calc_points, ∀ wb ∈ b.calc_points,
      satc_point_dot (satc_point_add wb b.pos) r.overlap_n ≤
        satc_point_dot (satc_point_add wa (satc_point_sub a.pos r.overlap_v)) r.overlap_n)

/-- Spec wording of C10: the square polygon of side `1e-6` centered at `q`, whose four
corners are `q + (±0.5e-6, ±0.5e-6)`. -/
def spec_centered_square (m : MathFns K) (q : satc_point K) : satc_polygon K :=
  satc_polygon_create m q
    [⟨-(1 / 2000000), -(1 / 2000000)⟩, ⟨1 / 2000000, -(1 / 2000000)⟩,
      ⟨1 / 2000000, 1 / 2000000⟩, ⟨-(1 / 2000000), 1 / 2000000⟩]

/-- Spec wording of C10: "collided and `a_in_b`" of the result of a test that was given a
response. -/
def spec_collided_and_a_in_b (result : Bool × Option (satc_response K)) : Bool :=
  result.1 && (match result.2 with
    | some response => response.a_in_b
    | none => false)

/-- Auxiliary: on `axis`, A's range lies inside B's range moved by the projected offset. -/
def axis_a_in_b (a b : satc_polygon K) (axis : satc_point K) : Bool :=
  decide ((satc_flatten_points_on b.points.length b.points axis).1 +
        satc_point_dot (satc_point_sub b.pos a.pos) axis ≤
      (satc_flatten_points_on a.points.length a.points axis).1 ∧
    (satc_flatten_points_on a.points.length a.points axis).2 ≤
      (satc_flatten_points_on b.points.length b.points axis).2 +
        satc_point_dot (satc_point_sub b.pos a.pos) axis)

/-- A 20x20 box at `(x, y)`, as in the tests, turned into a polygon. -/
def box20_at (m : MathFns K) (x y : K) : satc_polygon K :=
  satc_box_to_polygon m (satc_box_create ⟨x, y⟩ 20 20)

/-- Spec wording of C18: the world points, `vertices[i] + offset` when the angle is 0 and
`satc_point_rotate(vertices[i] + offset, angle)` otherwise, for the indices below the number
of vertices. -/
def spec_calc_points (m : MathFns K) (p : satc_polygon K) : List (satc_point K) :=
  (List.range p.points.length).map (fun i =>
    if p.angle ≠ 0 then
      satc_point_rotate m (satc_point_add (p.points.getD i satc_point_alloca) p.offset) p.angle
    else satc_point_add (p.points.getD i satc_point_alloca) p.offset)

/-- Spec wording of C18: the edge `calc_points[next(i)] - calc_points[i]` of a polygon with
`n` vertices, where `next` wraps to 0 at the last index. -/
def spec_edge (n : Nat) (calc_points : List (satc_point K)) (i : Nat) : satc_point K :=
  satc_point_sub
    (if i < n - 1 then calc_points.getD (i + 1) satc_point_alloca
      else calc_points.getD 0 satc_point_alloca)
    (calc_points.getD i satc_point_alloca)

/-- Spec wording of C19: the four sequences have the same length, and `calc_points`, `edges`
and `normals` are what recalculation yields from the current vertices, angle and offset. -/
def satc_polygon_consistent (m : MathFns K) (p : satc_polygon K) : Prop :=
  p.calc_points.length = p.points.length ∧ p.edges.length = p.points.length ∧
    p.normals.length = p.points.length ∧ _satc_polygon_recalc m p = p

/-- Spec wording of C15: the response with `a` and `b` swapped, `a_in_b` and `b_in_a`
swapped, `overlap` unchanged, and `overlap_n` and `overlap_v` negated. -/
def spec_flip_response (r : satc_response K) : satc_response K :=
  { a := r.b, b := r.a, overlap := r.overlap,
    overlap_n := ⟨-r.overlap_n.x, -r.overlap_n.y⟩,
    overlap_v := ⟨-r.overlap_v.x, -r.overlap_v.y⟩,
    a_in_b := r.b_in_a, b_in_a := r.a_in_b }

/-- The function `satc_circle_get_aabb`. -/
def satc_circle_get_aabb (m : MathFns K) (circle : satc_circle K) : satc_polygon K :=
  let r := circle.r
  let corner := satc_point_copy satc_point_alloca circle.pos
  let corner : satc_point K := ⟨corner.x - r, corner.y - r⟩
  let box := satc_box_create corner (r * 2) (r * 2)
  satc_box_to_polygon m box

/-- The `for` loop of `satc_polygon_get_aabb` over the indices `1 ≤ i < num_points`; the
state is `(x_min, x_max, y_min, y_max)`. -/
def satc_polygon_get_aabb_loop (points : List (satc_point K)) (init : K × K × K × K) :
    K × K × K × K :=
  (List.range points.length).tail.foldl
    (fun (acc : K × K × K × K) i =>
      let x := (points.getD i satc_point_alloca).x
      let y := (points.getD i satc_point_alloca).y
      let x_min := if x < acc.1 then x else acc.1
      let x_max := if x > acc.2.1 then x else acc.2.1
      let y_min := if y < acc.2.2.1 then y else acc.2.2.1
      let y_max := if y > acc.2.2.2 then y else acc.2.2.2
      (x_min, x_max, y_min, y_max))
    init

/-- The function `satc_polygon_get_aabb`.  The source initialises `y_max` with `x_max`, and
it reads the point `pos` right after `satc_point_alloca(pos)`, before anything was written
to it: `pos0` stands for those contents.  The result is `none` when `points[0]` is outside
the array. -/
def satc_polygon_get_aabb (m : MathFns K) (pos0 : satc_point K) (polygon : satc_polygon K) :
    Option (satc_polygon K) :=
  match polygon.points[0]? with
  | none => none
  | some p0 =>
    let x_min := p0.x
    let y_min := p0.y
    let x_max := x_min
    let y_max := x_max
    let acc := satc_polygon_get_aabb_loop polygon.points (x_min, x_max, y_min, y_max)
    let x_min := acc.1
    let x_max := acc.2.1
    let y_min := acc.2.2.1
    let y_max := acc.2.2.2
    let pos : satc_point K := ⟨pos0.x + x_min, pos0.y + y_min⟩
    let box := satc_box_create pos (x_max - x_min) (y_max - y_min)
    some (satc_box_to_polygon m box)

/-- The `for` loop of `satc_polygon_translate`, whose body is the statement
`points[i][0] = x` alone. -/
def satc_polygon_translate_loop (points : List (satc_point K)) (x : K) :
    List (satc_point K) :=
  (List.range points.length).foldl
    (fun (ps : List (satc_point K)) i => ps.set i ⟨x, (ps.getD i satc_point_alloca).y⟩)
    points

/-- The value of the local variable `overlap` of `satc_is_separating_axis` after the
branches on the two ranges, `range_b` being B's range already moved by the projected
offset. -/
def satc_is_separating_axis_overlap (range_a range_b : K × K) : K :=
  if range_a.1 < range_b.1 then
    if range_a.2 < range_b.2 then range_a.2 - range_b.2
    else
      let option_1 := range_a.2 - range_b.1
      let option_2 := range_b.2 - range_a.1
      if option_1 < option_2 then option_1 else -option_2
  else
    if range_a.2 > range_b.2 then range_a.1 - range_b.2
    else
      let option_1 := range_a.2 - range_b.1
      let option_2 := range_b.2 - range_a.1
      if option_1 < option_2 then option_1 else -option_2

/-- Spec wording of C26: a containment flag that is false in `r` is false in `r1`. -/
def spec_flags_not_restored (r r1 : satc_response K) : Prop :=
  (r.a_in_b = false → r1.a_in_b = false) ∧ (r.b_in_a = false → r1.b_in_a = false)

/-- The rectangle 10 wide and 5 high, its vertices listed from the corner `(10, 0)`. -/
def rectangle_10_5 (m : MathFns K) : satc_polygon K :=
  satc_polygon_create m ⟨0, 0⟩ [⟨10, 0⟩, ⟨10, 5⟩, ⟨0, 5⟩, ⟨0, 0⟩]

/-- Spec wording of C29: the ranges `[ra.1, ra.2]` and `[rb.1, rb.2]` intersect in at most
one point. -/
def spec_ranges_meet_in_at_most_one_point (ra rb : K × K) : Prop :=
  ∀ t u : K, (ra.1 ≤ t ∧ t ≤ ra.2 ∧ rb.1 ≤ t ∧ t ≤ rb.2) →
    (ra.1 ≤ u ∧ u ≤ ra.2 ∧ rb.1 ≤ u ∧ u ≤ rb.2) → t = u

/-- The function `satc_point_project`.  The macros `satc_point_dot` and `satc_point_len2`
expand without parentheses, so the source reads
`amt = p[0] * q[0] + p[1] * q[1] / q[0] * q[0] + q[1] * q[1]`, and the two writes scale `p`.
In C the division at `q[0] = 0` gives a NaN or an infinity, which `K` does not have. -/
def satc_point_project (p q : satc_point K) : satc_point K :=
  let amt := p.x * q.x + p.y * q.y / q.x * q.x + q.y * q.y
  ⟨amt * p.x, amt * p.y⟩

/-- The function `satc_point_project_n`. -/
def satc_point_project_n (p q : satc_point K) : satc_point K :=
  let amt := satc_point_dot p q
  ⟨amt * p.x, amt * p.y⟩

/-- The function `satc_point_normalize` with its division by zero made visible: `none`
when the statement `p[1] = p[1] / d`, which the guard `d > 0` does not cover, divides by
`d = 0` (the value on doubles is then a NaN or an infinity), and otherwise the point that
`satc_point_normalize` returns. -/
def satc_point_normalize_checked (m : MathFns K) (p : satc_point K) :
    Option (satc_point K) :=
  let d := satc_point_len m p
  let x := if d > 0 then p.x / d else p.x
  if d = 0 then none else some ⟨x, p.y / d⟩

/-- Spec wording of C36: the orthogonal projection of `p` onto `q`,
`(dot(p, q) / |q|²) · q`. -/
def spec_orthogonal_projection (p q : satc_point K) : satc_point K :=
  satc_point_scale_x q (satc_point_dot p q / satc_point_len2 q)

/-- A triangle whose first two vertices coincide, so that its first edge is the zero
vector. -/
def triangle_repeated_vertex (m : MathFns K) : satc_polygon K :=
  satc_polygon_create m ⟨0, 0⟩ [⟨0, 0⟩, ⟨0, 0⟩, ⟨10, 0⟩]

end Defs

/-! ## The arithmetic of `double`

`Dbl` is the C type `double` as IEEE 754 binary64 with the default rounding (to nearest,
ties to even), which is what the operators `+ - * /` and `sqrt` of the library compute when
the compiler keeps every intermediate result in a `double`.  A finite value is a sign and a
number of units `2^(-1074)` (the smallest subnormal), so every finite double is an integer
number of units below `2^2098`.  The sign of a zero is not kept: there is one zero, and a
non-zero value divided by it is the infinity of the sign of the dividend.  The functions
`cos` and `sin` have no fixed values in C beyond `cos(0) = 1` and `sin(0) = 0`; at other
arguments the record `Dbl.math` yields NaN, and the library calls neither on a polygon of
angle 0.
-/

/-- A value of the C type `double`: a finite value `(-1)^neg * n * 2^(-1074)`, an infinity,
or a NaN. -/
inductive Dbl where
  | fin (neg : Bool) (n : Nat) : Dbl
  | inf (neg : Bool) : Dbl
  | nan : Dbl
deriving DecidableEq

/-- The finite double of sign `neg` and `n` units; zero has no sign. -/
def Dbl.mk (neg : Bool) (n : Nat) : Dbl := if n = 0 then Dbl.fin false 0 else Dbl.fin neg n

/-- The position of the leading bit of `n`, for `0 < n < 2^8192`. -/
def Dbl.log2 (n : Nat) : Nat :=
  [4096, 2048, 1024, 512, 256, 128, 64, 32, 16, 8, 4, 2, 1].foldl
    (fun e k => if 2 ^ (e + k) ≤ n then e + k else e) 0

/-- Rounding to nearest, ties to even: the double of sign `neg` nearest to `num / den`
units.  The quotient keeps 53 significant bits (fewer below `2^53` units, where the spacing
of the doubles is one unit); a quotient that rounds to `2^2098` units (`2^1024`) or more is
an infinity. -/
def Dbl.round (neg : Bool) (num den : Nat) : Dbl :=
  let e := Dbl.log2 (num / den) - 52
  let d := den * 2 ^ e
  let q := num / d
  let r := num % d
  let q := if 2 * r > d ∨ (2 * r = d ∧ q % 2 = 1) then q + 1 else q
  if q * 2 ^ e ≥ 2 ^ 2098 then Dbl.inf neg else Dbl.mk neg (q * 2 ^ e)

/-- The operator `+` on doubles. -/
def Dbl.add : Dbl → Dbl → Dbl
  | Dbl.fin s a, Dbl.fin t b =>
    if s = t then Dbl.round s (a + b) 1
    else if a ≥ b then Dbl.round s (a - b) 1 else Dbl.round t (b - a) 1
  | Dbl.fin _ _, Dbl.inf t => Dbl.inf t
  | Dbl.inf s, Dbl.fin _ _ => Dbl.inf s
  | Dbl.inf s, Dbl.inf t => if s = t then Dbl.inf s else Dbl.nan
  | _, _ => Dbl.nan

/-- The unary operator `-` on doubles. -/
def Dbl.neg : Dbl → Dbl
  | Dbl.fin s a => Dbl.mk (!s) a
  | Dbl.inf s => Dbl.inf (!s)
  | Dbl.nan => Dbl.nan

/-- The operator `-` on doubles. -/
def Dbl.sub (x y : Dbl) : Dbl := Dbl.add x (Dbl.neg y)

/-- The operator `*` on doubles. -/
def Dbl.mul : Dbl → Dbl → Dbl
  | Dbl.fin s a, Dbl.fin t b => Dbl.round (s != t) (a * b) (2 ^ 1074)
  | Dbl.fin s a, Dbl.inf t => if a = 0 then Dbl.nan else Dbl.inf (s != t)
  | Dbl.inf s, Dbl.fin t b => if b = 0 then Dbl.nan else Dbl.inf (s != t)
  | Dbl.inf s, Dbl.inf t => Dbl.inf (s != t)
  | _, _ => Dbl.nan

/-- The operator `/` on doubles. -/
def Dbl.div : Dbl → Dbl → Dbl
  | Dbl.fin s a, Dbl.fin t b =>
    if b = 0 then (if a = 0 then Dbl.nan else Dbl.inf (s != t))
    else Dbl.round (s != t) (a * 2 ^ 1074) b
  | Dbl.fin _ _, Dbl.inf _ => Dbl.fin false 0
  | Dbl.inf s, Dbl.fin t _ => Dbl.inf (s != t)
  | _, _ => Dbl.nan

/-- Newton iteration for the integer square root of `n`, from a start `x` above the root. -/
def Dbl.isqrt_aux : Nat → Nat → Nat → Nat
  | 0, _, x => x
  | fuel + 1, n, x =>
    let y := (x + n / x) / 2
    if y < x then Dbl.isqrt_aux fuel n y else x

/-- The integer square root of `n < 2^8192`, rounded down. -/
def Dbl.isqrt (n : Nat) : Nat :=
  if n = 0 then 0 else Dbl.isqrt_aux 64 n (2 ^ (Dbl.log2 n / 2 + 1))

/-- The function `sqrt` of `math.h` on doubles, rounded to nearest. -/
def Dbl.sqrt : Dbl → Dbl
  | Dbl.fin s a =>
    if a = 0 then Dbl.fin false 0
    else if s then Dbl.nan
    else
      let n := a * 2 ^ 1074
      let s0 := Dbl.isqrt n
      let e := Dbl.log2 s0 - 52
      let q := s0 / 2 ^ e
      let q := if 4 * n > (2 * q + 1) ^ 2 * 4 ^ e then q + 1 else q
      Dbl.mk false (q * 2 ^ e)
  | Dbl.inf s => if s then Dbl.nan else Dbl.inf false
  | Dbl.nan => Dbl.nan

/-- The operator `<` on doubles; a comparison with a NaN is false. -/
def Dbl.lt : Dbl → Dbl → Bool
  | Dbl.fin s a, Dbl.fin t b =>
    match s, t with
    | false, false => decide (a < b)
    | true, true => decide (b < a)
    | true, false => decide (0 < a ∨ 0 < b)
    | false, true => false
  | Dbl.fin _ _, Dbl.inf t => !t
  | Dbl.inf s, Dbl.fin _ _ => s
  | Dbl.inf s, Dbl.inf t => s && !t
  | _, _ => false

/-- The operator `<=` on doubles; a comparison with a NaN is false. -/
def Dbl.le : Dbl → Dbl → Bool
  | Dbl.nan, _ => false
  | _, Dbl.nan => false
  | x, y => !(Dbl.lt y x)

/-- The double nearest to the natural number `n`: the value of an integer literal. -/
def Dbl.ofNat (n : Nat) : Dbl := Dbl.round false (n * 2 ^ 1074) 1

/-- The exact value of a finite double, as a rational number (0 for an infinity and a
NaN). -/
def Dbl.toRat : Dbl → ℚ
  | Dbl.fin s a => (if s then -1 else 1) * (a : ℚ) / 2 ^ 1074
  | _ => 0

instance : Zero Dbl := ⟨Dbl.fin false 0⟩

instance : One Dbl := ⟨Dbl.ofNat 1⟩

instance : NatCast Dbl := ⟨Dbl.ofNat⟩

instance : Add Dbl := ⟨Dbl.add⟩

instance : Sub Dbl := ⟨Dbl.sub⟩

instance : Mul Dbl := ⟨Dbl.mul⟩

instance : Div Dbl := ⟨Dbl.div⟩

instance : Neg Dbl := ⟨Dbl.neg⟩

instance : LT Dbl := ⟨fun x y => Dbl.lt x y = true⟩

instance : LE Dbl := ⟨fun x y => Dbl.le x y = true⟩

instance (x y : Dbl) : Decidable (x < y) := inferInstanceAs (Decidable (Dbl.lt x y = true))

instance (x y : Dbl) : Decidable (x ≤ y) := inferInstanceAs (Decidable (Dbl.le x y = true))

/-- The functions of `math.h` on doubles: `sqrt` rounded to nearest, and `cos` and `sin`
with their values at 0 only. -/
def Dbl.math : MathFns Dbl :=
  { sqrt := Dbl.sqrt
    cos := fun x => if x = 0 then 1 else Dbl.nan
    sin := fun x => if x = 0 then 0 else Dbl.nan }

theorem satc_point_copy_eq {K : Type} (p q : satc_point K) : satc_point_copy p q = q := rfl

/-- A loop that writes `g i` at every index `i < n` of an array of at least `n` cells. -/
theorem foldl_set_range {α : Type} (g : Nat → α) (n : Nat) (l : List α) (hn : n ≤ l.length) :
    (List.range n).foldl (fun l i => l.set i (g i)) l = (List.range n).map g ++ l.drop n := by
  induction n with
  | zero => simp
  | succ k ih =>
    have hk : k < l.length := hn
    rw [List.range_succ, List.foldl_append, ih (Nat.le_of_lt hk)]
    simp only [List.foldl_cons, List.foldl_nil, List.map_append, List.map_cons, List.map_nil]
    have hlen : ((List.range k).map g).length = k := by simp
    rw [List.set_append_right _ _ (by simp), hlen, Nat.sub_self, List.append_assoc]
    congr 1
    rw [List.drop_eq_getElem_cons hk]
    rfl

/-- A loop that replaces the cell at every index `i < n` by `f` of its contents. -/
theorem foldl_set_range_self {α : Type} (f : α → α) (d : α) (n : Nat) (l : List α)
    (hn : n ≤ l.length) :
    (List.range n).foldl (fun l i => l.set i (f (l.getD i d))) l =
      (l.take n).map f ++ l.drop n := by
  induction n with
  | zero => simp
  | succ k ih =>
    have hk : k < l.length := hn
    rw [List.range_succ, List.foldl_append, ih (Nat.le_of_lt hk)]
    simp only [List.foldl_cons, List.foldl_nil]
    have hlen : ((l.take k).map f).length = k := by simp [Nat.min_eq_left (Nat.le_of_lt hk)]
    have hget : ((l.take k).map f ++ l.drop k).getD k d = l[k] := by
      rw [List.getD_eq_getElem?_getD, List.getElem?_append_right (by rw [hlen]), hlen,
        Nat.sub_self, List.getElem?_drop, Nat.add_zero, List.getElem?_eq_getElem hk]
      rfl
    rw [hget, List.set_append_right _ _ (by rw [hlen]), hlen, Nat.sub_self,
      List.drop_eq_getElem_cons hk, List.take_succ, List.getElem?_eq_getElem hk]
    simp only [List.set_cons_zero, Option.toList, List.map_append, List.map_cons, List.map_nil,
      List.append_assoc, List.singleton_append]

/-- A loop that writes two arrays at once is the pair of the two loops. -/
theorem foldl_pair_set {α : Type} (g h : Nat → α) (is : List Nat) (l1 l2 : List α) :
    is.foldl (fun (p : List α × List α) i => (p.1.set i (g i), p.2.set i (h i))) (l1, l2) =
      (is.foldl (fun l i => l.set i (g i)) l1, is.foldl (fun l i => l.set i (h i)) l2) := by
  induction is generalizing l1 l2 with
  | nil => rfl
  | cons i is ih => simp only [List.foldl_cons]; exact ih _ _

/-- Reading every cell of a list by index and applying `f` is mapping `f`. -/
theorem map_range_getD {α β : Type} (l : List α) (d : α) (f : α → β) :
    (List.range l.length).map (fun i => f (l.getD i d)) = l.map f := by
  apply List.ext_getElem
  · simp
  · intro i h1 h2
    have hi : i < l.length := by simpa using h2
    simp [List.getElem?_eq_getElem hi]

theorem spec_flags_not_restored_refl {K : Type} (r : satc_response K) :
    spec_flags_not_restored r r :=
  ⟨id, id⟩

theorem spec_flags_not_restored_trans {K : Type} {r1 r2 r3 : satc_response K}
    (h12 : spec_flags_not_restored r1 r2) (h23 : spec_flags_not_restored r2 r3) :
    spec_flags_not_restored r1 r3 :=
  ⟨fun h => h23.1 (h12.1 h), fun h => h23.2 (h12.2 h)⟩

section Lemmas

variable {K : Type} [LinearOrderedField K]

/-- In a linear ordered field `fabs` is the absolute value. -/
@[simp] theorem fabs_eq_abs (x : K) : fabs x = |x| := by
  unfold fabs
  split_ifs with h
  · exact (abs_of_neg h).symm
  · exact (abs_of_nonneg (not_lt.1 h)).symm

/-- In a linear ordered field `DBL_MAX` is `2^1024 - 2^971`. -/
theorem DBL_MAX_eq : (DBL_MAX : K) = 2 ^ 1024 - 2 ^ 971 := by
  unfold DBL_MAX
  have h : (2 : ℕ) ^ 971 ≤ 2 ^ 1024 := pow_le_pow_right₀ (by norm_num) (by norm_num)
  rw [Nat.cast_sub h, Nat.cast_pow, Nat.cast_pow, Nat.cast_ofNat]

theorem DBL_MAX_pos : (0 : K) < DBL_MAX := by
  rw [DBL_MAX_eq]
  have h : (2 : K) ^ 971 < 2 ^ 1024 := pow_lt_pow_right₀ (by norm_num) (by norm_num)
  linarith

/-- The boolean of the axis test, as a formula on the two flattened ranges; it does not
depend on the response. -/
theorem satc_is_separating_axis_fst {K : Type} [Zero K] [NatCast K] [Add K] [Sub K] [Mul K] [Neg K]
    [LT K]
    [∀ a b : K, Decidable (a < b)]
    (a_pos b_pos : satc_point K) (a_len : Nat)
    (a_points : List (satc_point K)) (b_len : Nat) (b_points : List (satc_point K))
    (axis : satc_point K) (response : Option (satc_response K)) :
    (satc_is_separating_axis a_pos b_pos a_len a_points b_len b_points axis response).1 =
      decide ((satc_flatten_points_on a_len a_points axis).1 >
          (satc_flatten_points_on b_len b_points axis).2 +
            satc_point_dot (satc_point_sub b_pos a_pos) axis ∨
        (satc_flatten_points_on b_len b_points axis).1 +
            satc_point_dot (satc_point_sub b_pos a_pos) axis >
          (satc_flatten_points_on a_len a_points axis).2) := by
  unfold satc_is_separating_axis
  simp only [satc_point_copy]
  split_ifs with h
  · simp [h]
  · cases response with
    | none => simp [h]
    | some r => simp [h]

/-- A loop of the polygon-polygon test runs to its end iff none of its axes separates. -/
theorem satc_test_polygon_polygon_loop_fst {K : Type} [Zero K] [NatCast K] [Add K] [Sub K] [Mul K]
    [Neg K] [LT K]
    [∀ a b : K, Decidable (a < b)]
    (a b : satc_polygon K)
    (normals : List (satc_point K)) (is : List Nat) (response : Option (satc_response K)) :
    (satc_test_polygon_polygon_loop a b normals is response).1 =
      is.all (fun i => !(satc_is_separating_axis a.pos b.pos a.points.length a.points
        b.points.length b.points (normals.getD i satc_point_alloca) none).1) := by
  induction is generalizing response with
  | nil => simp [satc_test_polygon_polygon_loop]
  | cons i is ih =>
    rw [satc_test_polygon_polygon_loop]
    have h := satc_is_separating_axis_fst a.pos b.pos a.points.length a.points
        b.points.length b.points (normals.getD i satc_point_alloca)
    have h1 := h response
    have h2 := h none
    rcases hr : satc_is_separating_axis a.pos b.pos a.points.length a.points
        b.points.length b.points (normals.getD i satc_point_alloca) response with ⟨c, r'⟩
    rw [hr] at h1
    simp only at h1
    cases c with
    | true =>
      simp only [List.all_cons]
      rw [h2, ← h1]; simp
    | false =>
      simp only [List.all_cons]
      rw [ih, h2, ← h1]; simp

/-- The polygon-polygon test returns true iff no normal of `a` and no normal of `b`,
read at the indices below the number of points, separates. -/
theorem satc_test_polygon_polygon_fst {K : Type} [Zero K] [NatCast K] [Add K] [Sub K] [Mul K]
    [Neg K] [LT K]
    [∀ a b : K, Decidable (a < b)]
    (a b : satc_polygon K)
    (response : Option (satc_response K)) :
    (satc_test_polygon_polygon a b response).1 =
      ((List.range a.points.length).all (fun i =>
          !(satc_is_separating_axis a.pos b.pos a.points.length a.points
            b.points.length b.points (a.normals.getD i satc_point_alloca) none).1) &&
        (List.range b.points.length).all (fun i =>
          !(satc_is_separating_axis a.pos b.pos a.points.length a.points
            b.points.length b.points (b.normals.getD i satc_point_alloca) none).1)) := by
  unfold satc_test_polygon_polygon
  simp only []
  have h1 := satc_test_polygon_polygon_loop_fst a b a.normals (List.range a.points.length) response
  rcases hr : satc_test_polygon_polygon_loop a b a.normals (List.range a.points.length) response
    with ⟨c, r'⟩
  rw [hr] at h1
  simp only at h1
  cases c with
  | false => rw [← h1]; simp
  | true =>
    rw [← h1]
    simp only [Bool.true_and]
    have h2 := satc_test_polygon_polygon_loop_fst a b b.normals (List.range b.points.length) r'
    rcases hr2 : satc_test_polygon_polygon_loop a b b.normals (List.range b.points.length) r'
      with ⟨c2, r2⟩
    rw [hr2] at h2
    simp only at h2
    rw [← h2]
    cases c2 with
    | false => rfl
    | true => cases r2 <;> rfl

/-- Exchanging the two shapes does not change what the axis test returns. -/
theorem satc_is_separating_axis_swap (a_pos b_pos : satc_point K) (a_len : Nat)
    (a_points : List (satc_point K)) (b_len : Nat) (b_points : List (satc_point K))
    (axis : satc_point K) (r1 r2 : Option (satc_response K)) :
    (satc_is_separating_axis a_pos b_pos a_len a_points b_len b_points axis r1).1 =
      (satc_is_separating_axis b_pos a_pos b_len b_points a_len a_points axis r2).1 := by
  rw [satc_is_separating_axis_fst, satc_is_separating_axis_fst]
  simp only [satc_point_dot, satc_point_sub, decide_eq_decide]
  constructor
  · rintro (h | h)
    · right; linarith
    · left; linarith
  · rintro (h | h)
    · right; linarith
    · left; linarith

theorem range4 : List.range 4 = [0, 1, 2, 3] := by decide

theorem satc_box_to_polygon_eq (m : MathFns K) (box : satc_box K) :
    satc_box_to_polygon m box =
      { pos := box.pos
        points := [⟨0, 0⟩, ⟨box.w, 0⟩, ⟨box.w, box.h⟩, ⟨0, box.h⟩]
        angle := 0
        offset := ⟨0, 0⟩
        calc_points := [⟨0, 0⟩, ⟨box.w, 0⟩, ⟨box.w, box.h⟩, ⟨0, box.h⟩]
        edges := [⟨box.w, 0⟩, ⟨0, box.h⟩, ⟨-box.w, 0⟩, ⟨0, -box.h⟩]
        normals := [satc_point_normalize m ⟨0, -box.w⟩, satc_point_normalize m ⟨box.h, 0⟩,
          satc_point_normalize m ⟨0, box.w⟩, satc_point_normalize m ⟨-box.h, 0⟩] } := by
  simp [satc_box_to_polygon, satc_polygon_create, satc_polygon_set_points,
    _satc_polygon_copy_points, _satc_polygon_recalc, _satc_polygon_reset_normals,
    _satc_polygon_reset_edges, _satc_polygon_reset_calc_points, range4, satc_point_clone,
    satc_point_create, satc_point_copy, satc_point_add, satc_point_sub, satc_point_perp,
    List.replicate]

theorem MathFns.IsSqrt.sqrt_mul_self {m : MathFns K} (hm : m.IsSqrt) {a : K} (ha : 0 ≤ a) :
    m.sqrt (a * a) = a :=
  (mul_self_inj (hm (a * a) (mul_self_nonneg a)).1 ha).1 (hm (a * a) (mul_self_nonneg a)).2

theorem satc_point_normalize_axis_x {m : MathFns K} (hm : m.IsSqrt) {a : K} (ha : 0 < a) :
    satc_point_normalize m ⟨a, 0⟩ = ⟨1, 0⟩ ∧ satc_point_normalize m ⟨-a, 0⟩ = ⟨-1, 0⟩ := by
  have h1 : m.sqrt (a * a) = a := hm.sqrt_mul_self ha.le
  have ha' : a ≠ 0 := ha.ne'
  constructor <;>
    simp [satc_point_normalize, satc_point_len, satc_point_len2, satc_point_dot, h1, ha, ha',
      neg_div]

theorem satc_point_normalize_axis_y {m : MathFns K} (hm : m.IsSqrt) {a : K} (ha : 0 < a) :
    satc_point_normalize m ⟨0, a⟩ = ⟨0, 1⟩ ∧ satc_point_normalize m ⟨0, -a⟩ = ⟨0, -1⟩ := by
  have h1 : m.sqrt (a * a) = a := hm.sqrt_mul_self ha.le
  have ha' : a ≠ 0 := ha.ne'
  constructor <;>
    simp [satc_point_normalize, satc_point_len, satc_point_len2, satc_point_dot, h1, ha, ha',
      neg_div]

theorem satc_flatten_box (w h : K) (hw : 0 < w) (hh : 0 < h) :
    satc_flatten_points_on 4 [⟨0, 0⟩, ⟨w, 0⟩, ⟨w, h⟩, ⟨0, h⟩] ⟨0, -1⟩ = (-h, 0) ∧
    satc_flatten_points_on 4 [⟨0, 0⟩, ⟨w, 0⟩, ⟨w, h⟩, ⟨0, h⟩] ⟨1, 0⟩ = (0, w) ∧
    satc_flatten_points_on 4 [⟨0, 0⟩, ⟨w, 0⟩, ⟨w, h⟩, ⟨0, h⟩] ⟨0, 1⟩ = (0, h) ∧
    satc_flatten_points_on 4 [⟨0, 0⟩, ⟨w, 0⟩, ⟨w, h⟩, ⟨0, h⟩] ⟨-1, 0⟩ = (-w, 0) := by
  have hD : (0 : K) < DBL_MAX := DBL_MAX_pos
  have hw' : ¬ (w < 0) := not_lt.2 hw.le
  have hh' : ¬ (h < 0) := not_lt.2 hh.le
  refine ⟨?_, ?_, ?_, ?_⟩ <;>
    simp [satc_flatten_points_on, range4, satc_point_dot, hD, hw, hh, hw', hh']
theorem DBL_MAX_gt_20 : (20 : K) < DBL_MAX := by
  rw [DBL_MAX_eq]
  have h : (2 : K) ^ 972 ≤ 2 ^ 1024 := pow_le_pow_right₀ (by norm_num) (by norm_num)
  have h2 : (20 : K) < 2 ^ 971 := by
    calc (20 : K) < 2 ^ 5 := by norm_num
      _ ≤ 2 ^ 971 := pow_le_pow_right₀ (by norm_num) (by norm_num)
  have h3 : (2 : K) ^ 972 = 2 * 2 ^ 971 := by rw [pow_succ]; ring
  linarith

theorem satc_point_len2_nonneg (p : satc_point K) : 0 ≤ satc_point_len2 p := by
  unfold satc_point_len2 satc_point_dot
  linarith [mul_self_nonneg p.x, mul_self_nonneg p.y]

/-- With a true square root, `s ≤ t` and `s² ≤ t²` agree for the length `s` and `t ≥ 0`. -/
theorem MathFns.IsSqrt.sqrt_le_iff {m : MathFns K} (hm : m.IsSqrt) {x t : K} (hx : 0 ≤ x)
    (ht : 0 ≤ t) : m.sqrt x ≤ t ↔ x ≤ t * t := by
  obtain ⟨h0, h1⟩ := hm x hx
  constructor
  · intro h
    calc x = m.sqrt x * m.sqrt x := h1.symm
      _ ≤ t * t := mul_le_mul h h h0 ht
  · intro h
    by_contra hc
    push_neg at hc
    have : t * t < m.sqrt x * m.sqrt x := mul_self_lt_mul_self ht hc
    linarith

/-- A closed disk of radius `ra ≥ 0` lies in a closed disk of radius `rb` iff the distance
`d` of the centres satisfies `ra ≤ rb` and `d ≤ rb - ra`. -/
theorem disk_subset_iff (ax ay bx by' ra rb d : K) (hra : 0 ≤ ra) (hrb : 0 ≤ rb) (hd : 0 ≤ d)
    (hdd : d * d = (bx - ax) * (bx - ax) + (by' - ay) * (by' - ay)) :
    (∀ px py : K, (px - ax) * (px - ax) + (py - ay) * (py - ay) ≤ ra * ra →
        (px - bx) * (px - bx) + (py - by') * (py - by') ≤ rb * rb) ↔
      (ra ≤ rb ∧ d ≤ rb - ra) := by
  constructor
  · intro h
    have key : d + ra ≤ rb := by
      rcases hd.eq_or_lt with h0 | hpos
      · have hz : (bx - ax) * (bx - ax) + (by' - ay) * (by' - ay) = 0 := by
          rw [← hdd, ← h0, mul_zero]
        have hx : bx - ax = 0 := by
          have : (bx - ax) * (bx - ax) ≤ 0 := by
            linarith [mul_self_nonneg (by' - ay)]
          exact mul_self_eq_zero.1 (le_antisymm this (mul_self_nonneg _))
        have hy : by' - ay = 0 := by
          have : (by' - ay) * (by' - ay) ≤ 0 := by
            linarith [mul_self_nonneg (bx - ax)]
          exact mul_self_eq_zero.1 (le_antisymm this (mul_self_nonneg _))
        have h1 := h (ax + ra) ay (by ring_nf; exact le_refl _)
        have hbx : bx = ax := by linarith
        have hby : by' = ay := by linarith
        rw [hbx, hby] at h1
        have h2 : ra * ra ≤ rb * rb := by
          have e : (ax + ra - ax) * (ax + ra - ax) + (ay - ay) * (ay - ay) = ra * ra := by ring
          rw [e] at h1; exact h1
        have : ra ≤ rb := by
          by_contra hc
          push_neg at hc
          have : rb * rb < ra * ra := mul_self_lt_mul_self hrb hc
          linarith
        linarith
      · have hd0 : d ≠ 0 := hpos.ne'
        have h1 := h (ax + ra * ((ax - bx) / d)) (ay + ra * ((ay - by') / d)) (by
          have e : (ax + ra * ((ax - bx) / d) - ax) * (ax + ra * ((ax - bx) / d) - ax) +
              (ay + ra * ((ay - by') / d) - ay) * (ay + ra * ((ay - by') / d) - ay) =
              ra * ra * (((bx - ax) * (bx - ax) + (by' - ay) * (by' - ay)) / (d * d)) := by
            field_simp; ring
          rw [e, ← hdd, div_self (mul_ne_zero hd0 hd0), mul_one])
        have e2 : (ax + ra * ((ax - bx) / d) - bx) * (ax + ra * ((ax - bx) / d) - bx) +
            (ay + ra * ((ay - by') / d) - by') * (ay + ra * ((ay - by') / d) - by') =
            (d + ra) * (d + ra) * (((bx - ax) * (bx - ax) + (by' - ay) * (by' - ay)) / (d * d)) := by
          field_simp; ring
        rw [e2, ← hdd, div_self (mul_ne_zero hd0 hd0), mul_one] at h1
        by_contra hc
        push_neg at hc
        have : rb * rb < (d + ra) * (d + ra) := mul_self_lt_mul_self hrb hc
        linarith
    exact ⟨by linarith, by linarith⟩
  · rintro ⟨_, h2⟩ px py hp
    have hsum : d + ra ≤ rb := by linarith
    have cs : ((px - ax) * (ax - bx) + (py - ay) * (ay - by')) *
        ((px - ax) * (ax - bx) + (py - ay) * (ay - by')) ≤ (ra * d) * (ra * d) := by
      have c1 : ((px - ax) * (ax - bx) + (py - ay) * (ay - by')) *
          ((px - ax) * (ax - bx) + (py - ay) * (ay - by')) ≤
          ((px - ax) * (px - ax) + (py - ay) * (py - ay)) * (d * d) := by
        rw [hdd]
        have lagrange : ((px - ax) * (px - ax) + (py - ay) * (py - ay)) *
            ((bx - ax) * (bx - ax) + (by' - ay) * (by' - ay)) =
            ((px - ax) * (ax - bx) + (py - ay) * (ay - by')) *
              ((px - ax) * (ax - bx) + (py - ay) * (ay - by')) +
            ((px - ax) * (ay - by') - (py - ay) * (ax - bx)) *
              ((px - ax) * (ay - by') - (py - ay) * (ax - bx)) := by ring
        linarith [mul_self_nonneg ((px - ax) * (ay - by') - (py - ay) * (ax - bx))]
      have c2 : ((px - ax) * (px - ax) + (py - ay) * (py - ay)) * (d * d) ≤ (ra * ra) * (d * d) :=
        mul_le_mul_of_nonneg_right hp (mul_self_nonneg d)
      calc _ ≤ _ := c1
        _ ≤ (ra * ra) * (d * d) := c2
        _ = (ra * d) * (ra * d) := by ring
    have uv : (px - ax) * (ax - bx) + (py - ay) * (ay - by') ≤ ra * d := by
      by_contra hc
      push_neg at hc
      have : (ra * d) * (ra * d) < ((px - ax) * (ax - bx) + (py - ay) * (ay - by')) *
          ((px - ax) * (ax - bx) + (py - ay) * (ay - by')) :=
        mul_self_lt_mul_self (mul_nonneg hra hd) hc
      linarith
    have e : (px - bx) * (px - bx) + (py - by') * (py - by') =
        ((px - ax) * (px - ax) + (py - ay) * (py - ay)) +
          2 * ((px - ax) * (ax - bx) + (py - ay) * (ay - by')) +
          ((bx - ax) * (bx - ax) + (by' - ay) * (by' - ay)) := by ring
    rw [e, ← hdd]
    have : (d + ra) * (d + ra) ≤ rb * rb :=
      mul_le_mul hsum hsum (add_nonneg hd hra) hrb
    have e3 : (d + ra) * (d + ra) = d * d + 2 * (ra * d) + ra * ra := by ring
    linarith
theorem real_isSqrt : (MathFns.mk Real.sqrt Real.cos Real.sin).IsSqrt :=
  fun x hx => ⟨Real.sqrt_nonneg x, Real.mul_self_sqrt hx⟩

theorem box20_at_eq (m : MathFns K) (hm : m.IsSqrt) (x y : K) :
    box20_at m x y =
      { pos := ⟨x, y⟩
        points := [⟨0, 0⟩, ⟨20, 0⟩, ⟨20, 20⟩, ⟨0, 20⟩]
        angle := 0
        offset := ⟨0, 0⟩
        calc_points := [⟨0, 0⟩, ⟨20, 0⟩, ⟨20, 20⟩, ⟨0, 20⟩]
        edges := [⟨20, 0⟩, ⟨0, 20⟩, ⟨-20, 0⟩, ⟨0, -20⟩]
        normals := [⟨0, -1⟩, ⟨1, 0⟩, ⟨0, 1⟩, ⟨-1, 0⟩] } := by
  have h20 : (0 : K) < 20 := by norm_num
  simp only [box20_at, satc_box_to_polygon_eq, satc_box_create, satc_point_clone,
    satc_point_create,
    (satc_point_normalize_axis_x hm h20).1, (satc_point_normalize_axis_x hm h20).2,
    (satc_point_normalize_axis_y hm h20).1, (satc_point_normalize_axis_y hm h20).2]

theorem box20_offset_eq (m : MathFns K) (hm : m.IsSqrt) :
    satc_polygon_set_offset m (box20_at m 0 0) ⟨100, 0⟩ =
      { pos := ⟨0, 0⟩
        points := [⟨0, 0⟩, ⟨20, 0⟩, ⟨20, 20⟩, ⟨0, 20⟩]
        angle := 0
        offset := ⟨100, 0⟩
        calc_points := [⟨100, 0⟩, ⟨120, 0⟩, ⟨120, 20⟩, ⟨100, 20⟩]
        edges := [⟨20, 0⟩, ⟨0, 20⟩, ⟨-20, 0⟩, ⟨0, -20⟩]
        normals := [⟨0, -1⟩, ⟨1, 0⟩, ⟨0, 1⟩, ⟨-1, 0⟩] } := by
  have h20 : (0 : K) < 20 := by norm_num
  rw [box20_at_eq m hm]
  simp only [satc_polygon_set_offset, _satc_polygon_recalc, satc_point_copy_eq, List.length_cons,
    List.length_nil, Nat.reduceAdd, range4, List.foldl_cons, List.foldl_nil,
    List.getD_cons_zero, List.getD_cons_succ, List.set_cons_zero, List.set_cons_succ,
    satc_point_add, satc_point_sub, satc_point_perp, ne_eq, not_true_eq_false, if_false]
  norm_num [(satc_point_normalize_axis_x hm h20).1, (satc_point_normalize_axis_x hm h20).2,
    (satc_point_normalize_axis_y hm h20).1, (satc_point_normalize_axis_y hm h20).2]

/-- The flag `a_in_b` after the response block of the axis test. -/
theorem satc_is_separating_axis_response_a_in_b (range_a range_b : K × K) (axis : satc_point K)
    (r : satc_response K) :
    (satc_is_separating_axis_response range_a range_b axis r).a_in_b =
      (r.a_in_b && decide (range_b.1 ≤ range_a.1 ∧ range_a.2 ≤ range_b.2)) := by
  unfold satc_is_separating_axis_response
  by_cases h1 : range_a.1 < range_b.1
  · have : ¬ (range_b.1 ≤ range_a.1) := not_le.2 h1
    simp only [h1, if_true, this, false_and, decide_False, Bool.and_false]
    split_ifs <;> rfl
  · by_cases h2 : range_a.2 > range_b.2
    · have : ¬ (range_a.2 ≤ range_b.2) := not_le.2 h2
      simp only [h1, if_false, h2, if_true, this, and_false, decide_False, Bool.and_false]
      split_ifs <;> rfl
    · have h1' : range_b.1 ≤ range_a.1 := not_lt.1 h1
      have h2' : range_a.2 ≤ range_b.2 := not_lt.1 h2
      simp only [h1, if_false, h2, h1', h2', and_self, decide_True, Bool.and_true]
      split_ifs <;> rfl

/-- With a response supplied, a loop of the polygon-polygon test hands a response back, and
when it ran to its end the flag `a_in_b` has been cleared iff some axis of the loop saw A's
range leave B's range. -/
theorem satc_test_polygon_polygon_loop_a_in_b (a b : satc_polygon K)
    (normals : List (satc_point K)) (is : List Nat) (r0 : satc_response K) :
    ∃ r, (satc_test_polygon_polygon_loop a b normals is (some r0)).2 = some r ∧
      ((satc_test_polygon_polygon_loop a b normals is (some r0)).1 = true →
        r.a_in_b = (r0.a_in_b &&
          is.all (fun i => axis_a_in_b a b (normals.getD i satc_point_alloca)))) := by
  induction is generalizing r0 with
  | nil => exact ⟨r0, rfl, fun _ => by simp⟩
  | cons i is ih =>
    rw [satc_test_polygon_polygon_loop]
    unfold satc_is_separating_axis
    simp only [satc_point_copy_eq]
    split_ifs with h
    · exact ⟨r0, rfl, fun hc => by simp at hc⟩
    · simp only []
      obtain ⟨r, hr, hc⟩ := ih (satc_is_separating_axis_response
        (satc_flatten_points_on a.points.length a.points (normals.getD i satc_point_alloca))
        ((satc_flatten_points_on b.points.length b.points (normals.getD i satc_point_alloca)).1 +
            satc_point_dot (satc_point_sub b.pos a.pos) (normals.getD i satc_point_alloca),
          (satc_flatten_points_on b.points.length b.points (normals.getD i satc_point_alloca)).2 +
            satc_point_dot (satc_point_sub b.pos a.pos) (normals.getD i satc_point_alloca))
        (normals.getD i satc_point_alloca) r0)
      refine ⟨r, hr, fun hc' => ?_⟩
      rw [hc hc', satc_is_separating_axis_response_a_in_b, List.all_cons, Bool.and_assoc]
      rfl

/-- Auxiliary: "collided and `a_in_b`" of the polygon-polygon test on a response whose
flag `a_in_b` is set: no axis separates and on every axis A's range lies in B's. -/
theorem satc_test_polygon_polygon_a_in_b (a b : satc_polygon K) (r0 : satc_response K)
    (h0 : r0.a_in_b = true) :
    spec_collided_and_a_in_b (satc_test_polygon_polygon a b (some r0)) =
      ((satc_test_polygon_polygon a b (some r0)).1 &&
        ((List.range a.points.length).all
            (fun i => axis_a_in_b a b (a.normals.getD i satc_point_alloca)) &&
          (List.range b.points.length).all
            (fun i => axis_a_in_b a b (b.normals.getD i satc_point_alloca)))) := by
  unfold spec_collided_and_a_in_b
  cases hc : (satc_test_polygon_polygon a b (some r0)).1 with
  | false => rfl
  | true =>
    simp only [Bool.true_and]
    unfold satc_test_polygon_polygon at hc ⊢
    simp only [] at hc ⊢
    obtain ⟨r1, hr1, hc1⟩ := satc_test_polygon_polygon_loop_a_in_b a b a.normals
      (List.range a.points.length) r0
    rcases hl1 : satc_test_polygon_polygon_loop a b a.normals (List.range a.points.length)
      (some r0) with ⟨c1, o1⟩
    rw [hl1] at hr1 hc1 hc
    simp only at hr1 hc1
    subst hr1
    cases c1 with
    | false => simp at hc
    | true =>
      simp only [] at hc ⊢
      obtain ⟨r2, hr2, hc2⟩ := satc_test_polygon_polygon_loop_a_in_b a b b.normals
        (List.range b.points.length) r1
      rcases hl2 : satc_test_polygon_polygon_loop a b b.normals (List.range b.points.length)
        (some r1) with ⟨c2, o2⟩
      rw [hl2] at hr2 hc2 hc
      simp only at hr2 hc2
      subst hr2
      cases c2 with
      | false => simp at hc
      | true =>
        simp only []
        rw [hc2 rfl, hc1 rfl, h0, Bool.true_and]
/-- With a response supplied, the polygon-polygon test hands a response back. -/
theorem satc_test_polygon_polygon_some (a b : satc_polygon K) (r0 : satc_response K) :
    ∃ r, (satc_test_polygon_polygon a b (some r0)).2 = some r := by
  unfold satc_test_polygon_polygon
  simp only []
  obtain ⟨r1, hr1, _⟩ := satc_test_polygon_polygon_loop_a_in_b a b a.normals
    (List.range a.points.length) r0
  rcases hl1 : satc_test_polygon_polygon_loop a b a.normals (List.range a.points.length)
    (some r0) with ⟨c1, o1⟩
  rw [hl1] at hr1
  simp only at hr1
  subst hr1
  cases c1 with
  | false => exact ⟨r1, rfl⟩
  | true =>
    simp only []
    obtain ⟨r2, hr2, _⟩ := satc_test_polygon_polygon_loop_a_in_b a b b.normals
      (List.range b.points.length) r1
    rcases hl2 : satc_test_polygon_polygon_loop a b b.normals (List.range b.points.length)
      (some r1) with ⟨c2, o2⟩
    rw [hl2] at hr2
    simp only at hr2
    subst hr2
    cases c2 with
    | false => exact ⟨r2, rfl⟩
    | true => exact ⟨_, rfl⟩

theorem spec_centered_square_eq (m : MathFns K) (q : satc_point K) :
    spec_centered_square m q =
      { pos := q
        points := [⟨-(1 / 2000000), -(1 / 2000000)⟩, ⟨1 / 2000000, -(1 / 2000000)⟩,
          ⟨1 / 2000000, 1 / 2000000⟩, ⟨-(1 / 2000000), 1 / 2000000⟩]
        angle := 0
        offset := ⟨0, 0⟩
        calc_points := [⟨-(1 / 2000000), -(1 / 2000000)⟩, ⟨1 / 2000000, -(1 / 2000000)⟩,
          ⟨1 / 2000000, 1 / 2000000⟩, ⟨-(1 / 2000000), 1 / 2000000⟩]
        edges := [⟨1 / 1000000, 0⟩, ⟨0, 1 / 1000000⟩, ⟨-(1 / 1000000), 0⟩, ⟨0, -(1 / 1000000)⟩]
        normals := [satc_point_normalize m ⟨0, -(1 / 1000000)⟩,
          satc_point_normalize m ⟨1 / 1000000, 0⟩, satc_point_normalize m ⟨0, 1 / 1000000⟩,
          satc_point_normalize m ⟨-(1 / 1000000), 0⟩] } := by
  simp only [spec_centered_square, satc_polygon_create, satc_polygon_set_points,
    _satc_polygon_copy_points, _satc_polygon_recalc, _satc_polygon_reset_normals,
    _satc_polygon_reset_edges, _satc_polygon_reset_calc_points, satc_point_clone,
    satc_point_create, satc_point_copy_eq, List.length_cons,
    List.length_nil, Nat.reduceAdd, range4, List.foldl_cons, List.foldl_nil, List.map_cons,
    List.map_nil,
    List.getD_cons_zero, List.getD_cons_succ, List.set_cons_zero, List.set_cons_succ,
    satc_point_add, satc_point_sub, satc_point_perp, ne_eq, not_true_eq_false, if_false]
  norm_num [List.replicate]

theorem satc_flatten_centered :
    satc_flatten_points_on 4 [(⟨-(1 / 2000000), -(1 / 2000000)⟩ : satc_point K),
        ⟨1 / 2000000, -(1 / 2000000)⟩, ⟨1 / 2000000, 1 / 2000000⟩,
        ⟨-(1 / 2000000), 1 / 2000000⟩] ⟨0, -1⟩ = (-(1 / 2000000), 1 / 2000000) ∧
    satc_flatten_points_on 4 [(⟨-(1 / 2000000), -(1 / 2000000)⟩ : satc_point K),
        ⟨1 / 2000000, -(1 / 2000000)⟩, ⟨1 / 2000000, 1 / 2000000⟩,
        ⟨-(1 / 2000000), 1 / 2000000⟩] ⟨1, 0⟩ = (-(1 / 2000000), 1 / 2000000) ∧
    satc_flatten_points_on 4 [(⟨-(1 / 2000000), -(1 / 2000000)⟩ : satc_point K),
        ⟨1 / 2000000, -(1 / 2000000)⟩, ⟨1 / 2000000, 1 / 2000000⟩,
        ⟨-(1 / 2000000), 1 / 2000000⟩] ⟨0, 1⟩ = (-(1 / 2000000), 1 / 2000000) ∧
    satc_flatten_points_on 4 [(⟨-(1 / 2000000), -(1 / 2000000)⟩ : satc_point K),
        ⟨1 / 2000000, -(1 / 2000000)⟩, ⟨1 / 2000000, 1 / 2000000⟩,
        ⟨-(1 / 2000000), 1 / 2000000⟩] ⟨-1, 0⟩ = (-(1 / 2000000), 1 / 2000000) := by
  have hD : (1 / 2000000 : K) < DBL_MAX := lt_trans (by norm_num) DBL_MAX_gt_20
  have hD2 : -(1 / 2000000 : K) < DBL_MAX := lt_trans (by norm_num) DBL_MAX_gt_20
  have hD3 : -DBL_MAX < (1 / 2000000 : K) := by linarith
  have hD4 : -DBL_MAX < -(1 / 2000000 : K) := by linarith
  refine ⟨?_, ?_, ?_, ?_⟩ <;>
    norm_num [satc_flatten_points_on, range4, satc_point_dot, hD, hD2, hD3, hD4]

/-- The boolean of the circle-circle test; it does not depend on the response. -/
theorem satc_test_circle_circle_fst {K : Type} [Zero K] [Add K] [Sub K] [Mul K] [Div K] [LT K]
    [LE K]
    [∀ a b : K, Decidable (a < b)] [∀ a b : K, Decidable (a ≤ b)]
    (m : MathFns K) (a b : satc_circle K)
    (r : Option (satc_response K)) :
    (satc_test_circle_circle m a b r).1 =
      !decide (satc_point_len2 (satc_point_sub b.pos a.pos) > (a.r + b.r) * (a.r + b.r)) := by
  unfold satc_test_circle_circle
  simp only [satc_point_copy_eq]
  split_ifs with h
  · simp [h]
  · cases r <;> simp [h]

/-- The response written by the circle-circle test when the circles collide. -/
theorem satc_test_circle_circle_snd {K : Type} [Zero K] [Add K] [Sub K] [Mul K] [Div K] [LT K]
    [LE K]
    [∀ a b : K, Decidable (a < b)] [∀ a b : K, Decidable (a ≤ b)]
    (m : MathFns K) (a b : satc_circle K)
    (r0 : satc_response K)
    (h : (satc_test_circle_circle m a b (some r0)).1 = true) :
    (satc_test_circle_circle m a b (some r0)).2 = some
      { a := some (satc_shape.circle a)
        b := some (satc_shape.circle b)
        overlap := a.r + b.r - satc_point_len m (satc_point_sub b.pos a.pos)
        overlap_n := satc_point_normalize m (satc_point_sub b.pos a.pos)
        overlap_v := satc_point_scale_x (satc_point_normalize m (satc_point_sub b.pos a.pos))
          (a.r + b.r - satc_point_len m (satc_point_sub b.pos a.pos))
        a_in_b := decide (a.r ≤ b.r) &&
          decide (satc_point_len m (satc_point_sub b.pos a.pos) ≤ b.r - a.r)
        b_in_a := decide (b.r ≤ a.r) &&
          decide (satc_point_len m (satc_point_sub b.pos a.pos) ≤ a.r - b.r) } := by
  unfold satc_test_circle_circle at h ⊢
  simp only [satc_point_copy_eq] at h ⊢
  by_cases hd : satc_point_len2 (satc_point_sub b.pos a.pos) > (a.r + b.r) * (a.r + b.r)
  · rw [if_pos hd] at h; simp at h
  · rw [if_neg hd]; rfl

/-- The point-in-polygon query is the polygon-polygon test on the box of side `1e-6` at
`q`. -/
theorem satc_point_in_polygon_eq (m : MathFns K) (q : satc_point K)
    (P : satc_polygon K) :
    satc_point_in_polygon m q P =
      spec_collided_and_a_in_b (satc_test_polygon_polygon
        (satc_box_to_polygon m (satc_box_create q (1 / 1000000) (1 / 1000000))) P
        (some satc_response_create)) := by
  have e : ({ _satc_test_point_create m with
      pos := satc_point_copy (_satc_test_point_create m).pos q } : satc_polygon K) =
      satc_box_to_polygon m (satc_box_create q (1 / 1000000) (1 / 1000000)) := by
    simp only [_satc_test_point_create, satc_box_to_polygon_eq, satc_box_create,
      satc_point_copy_eq, satc_point_clone, satc_point_create]
  unfold satc_point_in_polygon spec_collided_and_a_in_b
  simp only []
  rw [e]
  obtain ⟨r, hr⟩ := satc_test_polygon_polygon_some
    (satc_box_to_polygon m (satc_box_create q (1 / 1000000) (1 / 1000000))) P
    satc_response_create
  rcases hres : satc_test_polygon_polygon
    (satc_box_to_polygon m (satc_box_create q (1 / 1000000) (1 / 1000000))) P
    (some satc_response_create) with ⟨c, o⟩
  rw [hres] at hr
  simp only at hr
  subst hr
  cases c <;> rfl

/-- The code and the centered square at the input of C10. -/
theorem point_in_polygon_left_edge_eval (m : MathFns K) (hm : m.IsSqrt) :
    satc_point_in_polygon m ⟨0, 10⟩ (box20_at m 0 0) = true ∧
    spec_collided_and_a_in_b (satc_test_polygon_polygon (spec_centered_square m ⟨0, 10⟩)
      (box20_at m 0 0) (some satc_response_create)) = false ∧
    spec_collided_and_a_in_b (satc_test_polygon_polygon
      (satc_box_to_polygon m
        (satc_box_create ⟨0 - 1 / 2000000, 10 - 1 / 2000000⟩ (1 / 1000000) (1 / 1000000)))
      (box20_at m 0 0) (some satc_response_create)) = false := by
  have h20 : (0 : K) < 20 := by norm_num
  have he : (0 : K) < 1 / 1000000 := by norm_num
  obtain ⟨a1, a2, a3, a4⟩ := satc_flatten_box (20 : K) 20 h20 h20
  obtain ⟨b1, b2, b3, b4⟩ := satc_flatten_box (1 / 1000000 : K) (1 / 1000000) he he
  refine ⟨?_, ?_, ?_⟩
  · rw [satc_point_in_polygon_eq, satc_test_polygon_polygon_a_in_b _ _ _ rfl,
      satc_test_polygon_polygon_fst, box20_at_eq m hm]
    simp only [satc_box_to_polygon_eq, satc_box_create, satc_point_clone, satc_point_create,
      (satc_point_normalize_axis_x hm he).1, (satc_point_normalize_axis_x hm he).2,
      (satc_point_normalize_axis_y hm he).1, (satc_point_normalize_axis_y hm he).2,
      List.length_cons, List.length_nil, Nat.reduceAdd, range4, List.all_cons, List.all_nil,
      satc_is_separating_axis_fst, axis_a_in_b, List.getD_cons_zero, List.getD_cons_succ,
      a1, a2, a3, a4, b1, b2, b3, b4, satc_point_dot, satc_point_sub]
    norm_num
  · obtain ⟨c1, c2, c3, c4⟩ := @satc_flatten_centered K _
    rw [satc_test_polygon_polygon_a_in_b _ _ _ rfl,
      satc_test_polygon_polygon_fst, box20_at_eq m hm, spec_centered_square_eq]
    simp only [(satc_point_normalize_axis_x hm he).1, (satc_point_normalize_axis_x hm he).2,
      (satc_point_normalize_axis_y hm he).1, (satc_point_normalize_axis_y hm he).2,
      List.length_cons, List.length_nil, Nat.reduceAdd, range4, List.all_cons, List.all_nil,
      satc_is_separating_axis_fst, axis_a_in_b, List.getD_cons_zero, List.getD_cons_succ,
      a1, a2, a3, a4, c1, c2, c3, c4, satc_point_dot, satc_point_sub]
    norm_num
  · rw [satc_test_polygon_polygon_a_in_b _ _ _ rfl,
      satc_test_polygon_polygon_fst, box20_at_eq m hm]
    simp only [satc_box_to_polygon_eq, satc_box_create, satc_point_clone, satc_point_create,
      (satc_point_normalize_axis_x hm he).1, (satc_point_normalize_axis_x hm he).2,
      (satc_point_normalize_axis_y hm he).1, (satc_point_normalize_axis_y hm he).2,
      List.length_cons, List.length_nil, Nat.reduceAdd, range4, List.all_cons, List.all_nil,
      satc_is_separating_axis_fst, axis_a_in_b, List.getD_cons_zero, List.getD_cons_succ,
      a1, a2, a3, a4, b1, b2, b3, b4, satc_point_dot, satc_point_sub]
    norm_num

/-- The code at the input of C2: the two 20x20 boxes at `(0, 0)` and `(5, 0)`. -/
theorem polygon_polygon_two_boxes_eval (m : MathFns K) (hm : m.IsSqrt) :
    ∃ r, satc_test_polygon_polygon (box20_at m 0 0) (box20_at m 5 0) (some satc_response_create) =
        (true, some r) ∧
      r.overlap = 5 ∧ r.overlap_n = ⟨-1, 0⟩ ∧ r.overlap_v = ⟨-5, 0⟩ ∧
      ¬ spec_separated_by (box20_at m 0 0) (box20_at m 5 0) r := by
  have h20 : (0 : K) < 20 := by norm_num
  obtain ⟨a1, a2, a3, a4⟩ := satc_flatten_box (20 : K) 20 h20 h20
  have hD := @DBL_MAX_gt_20 K _
  have e : satc_test_polygon_polygon (box20_at m 0 0) (box20_at m 5 0)
      (some satc_response_create) = (true, some
        { a := some (satc_shape.polygon (box20_at m 0 0))
          b := some (satc_shape.polygon (box20_at m 5 0))
          overlap := 5
          overlap_n := ⟨-1, 0⟩
          overlap_v := ⟨-5, 0⟩
          a_in_b := false
          b_in_a := false }) := by
    rw [box20_at_eq m hm, box20_at_eq m hm]
    simp only [satc_test_polygon_polygon, List.length_cons, List.length_nil, Nat.reduceAdd,
      range4, satc_test_polygon_polygon_loop, satc_is_separating_axis,
      satc_is_separating_axis_response, List.getD_cons_zero,
      List.getD_cons_succ, a1, a2, a3, a4, satc_point_dot, satc_point_sub, satc_point_copy,
      satc_response_create, satc_point_create, satc_point_reverse, satc_point_scale_x,
      satc_point_scale_xy]
    norm_num [hD, a1, a2, a3, a4]
  refine ⟨_, e, rfl, rfl, rfl, ?_⟩
  rw [box20_at_eq m hm, box20_at_eq m hm]
  simp only [spec_separated_by]
  rintro (h | h)
  · have := h ⟨0, 0⟩ (by simp) ⟨20, 0⟩ (by simp)
    norm_num [satc_point_dot, satc_point_sub, satc_point_add] at this
  · have := h ⟨20, 0⟩ (by simp) ⟨0, 0⟩ (by simp)
    norm_num [satc_point_dot, satc_point_sub, satc_point_add] at this

/-- The code at the input of C1: box A with offset `(100, 0)`, box B without. -/
theorem polygon_polygon_offset_eval (m : MathFns K) (hm : m.IsSqrt) :
    (satc_test_polygon_polygon (satc_polygon_set_offset m (box20_at m 0 0) ⟨100, 0⟩)
        (box20_at m 0 0) none).1 = true ∧
      ¬ spec_no_separating_normal (satc_polygon_set_offset m (box20_at m 0 0) ⟨100, 0⟩)
        (box20_at m 0 0) := by
  have h20 : (0 : K) < 20 := by norm_num
  obtain ⟨a1, a2, a3, a4⟩ := satc_flatten_box (20 : K) 20 h20 h20
  rw [box20_offset_eq m hm, box20_at_eq m hm]
  constructor
  · rw [satc_test_polygon_polygon_fst]
    simp only [List.length_cons, List.length_nil, Nat.reduceAdd, range4,
      satc_is_separating_axis_fst, List.all_cons, List.all_nil, List.getD_cons_zero,
      List.getD_cons_succ, a1, a2, a3, a4, satc_point_dot, satc_point_sub]
    norm_num
  · intro h
    have h1 := h ⟨1, 0⟩ (by simp)
    obtain ⟨⟨wa, hwa, wb, hwb, hle⟩, _⟩ := h1
    simp only [List.mem_cons, List.mem_singleton, List.not_mem_nil, or_false] at hwa hwb
    rcases hwa with rfl | rfl | rfl | rfl <;> rcases hwb with rfl | rfl | rfl | rfl <;>
      norm_num [satc_point_dot, satc_point_sub] at hle

/-- The three arrays written by `_satc_polygon_recalc`, when each has room for the
`num_points` entries: the first `num_points` cells are overwritten, the rest is kept. -/
theorem _satc_polygon_recalc_eq (m : MathFns K) (p : satc_polygon K)
    (hc : p.points.length ≤ p.calc_points.length) (he : p.points.length ≤ p.edges.length)
    (hn : p.points.length ≤ p.normals.length) :
    _satc_polygon_recalc m p =
      { p with
        calc_points := spec_calc_points m p ++ p.calc_points.drop p.points.length
        edges := (List.range p.points.length).map
            (spec_edge p.points.length
              (spec_calc_points m p ++ p.calc_points.drop p.points.length)) ++
          p.edges.drop p.points.length
        normals := (List.range p.points.length).map
            (fun i => satc_point_normalize m (satc_point_perp (spec_edge p.points.length
              (spec_calc_points m p ++ p.calc_points.drop p.points.length) i))) ++
          p.normals.drop p.points.length } := by
  have h1 : (List.range p.points.length).foldl
      (fun (cps : List (satc_point K)) i =>
        cps.set i (if p.angle ≠ 0 then
          satc_point_rotate m (satc_point_add (p.points.getD i satc_point_alloca) p.offset) p.angle
          else satc_point_add (p.points.getD i satc_point_alloca) p.offset))
      p.calc_points = spec_calc_points m p ++ p.calc_points.drop p.points.length := by
    rw [foldl_set_range _ _ _ hc]
    rfl
  unfold _satc_polygon_recalc
  simp only [satc_point_copy_eq, h1]
  rw [foldl_pair_set, foldl_set_range _ _ _ he, foldl_set_range _ _ _ hn]
  rfl

/-- Recalculation of a polygon whose three derived arrays have `num_points` cells. -/
theorem _satc_polygon_recalc_eq_of_length (m : MathFns K) (p : satc_polygon K)
    (hc : p.calc_points.length = p.points.length) (he : p.edges.length = p.points.length)
    (hn : p.normals.length = p.points.length) :
    _satc_polygon_recalc m p =
      { p with
        calc_points := spec_calc_points m p
        edges := (List.range p.points.length).map
          (spec_edge p.points.length (spec_calc_points m p))
        normals := (List.range p.points.length).map
          (fun i => satc_point_normalize m (satc_point_perp
            (spec_edge p.points.length (spec_calc_points m p) i))) } := by
  rw [_satc_polygon_recalc_eq m p hc.ge he.ge hn.ge]
  have d1 : p.calc_points.drop p.points.length = [] := List.drop_eq_nil_of_le hc.le
  have d2 : p.edges.drop p.points.length = [] := List.drop_eq_nil_of_le he.le
  have d3 : p.normals.drop p.points.length = [] := List.drop_eq_nil_of_le hn.le
  rw [d1, d2, d3]
  simp only [List.append_nil]

/-- After recalculation on arrays of the right length the polygon is consistent. -/
theorem _satc_polygon_recalc_consistent (m : MathFns K) (p : satc_polygon K)
    (hc : p.calc_points.length = p.points.length) (he : p.edges.length = p.points.length)
    (hn : p.normals.length = p.points.length) :
    satc_polygon_consistent m (_satc_polygon_recalc m p) := by
  have e := _satc_polygon_recalc_eq_of_length m p hc he hn
  have l1 : (_satc_polygon_recalc m p).calc_points.length =
      (_satc_polygon_recalc m p).points.length := by
    rw [e]; simp [spec_calc_points]
  have l2 : (_satc_polygon_recalc m p).edges.length =
      (_satc_polygon_recalc m p).points.length := by
    rw [e]; simp
  have l3 : (_satc_polygon_recalc m p).normals.length =
      (_satc_polygon_recalc m p).points.length := by
    rw [e]; simp
  refine ⟨l1, l2, l3, ?_⟩
  rw [_satc_polygon_recalc_eq_of_length m _ l1 l2 l3]
  conv_rhs => rw [e]
  rw [e]
  rfl

/-- The loop of `satc_polygon_rotate` rotates every point. -/
theorem satc_polygon_rotate_points (m : MathFns K) (points : List (satc_point K)) (angle : K) :
    (List.range points.length).foldl
      (fun (ps : List (satc_point K)) i =>
        ps.set i (satc_point_rotate m (ps.getD i satc_point_alloca) angle)) points =
      points.map (fun p => satc_point_rotate m p angle) := by
  rw [foldl_set_range_self (fun p => satc_point_rotate m p angle) satc_point_alloca _ _
    (le_refl _)]
  simp

/-- The loop of `satc_polygon_translate` keeps the number of points. -/
theorem satc_polygon_translate_points_length (points : List (satc_point K)) (x : K) :
    ((List.range points.length).foldl
      (fun (ps : List (satc_point K)) i =>
        ps.set i ⟨x, (ps.getD i satc_point_alloca).y⟩) points).length = points.length := by
  rw [foldl_set_range_self (fun p => (⟨x, p.y⟩ : satc_point K)) satc_point_alloca _ _
    (le_refl _)]
  simp

/-- The statement after the loop of `satc_polygon_translate` writes one cell behind the
array of points: the call never returns a polygon. -/
theorem satc_polygon_translate_eq_none (m : MathFns K) (p : satc_polygon K) (x y : K) :
    satc_polygon_translate m p x y = none := by
  unfold satc_polygon_translate
  simp only [satc_polygon_translate_points_length, lt_irrefl, if_false]

/-- The mutator `satc_polygon_set_points` keeps a polygon consistent. -/
theorem satc_polygon_set_points_consistent (m : MathFns K) (p : satc_polygon K)
    (points : List (satc_point K)) (hp : satc_polygon_consistent m p) :
    satc_polygon_consistent m (satc_polygon_set_points m p points) := by
  obtain ⟨hc, he, hn, _⟩ := hp
  unfold satc_polygon_set_points _satc_polygon_copy_points
  simp only []
  split_ifs with h
  · apply _satc_polygon_recalc_consistent <;>
      simp [_satc_polygon_reset_normals, _satc_polygon_reset_edges,
        _satc_polygon_reset_calc_points]
  · have h2 : points.length = p.points.length := not_not.1 h
    apply _satc_polygon_recalc_consistent <;> simp [hc, he, hn, h2]

/-- The polygon made by `satc_polygon_create` is consistent. -/
theorem satc_polygon_create_consistent (m : MathFns K) (pos : satc_point K)
    (points : List (satc_point K)) :
    satc_polygon_consistent m (satc_polygon_create m pos points) := by
  unfold satc_polygon_create
  apply satc_polygon_set_points_consistent
  refine ⟨rfl, rfl, rfl, ?_⟩
  simp [_satc_polygon_recalc]

/-- The mutator `satc_polygon_set_angle` keeps a polygon consistent. -/
theorem satc_polygon_set_angle_consistent (m : MathFns K) (p : satc_polygon K) (angle : K)
    (hp : satc_polygon_consistent m p) :
    satc_polygon_consistent m (satc_polygon_set_angle m p angle) := by
  obtain ⟨hc, he, hn, _⟩ := hp
  unfold satc_polygon_set_angle
  apply _satc_polygon_recalc_consistent <;> simp [hc, he, hn]

/-- The mutator `satc_polygon_set_offset` keeps a polygon consistent. -/
theorem satc_polygon_set_offset_consistent (m : MathFns K) (p : satc_polygon K)
    (offset : satc_point K) (hp : satc_polygon_consistent m p) :
    satc_polygon_consistent m (satc_polygon_set_offset m p offset) := by
  obtain ⟨hc, he, hn, _⟩ := hp
  unfold satc_polygon_set_offset
  apply _satc_polygon_recalc_consistent <;> simp [hc, he, hn]

/-- The mutator `satc_polygon_rotate` keeps a polygon consistent. -/
theorem satc_polygon_rotate_consistent (m : MathFns K) (p : satc_polygon K) (angle : K)
    (hp : satc_polygon_consistent m p) :
    satc_polygon_consistent m (satc_polygon_rotate m p angle) := by
  obtain ⟨hc, he, hn, _⟩ := hp
  unfold satc_polygon_rotate
  simp only [satc_polygon_rotate_points]
  apply _satc_polygon_recalc_consistent <;> simp [hc, he, hn]

theorem range3 : List.range 3 = [0, 1, 2] := by decide

/-- The polygon made by `satc_polygon_create` from three points. -/
theorem satc_polygon_create_triangle (m : MathFns K) (pos v1 v2 v3 : satc_point K) :
    (satc_polygon_create m pos [v1, v2, v3]).pos = pos ∧
      (satc_polygon_create m pos [v1, v2, v3]).points = [v1, v2, v3] ∧
      (satc_polygon_create m pos [v1, v2, v3]).angle = 0 ∧
      (satc_polygon_create m pos [v1, v2, v3]).offset = ⟨0, 0⟩ ∧
      (satc_polygon_create m pos [v1, v2, v3]).calc_points = [v1, v2, v3] ∧
      (satc_polygon_create m pos [v1, v2, v3]).edges =
        [satc_point_sub v2 v1, satc_point_sub v3 v2, satc_point_sub v1 v3] ∧
      (satc_polygon_create m pos [v1, v2, v3]).normals =
        [satc_point_normalize m (satc_point_perp (satc_point_sub v2 v1)),
          satc_point_normalize m (satc_point_perp (satc_point_sub v3 v2)),
          satc_point_normalize m (satc_point_perp (satc_point_sub v1 v3))] := by
  simp [satc_polygon_create, satc_polygon_set_points,
    _satc_polygon_copy_points, _satc_polygon_recalc, _satc_polygon_reset_normals,
    _satc_polygon_reset_edges, _satc_polygon_reset_calc_points, range3, satc_point_clone,
    satc_point_create, satc_point_copy, satc_point_add,
    List.replicate]

/-- The statement on `a_in_b` of the polygon-circle loop body, on a supplied response. -/
theorem satc_test_polygon_circle_a_in_b_some {K : Type} [Add K] [Mul K] [LT K]
    [∀ a b : K, Decidable (a < b)]
    (point : satc_point K) (radius2 : K)
    (r : satc_response K) :
    satc_test_polygon_circle_a_in_b point radius2 (some r) =
      some { r with a_in_b := r.a_in_b && !decide (satc_point_len2 point > radius2) } := by
  unfold satc_test_polygon_circle_a_in_b
  by_cases h : satc_point_len2 point > radius2
  · simp [h]
  · simp [h]

/-- The update at the end of the polygon-circle loop body hands a supplied response back
and does not touch the containment flags. -/
theorem satc_test_polygon_circle_update_some {K : Type} [Zero K] [Neg K] [LT K]
    [∀ a b : K, Decidable (a < b)]
    (overlap : K) (overlap_n : Option (satc_point K))
    (r : satc_response K) :
    ∃ r1, satc_test_polygon_circle_update overlap overlap_n (some r) = some r1 ∧
      r1.a_in_b = r.a_in_b ∧ r1.b_in_a = r.b_in_a := by
  unfold satc_test_polygon_circle_update
  cases overlap_n with
  | none => exact ⟨r, rfl, rfl, rfl⟩
  | some n =>
    simp only []
    by_cases h : fabs overlap < fabs r.overlap
    · rw [if_pos h]; exact ⟨_, rfl, rfl, rfl⟩
    · rw [if_neg h]; exact ⟨r, rfl, rfl, rfl⟩

/-- With a response supplied, the branches on the region never dereference an absent
response, hand the response back and do not touch `a_in_b`. -/
theorem satc_test_polygon_circle_region_some {K : Type} [Zero K] [NatCast K] [Add K] [Sub K] [Mul K]
    [Div K] [Neg K]
    [LT K] [LE K] [∀ a b : K, Decidable (a < b)] [∀ a b : K, Decidable (a ≤ b)]
    (m : MathFns K) (polygon : satc_polygon K)
    (circle_pos : satc_point K) (radius : K) (i : Nat) (edge point : satc_point K)
    (r : satc_response K) :
    satc_test_polygon_circle_region m polygon circle_pos radius i edge point (some r) =
        some none ∨
      ∃ overlap overlap_n r1,
        satc_test_polygon_circle_region m polygon circle_pos radius i edge point (some r) =
          some (some (overlap, overlap_n, some r1)) ∧ r1.a_in_b = r.a_in_b := by
  unfold satc_test_polygon_circle_region
  simp only []
  split_ifs <;> first | exact Or.inl rfl | exact Or.inr ⟨_, _, _, rfl, rfl⟩

/-- With a response supplied, one pass of the polygon-circle loop body hands a response
back, and when the loop goes on the flag `a_in_b` has been cleared iff the circle centre is
farther than the radius from `calc_points[i]`. -/
theorem satc_test_polygon_circle_body_some {K : Type} [Zero K] [NatCast K] [Add K] [Sub K] [Mul K]
    [Div K] [Neg K]
    [LT K] [LE K] [∀ a b : K, Decidable (a < b)] [∀ a b : K, Decidable (a ≤ b)]
    (m : MathFns K) (polygon : satc_polygon K)
    (circle : satc_circle K) (i : Nat) (r : satc_response K) :
    ∃ c r1, satc_test_polygon_circle_body m polygon circle i (some r) = some (c, some r1) ∧
      (c = true → r1.a_in_b = (r.a_in_b && !decide (satc_point_len2
        (satc_point_sub (satc_point_sub circle.pos polygon.pos)
          (polygon.calc_points.getD i satc_point_alloca)) > circle.r * circle.r))) := by
  unfold satc_test_polygon_circle_body
  simp only [satc_point_copy_eq, satc_test_polygon_circle_a_in_b_some]
  rcases satc_test_polygon_circle_region_some m polygon
    (satc_point_sub circle.pos polygon.pos) circle.r i
    (polygon.edges.getD i satc_point_alloca)
    (satc_point_sub (satc_point_sub circle.pos polygon.pos)
      (polygon.calc_points.getD i satc_point_alloca))
    { r with a_in_b := r.a_in_b && !decide (satc_point_len2
        (satc_point_sub (satc_point_sub circle.pos polygon.pos)
          (polygon.calc_points.getD i satc_point_alloca)) > circle.r * circle.r) }
    with h | ⟨ov, ovn, r1, h, ha⟩
  · rw [h]
    exact ⟨false, _, rfl, fun hc => by simp at hc⟩
  · rw [h]
    obtain ⟨r2, h2, ha2, _⟩ := satc_test_polygon_circle_update_some ov ovn r1
    simp only [h2]
    exact ⟨true, r2, rfl, fun _ => by rw [ha2, ha]⟩

/-- With a response supplied, the polygon-circle loop hands a response back, and when it
ran to its end `a_in_b` records whether every visited world point is within the radius of
the circle centre. -/
theorem satc_test_polygon_circle_loop_some {K : Type} [Zero K] [NatCast K] [Add K] [Sub K] [Mul K]
    [Div K] [Neg K]
    [LT K] [LE K] [∀ a b : K, Decidable (a < b)] [∀ a b : K, Decidable (a ≤ b)]
    (m : MathFns K) (polygon : satc_polygon K)
    (circle : satc_circle K) (is : List Nat) (r : satc_response K) :
    ∃ c r1, satc_test_polygon_circle_loop m polygon circle is (some r) = some (c, some r1) ∧
      (c = true → r1.a_in_b = (r.a_in_b && is.all (fun i => !decide (satc_point_len2
        (satc_point_sub (satc_point_sub circle.pos polygon.pos)
          (polygon.calc_points.getD i satc_point_alloca)) > circle.r * circle.r)))) := by
  induction is generalizing r with
  | nil => exact ⟨true, r, rfl, fun _ => by simp⟩
  | cons i is ih =>
    rw [satc_test_polygon_circle_loop]
    obtain ⟨c, r1, h1, ha1⟩ := satc_test_polygon_circle_body_some m polygon circle i r
    rw [h1]
    cases c with
    | false => exact ⟨false, r1, rfl, fun hc => by simp at hc⟩
    | true =>
      simp only []
      obtain ⟨c2, r2, h2, ha2⟩ := ih r1
      refine ⟨c2, r2, h2, fun hc => ?_⟩
      rw [ha2 hc, ha1 rfl, List.all_cons, Bool.and_assoc]

/-- With a response supplied, `satc_test_polygon_circle` hands a response back, and when it
returns true `a_in_b` records whether every world point is within the radius of the circle
centre. -/
theorem satc_test_polygon_circle_some {K : Type} [Zero K] [NatCast K] [Add K] [Sub K] [Mul K]
    [Div K] [Neg K]
    [LT K] [LE K] [∀ a b : K, Decidable (a < b)] [∀ a b : K, Decidable (a ≤ b)]
    (m : MathFns K) (polygon : satc_polygon K)
    (circle : satc_circle K) (r : satc_response K) :
    ∃ c r1, satc_test_polygon_circle m polygon circle (some r) = some (c, some r1) ∧
      (c = true → r1.a_in_b = (r.a_in_b &&
        (List.range polygon.calc_points.length).all (fun i => !decide (satc_point_len2
          (satc_point_sub (satc_point_sub circle.pos polygon.pos)
            (polygon.calc_points.getD i satc_point_alloca)) > circle.r * circle.r)))) := by
  unfold satc_test_polygon_circle
  obtain ⟨c, r1, h1, ha1⟩ := satc_test_polygon_circle_loop_some m polygon circle
    (List.range polygon.calc_points.length) r
  simp only [h1]
  cases c with
  | false => exact ⟨false, r1, rfl, fun hc => by simp at hc⟩
  | true => exact ⟨true, _, rfl, fun _ => ha1 rfl⟩

/-- The indices below the length of a list reach exactly its members. -/
theorem all_range_getD {α : Type} (l : List α) (d : α) (f : α → Bool) :
    (List.range l.length).all (fun i => f (l.getD i d)) = l.all f := by
  rw [Bool.eq_iff_iff]
  simp only [List.all_eq_true, List.mem_range]
  constructor
  · intro h w hw
    obtain ⟨i, hi, rfl⟩ := List.getElem_of_mem hw
    have := h i hi
    rwa [List.getD_eq_getElem _ _ hi] at this
  · intro h i hi
    rw [List.getD_eq_getElem _ _ hi]
    exact h _ (List.getElem_mem hi)

/-- With a fresh response, when the polygon-circle test returns true, `a_in_b` is true iff no
world point is farther from the circle centre than the radius, in the squared values that
the function computes. -/
theorem satc_test_polygon_circle_a_in_b_iff {K : Type} [Zero K] [NatCast K] [Add K] [Sub K]
    [Mul K] [Div K] [Neg K] [LT K] [LE K] [∀ a b : K, Decidable (a < b)]
    [∀ a b : K, Decidable (a ≤ b)] (m : MathFns K) (polygon : satc_polygon K)
    (circle : satc_circle K) (r : satc_response K)
    (h : satc_test_polygon_circle m polygon circle (some satc_response_create) =
      some (true, some r)) :
    r.a_in_b = true ↔ ∀ w ∈ polygon.calc_points,
      ¬ satc_point_len2 (satc_point_sub (satc_point_sub circle.pos polygon.pos) w) >
        circle.r * circle.r := by
  obtain ⟨c, r1, h1, ha⟩ := satc_test_polygon_circle_some m polygon circle satc_response_create
  rw [h] at h1
  have hc : c = true := by
    have := congrArg (fun x => x.map Prod.fst) h1
    simpa using this.symm
  have hr : r1 = r := by
    have := congrArg (fun x => x.bind Prod.snd) h1
    simpa using this.symm
  subst hr
  have ha2 := ha hc
  rw [all_range_getD polygon.calc_points satc_point_alloca
    (fun w => !decide (satc_point_len2
      (satc_point_sub (satc_point_sub circle.pos polygon.pos) w) > circle.r * circle.r))]
    at ha2
  rw [ha2]
  simp [satc_response_create]

/-- The code at the input of C12: the 40x40 box at `(0, 0)` and the circle of radius 10 at
`(20, -5)`, whose centre projects onto the first edge, with the response absent. -/
theorem polygon_circle_absent_response_eval (m : MathFns K) (hm : m.IsSqrt) :
    satc_test_polygon_circle m (satc_box_to_polygon m (satc_box_create ⟨0, 0⟩ 40 40))
        ⟨⟨20, -5⟩, 10⟩ none = none ∧
      satc_test_circle_polygon m ⟨⟨20, -5⟩, 10⟩
        (satc_box_to_polygon m (satc_box_create ⟨0, 0⟩ 40 40)) none = none := by
  have h40 : (0 : K) < 40 := by norm_num
  have hn : satc_point_normalize m (⟨0, -40⟩ : satc_point K) = ⟨0, -1⟩ :=
    (satc_point_normalize_axis_y hm h40).2
  have hb : satc_test_polygon_circle_body m
      (satc_box_to_polygon m (satc_box_create ⟨0, 0⟩ 40 40)) ⟨⟨20, -5⟩, 10⟩ 0 none = none := by
    rw [satc_box_to_polygon_eq]
    simp only [satc_test_polygon_circle_body, satc_test_polygon_circle_a_in_b,
      satc_test_polygon_circle_region, satc_voronoi_region, satc_point_copy_eq,
      satc_box_create, satc_point_clone, satc_point_create, List.getD_cons_zero,
      satc_point_sub, satc_point_dot, satc_point_len2, satc_point_perp,
      SATC_LEFT_VORONOI_REGION, SATC_RIGHT_VORONOI_REGION, SATC_MIDDLE_VORONOI_REGION]
    norm_num [hn, satc_point_dot]
  have ht : satc_test_polygon_circle m (satc_box_to_polygon m (satc_box_create ⟨0, 0⟩ 40 40))
      ⟨⟨20, -5⟩, 10⟩ none = none := by
    have hl : (satc_box_to_polygon m
        (satc_box_create (⟨0, 0⟩ : satc_point K) 40 40)).calc_points.length = 4 := by
      rw [satc_box_to_polygon_eq]; rfl
    unfold satc_test_polygon_circle
    simp only []
    rw [hl, range4, satc_test_polygon_circle_loop, hb]
  refine ⟨ht, ?_⟩
  unfold satc_test_circle_polygon
  rw [ht]

/-- A point whose projection falls behind the end of the line is in the right region. -/
theorem satc_voronoi_region_right (line point : satc_point K)
    (h : satc_point_dot point line > satc_point_len2 line) :
    satc_voronoi_region line point = SATC_RIGHT_VORONOI_REGION := by
  unfold satc_voronoi_region
  have h0 : ¬ satc_point_dot point line < 0 :=
    not_lt.2 (le_trans (satc_point_len2_nonneg line) h.le)
  simp only [h0, if_false, h, if_true]

/-- A point whose projection falls before the start of the line is in the left region. -/
theorem satc_voronoi_region_left (line point : satc_point K)
    (h : satc_point_dot point line < 0) :
    satc_voronoi_region line point = SATC_LEFT_VORONOI_REGION := by
  unfold satc_voronoi_region
  simp only [h, if_true]

/-- The loop of `satc_test_polygon_circle` on a box polygon and a circle whose centre lies
diagonally behind the corner `(w, h)`: the nearest feature is that corner, found at the
indices 1 and 2. -/
theorem satc_test_polygon_circle_loop_corner (m : MathFns K) (box : satc_box K)
    (c : satc_circle K) (hw : 0 < box.w) (hh : 0 < box.h)
    (hX : c.pos.x - box.pos.x > box.w) (hY : c.pos.y - box.pos.y > box.h)
    (r0 : satc_response K) :
    satc_test_polygon_circle_loop m (satc_box_to_polygon m box) c [0, 1, 2, 3] (some r0) =
      if satc_point_len m (satc_point_sub (satc_point_sub c.pos box.pos) ⟨box.w, box.h⟩) > c.r
      then
        some (false, satc_test_polygon_circle_a_in_b
          (satc_point_sub (satc_point_sub c.pos box.pos) ⟨box.w, 0⟩) (c.r * c.r)
          (satc_test_polygon_circle_a_in_b
            (satc_point_sub (satc_point_sub c.pos box.pos) ⟨0, 0⟩) (c.r * c.r) (some r0)))
      else
        some (true, (satc_test_polygon_circle_a_in_b
          (satc_point_sub (satc_point_sub c.pos box.pos) ⟨0, box.h⟩) (c.r * c.r)
          (satc_test_polygon_circle_update
            (c.r - satc_point_len m
              (satc_point_sub (satc_point_sub c.pos box.pos) ⟨box.w, box.h⟩))
            (some (satc_point_normalize m
              (satc_point_sub (satc_point_sub c.pos box.pos) ⟨box.w, box.h⟩)))
            ((satc_test_polygon_circle_a_in_b
              (satc_point_sub (satc_point_sub c.pos box.pos) ⟨box.w, box.h⟩) (c.r * c.r)
              (satc_test_polygon_circle_update
                (c.r - satc_point_len m
                  (satc_point_sub (satc_point_sub c.pos box.pos) ⟨box.w, box.h⟩))
                (some (satc_point_normalize m
                  (satc_point_sub (satc_point_sub c.pos box.pos) ⟨box.w, box.h⟩)))
                ((satc_test_polygon_circle_a_in_b
                  (satc_point_sub (satc_point_sub c.pos box.pos) ⟨box.w, 0⟩) (c.r * c.r)
                  (satc_test_polygon_circle_a_in_b
                    (satc_point_sub (satc_point_sub c.pos box.pos) ⟨0, 0⟩) (c.r * c.r)
                    (some r0))).map (fun r => { r with b_in_a := false })))).map
              (fun r => { r with b_in_a := false }))))) := by
  have v00 : satc_voronoi_region (⟨box.w, 0⟩ : satc_point K)
      (satc_point_sub (satc_point_sub c.pos box.pos) ⟨0, 0⟩) = SATC_RIGHT_VORONOI_REGION := by
    apply satc_voronoi_region_right
    simp only [satc_point_dot, satc_point_len2, satc_point_sub]
    nlinarith
  have v01 : satc_voronoi_region (⟨0, box.h⟩ : satc_point K)
      (satc_point_sub (satc_point_sub c.pos box.pos) ⟨box.w, 0⟩) = SATC_RIGHT_VORONOI_REGION := by
    apply satc_voronoi_region_right
    simp only [satc_point_dot, satc_point_len2, satc_point_sub]
    nlinarith
  have v12 : satc_voronoi_region (⟨-box.w, 0⟩ : satc_point K)
      (satc_point_sub (satc_point_sub c.pos box.pos) ⟨box.w, box.h⟩) =
      SATC_LEFT_VORONOI_REGION := by
    apply satc_voronoi_region_left
    simp only [satc_point_dot, satc_point_sub]
    nlinarith
  have v33 : satc_voronoi_region (⟨0, -box.h⟩ : satc_point K)
      (satc_point_sub (satc_point_sub c.pos box.pos) ⟨0, box.h⟩) = SATC_LEFT_VORONOI_REGION := by
    apply satc_voronoi_region_left
    simp only [satc_point_dot, satc_point_sub]
    nlinarith
  have hRL : SATC_RIGHT_VORONOI_REGION ≠ SATC_LEFT_VORONOI_REGION := by decide
  have hLR : SATC_LEFT_VORONOI_REGION ≠ SATC_RIGHT_VORONOI_REGION := by decide
  rw [satc_box_to_polygon_eq]
  simp only [satc_test_polygon_circle_loop, satc_test_polygon_circle_body,
    satc_test_polygon_circle_region, satc_point_copy_eq, List.getD_cons_zero,
    List.getD_cons_succ, List.length_cons, List.length_nil, Nat.reduceAdd, Nat.reduceSub,
    Nat.reduceEqDiff, if_false, if_true, v00, v01, v12, v33, hRL, hLR,
    OfNat.ofNat_ne_zero, OfNat.zero_ne_ofNat, Nat.succ_ne_self, one_ne_zero, zero_ne_one,
    Nat.zero_eq, Nat.pred_eq_sub_one]
  have un : ∀ x : Option (satc_response K), satc_test_polygon_circle_update 0 none x = x :=
    fun x => by cases x <;> rfl
  simp only [satc_test_polygon_circle_a_in_b_some, un]
  by_cases hd : satc_point_len m
      (satc_point_sub (satc_point_sub c.pos box.pos) ⟨box.w, box.h⟩) > c.r
  · simp only [hd, if_true]
  · simp only [hd, if_false, Option.map_some']
    obtain ⟨r1, h1, -, -⟩ := satc_test_polygon_circle_update_some
      (c.r - satc_point_len m (satc_point_sub (satc_point_sub c.pos box.pos) ⟨box.w, box.h⟩))
      (some (satc_point_normalize m
        (satc_point_sub (satc_point_sub c.pos box.pos) ⟨box.w, box.h⟩)))
      { r0 with
        a_in_b := (r0.a_in_b && !decide (satc_point_len2
            (satc_point_sub (satc_point_sub c.pos box.pos) ⟨0, 0⟩) > c.r * c.r)) &&
          !decide (satc_point_len2
            (satc_point_sub (satc_point_sub c.pos box.pos) ⟨box.w, 0⟩) > c.r * c.r)
        b_in_a := false }
    simp only [h1, satc_test_polygon_circle_a_in_b_some, Option.map_some']

/-- The polygon-circle test on a box polygon and a circle whose centre lies diagonally
behind the corner `(w, h)`, on a fresh response: it returns false when the centre is farther
than the radius from the corner, and otherwise records the overlap along the direction from
the corner to the centre. -/
theorem satc_test_polygon_circle_corner (m : MathFns K) (hm : m.IsSqrt) (box : satc_box K)
    (c : satc_circle K) (hw : 0 < box.w) (hh : 0 < box.h) (hrD : c.r ≤ DBL_MAX)
    (hX : c.pos.x - box.pos.x > box.w) (hY : c.pos.y - box.pos.y > box.h) :
    (satc_point_len m (satc_point_sub (satc_point_sub c.pos box.pos) ⟨box.w, box.h⟩) > c.r →
        ∃ ro, satc_test_polygon_circle m (satc_box_to_polygon m box) c
          (some satc_response_create) = some (false, ro)) ∧
      (satc_point_len m (satc_point_sub (satc_point_sub c.pos box.pos) ⟨box.w, box.h⟩) ≤ c.r →
        ∃ r, satc_test_polygon_circle m (satc_box_to_polygon m box) c
            (some satc_response_create) = some (true, some r) ∧
          r.overlap = c.r -
            satc_point_len m (satc_point_sub (satc_point_sub c.pos box.pos) ⟨box.w, box.h⟩) ∧
          r.overlap_n = satc_point_normalize m
            (satc_point_sub (satc_point_sub c.pos box.pos) ⟨box.w, box.h⟩) ∧
          r.overlap_v = satc_point_scale_x r.overlap_n r.overlap ∧ r.b_in_a = false ∧
          r.a = some (satc_shape.polygon (satc_box_to_polygon m box)) ∧
          r.b = some (satc_shape.circle c)) := by
  have hl : (satc_box_to_polygon m box).calc_points.length = 4 := by
    rw [satc_box_to_polygon_eq]; rfl
  have hloop := satc_test_polygon_circle_loop_corner m box c hw hh hX hY satc_response_create
  have hpos : 0 < satc_point_len2
      (satc_point_sub (satc_point_sub c.pos box.pos) ⟨box.w, box.h⟩) := by
    simp only [satc_point_len2, satc_point_dot, satc_point_sub]
    have h1 : 0 < c.pos.x - box.pos.x - box.w := by linarith
    have h2 : 0 < c.pos.y - box.pos.y - box.h := by linarith
    positivity
  obtain ⟨hd0, hdd⟩ := hm _ hpos.le
  have hd : 0 < satc_point_len m
      (satc_point_sub (satc_point_sub c.pos box.pos) ⟨box.w, box.h⟩) := by
    unfold satc_point_len
    rcases hd0.lt_or_eq with h1 | h1
    · exact h1
    · rw [← h1] at hdd; simp at hdd; linarith
  constructor
  · intro hgt
    unfold satc_test_polygon_circle
    simp only []
    rw [hl, range4, hloop, if_pos hgt]
    exact ⟨_, rfl⟩
  · intro hle
    have hgt : ¬ satc_point_len m
        (satc_point_sub (satc_point_sub c.pos box.pos) ⟨box.w, box.h⟩) > c.r := not_lt.2 hle
    have hD : (0 : K) < DBL_MAX := DBL_MAX_pos
    have habs : |c.r - satc_point_len m
        (satc_point_sub (satc_point_sub c.pos box.pos) ⟨box.w, box.h⟩)| < |(DBL_MAX : K)| := by
      rw [abs_of_nonneg (by linarith), abs_of_pos hD]
      linarith
    unfold satc_test_polygon_circle
    simp only []
    rw [hl, range4, hloop, if_neg hgt]
    simp only [satc_test_polygon_circle_a_in_b_some, Option.map_some',
      satc_test_polygon_circle_update, satc_response_create, fabs_eq_abs, habs, if_true,
      lt_irrefl, if_false, satc_point_copy_eq]
    exact ⟨_, rfl, rfl, rfl, rfl, rfl, rfl, rfl⟩

/-- The square of the test and its circle: centre `(50, 50)`, radius 20, at distance
`sqrt 200` from the corner `(40, 40)`. -/
theorem polygon_circle_test_input :
    (20 : ℝ) ≤ DBL_MAX ∧
      satc_point_len (MathFns.mk Real.sqrt Real.cos Real.sin)
        (satc_point_sub (⟨50, 50⟩ : satc_point ℝ) ⟨0 + 40, 0 + 40⟩) = Real.sqrt 200 ∧
      Real.sqrt 200 ≤ 20 ∧ 0 < Real.sqrt 200 := by
  refine ⟨DBL_MAX_gt_20.le, ?_, ?_, ?_⟩
  · simp only [satc_point_len, satc_point_len2, satc_point_dot, satc_point_sub]
    norm_num
  · rw [show (20 : ℝ) = Real.sqrt (20 * 20) from (Real.sqrt_mul_self (by norm_num)).symm]
    exact Real.sqrt_le_sqrt (by norm_num)
  · exact Real.sqrt_pos.2 (by norm_num)

/-- A loop over the indices of an array that only reads the cell at its index is a fold
over the list. -/
theorem foldl_range_getD {α β : Type} (f : β → α → β) (d : α) (l : List α) (init : β) :
    (List.range l.length).foldl (fun acc i => f acc (l.getD i d)) init = l.foldl f init := by
  induction l generalizing init with
  | nil => rfl
  | cons a l ih =>
    rw [List.length_cons, List.range_succ_eq_map, List.foldl_cons, List.foldl_map]
    simp only [List.getD_cons_zero, List.getD_cons_succ, List.foldl_cons]
    exact ih _

/-- The flattening loop, as a fold over the points. -/
theorem satc_flatten_points_on_eq_foldl (points : List (satc_point K)) (normal : satc_point K) :
    satc_flatten_points_on points.length points normal =
      points.foldl (fun (mm : K × K) p =>
        (if satc_point_dot p normal < mm.1 then satc_point_dot p normal else mm.1,
          if satc_point_dot p normal > mm.2 then satc_point_dot p normal else mm.2))
        (DBL_MAX, -DBL_MAX) := by
  unfold satc_flatten_points_on
  exact foldl_range_getD (fun (mm : K × K) p =>
        (if satc_point_dot p normal < mm.1 then satc_point_dot p normal else mm.1,
          if satc_point_dot p normal > mm.2 then satc_point_dot p normal else mm.2))
    satc_point_alloca points (DBL_MAX, -DBL_MAX)

/-- The running minimum and maximum of the flattening loop started at `(a, b)`: the
minimum is below `c` iff `a` or some dot product is, and the maximum is above `c` iff `b`
or some dot product is. -/
theorem flatten_foldl_bounds (points : List (satc_point K)) (normal : satc_point K)
    (a b c : K) :
    ((points.foldl (fun (mm : K × K) p =>
        (if satc_point_dot p normal < mm.1 then satc_point_dot p normal else mm.1,
          if satc_point_dot p normal > mm.2 then satc_point_dot p normal else mm.2))
        (a, b)).1 ≤ c ↔ a ≤ c ∨ ∃ p ∈ points, satc_point_dot p normal ≤ c) ∧
      (c ≤ (points.foldl (fun (mm : K × K) p =>
        (if satc_point_dot p normal < mm.1 then satc_point_dot p normal else mm.1,
          if satc_point_dot p normal > mm.2 then satc_point_dot p normal else mm.2))
        (a, b)).2 ↔ c ≤ b ∨ ∃ p ∈ points, c ≤ satc_point_dot p normal) := by
  induction points generalizing a b with
  | nil => simp
  | cons p ps ih =>
    rw [List.foldl_cons]
    obtain ⟨ih1, ih2⟩ := ih (if satc_point_dot p normal < a then satc_point_dot p normal else a)
      (if satc_point_dot p normal > b then satc_point_dot p normal else b)
    rw [ih1, ih2]
    simp only [List.mem_cons, exists_eq_or_imp]
    constructor
    · split_ifs with h
      · constructor
        · rintro (h1 | h1)
          · exact Or.inr (Or.inl h1)
          · exact Or.inr (Or.inr h1)
        · rintro (h1 | h1 | h1)
          · exact Or.inl (le_trans h.le h1)
          · exact Or.inl h1
          · exact Or.inr h1
      · constructor
        · rintro (h1 | h1)
          · exact Or.inl h1
          · exact Or.inr (Or.inr h1)
        · rintro (h1 | h1 | h1)
          · exact Or.inl h1
          · exact Or.inl (le_trans (not_lt.1 h) h1)
          · exact Or.inr h1
    · split_ifs with h
      · constructor
        · rintro (h1 | h1)
          · exact Or.inr (Or.inl h1)
          · exact Or.inr (Or.inr h1)
        · rintro (h1 | h1 | h1)
          · exact Or.inl (le_trans h1 h.le)
          · exact Or.inl h1
          · exact Or.inr h1
      · constructor
        · rintro (h1 | h1)
          · exact Or.inl h1
          · exact Or.inr (Or.inr h1)
        · rintro (h1 | h1 | h1)
          · exact Or.inl h1
          · exact Or.inl (le_trans h1 (not_lt.1 h))
          · exact Or.inr h1

/-- The minimum returned by `satc_flatten_points_on` is at most `c` iff `DBL_MAX` or some
dot product is. -/
theorem satc_flatten_points_on_fst_le (points : List (satc_point K)) (normal : satc_point K)
    (c : K) :
    (satc_flatten_points_on points.length points normal).1 ≤ c ↔
      DBL_MAX ≤ c ∨ ∃ p ∈ points, satc_point_dot p normal ≤ c := by
  rw [satc_flatten_points_on_eq_foldl]
  exact (flatten_foldl_bounds points normal DBL_MAX (-DBL_MAX) c).1

/-- The maximum returned by `satc_flatten_points_on` is at least `c` iff `-DBL_MAX` or some
dot product is. -/
theorem satc_flatten_points_on_le_snd (points : List (satc_point K)) (normal : satc_point K)
    (c : K) :
    c ≤ (satc_flatten_points_on points.length points normal).2 ↔
      c ≤ -DBL_MAX ∨ ∃ p ∈ points, c ≤ satc_point_dot p normal := by
  rw [satc_flatten_points_on_eq_foldl]
  exact (flatten_foldl_bounds points normal DBL_MAX (-DBL_MAX) c).2

theorem satc_polygon_translate_eq_loop (m : MathFns K) (p : satc_polygon K) (x y : K) :
    satc_polygon_translate m p x y =
      if p.points.length < (satc_polygon_translate_loop p.points x).length then
        some (_satc_polygon_recalc m
          { p with
            points := (satc_polygon_translate_loop p.points x).set p.points.length
              ⟨((satc_polygon_translate_loop p.points x).getD p.points.length
                satc_point_alloca).x, y⟩ })
      else none := rfl

/-- The loop of `satc_polygon_translate` replaces the first coordinate of every point by
`x` and keeps the second. -/
theorem satc_polygon_translate_loop_eq (points : List (satc_point K)) (x : K) :
    satc_polygon_translate_loop points x = points.map (fun p => ⟨x, p.y⟩) := by
  unfold satc_polygon_translate_loop
  rw [foldl_set_range_self (fun p : satc_point K => (⟨x, p.y⟩ : satc_point K))
    satc_point_alloca points.length points le_rfl]
  simp

theorem satc_polygon_create_points {K : Type} [Zero K] [Add K] [Sub K] [Mul K] [Div K] [Neg K]
    [LT K]
    [DecidableEq K] [∀ a b : K, Decidable (a < b)]
    (m : MathFns K) (pos : satc_point K)
    (points : List (satc_point K)) : (satc_polygon_create m pos points).points = points := by
  unfold satc_polygon_create satc_polygon_set_points _satc_polygon_copy_points
  show (points.map satc_point_clone) = points
  have : (satc_point_clone : satc_point K → satc_point K) = id := by
    funext p; rfl
  rw [this, List.map_id]

/-- The position of a polygon made by `satc_polygon_create` is the given position. -/
theorem satc_polygon_create_pos {K : Type} [Zero K] [Add K] [Sub K] [Mul K] [Div K] [Neg K] [LT K]
    [DecidableEq K] [∀ a b : K, Decidable (a < b)]
    (m : MathFns K) (pos : satc_point K) (points : List (satc_point K)) :
    (satc_polygon_create m pos points).pos = pos := by
  unfold satc_polygon_create satc_polygon_set_points _satc_polygon_copy_points
    _satc_polygon_recalc
  simp only []
  split_ifs <;> rfl

/-- The polygon of `satc_circle_get_aabb`, as the box polygon of the corner and the side. -/
theorem satc_circle_get_aabb_eq {K : Type} [Zero K] [NatCast K] [Add K] [Sub K] [Mul K] [Div K]
    [Neg K]
    [LT K] [DecidableEq K] [∀ a b : K, Decidable (a < b)]
    (m : MathFns K) (c : satc_circle K) :
    satc_circle_get_aabb m c =
      satc_box_to_polygon m ⟨⟨c.pos.x - c.r, c.pos.y - c.r⟩, c.r * 2, c.r * 2⟩ := rfl

/-- A point in the circle is within the radius of the centre in each coordinate. -/
theorem satc_point_in_circle_bounds (p : satc_point K) (c : satc_circle K) (hr : 0 ≤ c.r)
    (h : satc_point_in_circle p c = true) :
    c.pos.x - c.r ≤ p.x ∧ p.x ≤ c.pos.x + c.r ∧ c.pos.y - c.r ≤ p.y ∧ p.y ≤ c.pos.y + c.r := by
  simp only [satc_point_in_circle, satc_point_copy_eq, satc_point_len2, satc_point_dot,
    satc_point_sub, decide_eq_true_eq] at h
  have key : ∀ u v : K, u * u + v * v ≤ c.r * c.r → u ≤ c.r := by
    intro u v huv
    by_contra hc
    have h1 := mul_self_lt_mul_self hr (not_le.1 hc)
    linarith [mul_self_nonneg v]
  have h1 := key (p.x - c.pos.x) (p.y - c.pos.y) h
  have h2 := key (c.pos.x - p.x) (p.y - c.pos.y) (by linarith [h, (by ring :
    (c.pos.x - p.x) * (c.pos.x - p.x) = (p.x - c.pos.x) * (p.x - c.pos.x))])
  have h3 := key (p.y - c.pos.y) (p.x - c.pos.x) (by linarith)
  have h4 := key (c.pos.y - p.y) (p.x - c.pos.x) (by linarith [h, (by ring :
    (c.pos.y - p.y) * (c.pos.y - p.y) = (p.y - c.pos.y) * (p.y - c.pos.y))])
  refine ⟨?_, ?_, ?_, ?_⟩ <;> linarith

theorem rectangle_10_5_points (m : MathFns K) :
    (rectangle_10_5 m).points = [⟨10, 0⟩, ⟨10, 5⟩, ⟨0, 5⟩, ⟨0, 0⟩] :=
  satc_polygon_create_points m _ _

/-- The loop of `satc_polygon_get_aabb` on the rectangle 10 wide and 5 high, from the
initial values of the source: `y_max` starts at `x_max = 10` and stays there. -/
theorem satc_polygon_get_aabb_loop_rectangle :
    satc_polygon_get_aabb_loop [(⟨10, 0⟩ : satc_point K), ⟨10, 5⟩, ⟨0, 5⟩, ⟨0, 0⟩]
      (10, 10, 0, 10) = (0, 10, 0, 10) := by
  have h1 : ¬ ((10 : K) < 5) := by norm_num
  have h2 : ¬ ((10 : K) < 0) := by norm_num
  have h3 : (0 : K) < 10 := by norm_num
  have h4 : (0 : K) < 5 := by norm_num
  simp [satc_polygon_get_aabb_loop, range4, h1, h2, h3, h4, not_lt.2 h3.le, not_lt.2 h4.le]

theorem polygon_aabb_rectangle_eval (m : MathFns K) (pos0 : satc_point K) :
    satc_polygon_get_aabb m pos0 (rectangle_10_5 m) =
      some (satc_box_to_polygon m ⟨⟨pos0.x + 0, pos0.y + 0⟩, 10 - 0, 10 - 0⟩) := by
  unfold satc_polygon_get_aabb
  rw [rectangle_10_5_points]
  simp only [List.getElem?_cons_zero]
  rw [satc_polygon_get_aabb_loop_rectangle]
  rfl

theorem satc_polygon_rotate_points_eq (m : MathFns K) (p : satc_polygon K) (angle : K) :
    (satc_polygon_rotate m p angle).points =
      p.points.map (fun q => satc_point_rotate m q angle) :=
  satc_polygon_rotate_points m p.points angle

/-- In a consistent polygon with angle 0 the world points are the vertices moved by the
offset. -/
theorem satc_polygon_consistent_calc_points (m : MathFns K) (p : satc_polygon K)
    (hp : satc_polygon_consistent m p) (h0 : p.angle = 0) :
    p.calc_points = p.points.map (fun q => satc_point_add q p.offset) := by
  obtain ⟨hc, he, hn, hre⟩ := hp
  have h := congrArg satc_polygon.calc_points hre
  rw [_satc_polygon_recalc_eq_of_length m p hc he hn] at h
  simp only [spec_calc_points, h0, ne_eq, not_true_eq_false, if_false] at h
  rw [← h]
  exact map_range_getD p.points satc_point_alloca (fun q => satc_point_add q p.offset)

/-- With the real cosine and sine, `satc_point_rotate` by `θ` and then by `-θ` moves the
point `p` to `(p.x - 2 p.y sin θ cos θ, p.y - 2 p.x sin θ cos θ)`. -/
theorem satc_point_rotate_back (p : satc_point ℝ) (θ : ℝ) :
    satc_point_rotate (MathFns.mk Real.sqrt Real.cos Real.sin)
        (satc_point_rotate (MathFns.mk Real.sqrt Real.cos Real.sin) p θ) (-θ) =
      ⟨p.x - 2 * p.y * (Real.sin θ * Real.cos θ),
        p.y - 2 * p.x * (Real.sin θ * Real.cos θ)⟩ := by
  simp only [satc_point_rotate, Real.cos_neg, Real.sin_neg]
  ext
  · simp only []
    linear_combination p.x * Real.cos_sq_add_sin_sq θ
  · simp only []
    linear_combination p.y * Real.cos_sq_add_sin_sq θ

theorem sin_mul_cos_pi_div_four : Real.sin (Real.pi / 4) * Real.cos (Real.pi / 4) = 1 / 2 := by
  rw [Real.sin_pi_div_four, Real.cos_pi_div_four]
  have h : Real.sqrt 2 * Real.sqrt 2 = 2 := Real.mul_self_sqrt (by norm_num)
  linear_combination h / 4

/-- The 20x20 box polygon rotated in place by `π/4` and then by `-π/4`. -/
theorem polygon_rotate_back_eval :
    (satc_polygon_rotate (MathFns.mk Real.sqrt Real.cos Real.sin)
        (satc_polygon_rotate (MathFns.mk Real.sqrt Real.cos Real.sin)
          (box20_at (MathFns.mk Real.sqrt Real.cos Real.sin) 0 0) (Real.pi / 4))
        (-(Real.pi / 4))).points = [⟨0, 0⟩, ⟨20, -20⟩, ⟨0, 0⟩, ⟨-20, 20⟩] ∧
      (satc_polygon_rotate (MathFns.mk Real.sqrt Real.cos Real.sin)
        (satc_polygon_rotate (MathFns.mk Real.sqrt Real.cos Real.sin)
          (box20_at (MathFns.mk Real.sqrt Real.cos Real.sin) 0 0) (Real.pi / 4))
        (-(Real.pi / 4))).calc_points = [⟨0, 0⟩, ⟨20, -20⟩, ⟨0, 0⟩, ⟨-20, 20⟩] := by
  have hpts : (satc_polygon_rotate (MathFns.mk Real.sqrt Real.cos Real.sin)
        (satc_polygon_rotate (MathFns.mk Real.sqrt Real.cos Real.sin)
          (box20_at (MathFns.mk Real.sqrt Real.cos Real.sin) 0 0) (Real.pi / 4))
        (-(Real.pi / 4))).points = [⟨0, 0⟩, ⟨20, -20⟩, ⟨0, 0⟩, ⟨-20, 20⟩] := by
    rw [satc_polygon_rotate_points_eq, satc_polygon_rotate_points_eq, List.map_map,
      box20_at_eq _ real_isSqrt]
    simp only [List.map_cons, List.map_nil, Function.comp, satc_point_rotate_back,
      sin_mul_cos_pi_div_four]
    norm_num
  refine ⟨hpts, ?_⟩
  have hcons : satc_polygon_consistent (MathFns.mk Real.sqrt Real.cos Real.sin)
      (satc_polygon_rotate (MathFns.mk Real.sqrt Real.cos Real.sin)
        (satc_polygon_rotate (MathFns.mk Real.sqrt Real.cos Real.sin)
          (box20_at (MathFns.mk Real.sqrt Real.cos Real.sin) 0 0) (Real.pi / 4))
        (-(Real.pi / 4))) :=
    satc_polygon_rotate_consistent _ _ _ (satc_polygon_rotate_consistent _ _ _
      (satc_polygon_create_consistent _ _ _))
  rw [satc_polygon_consistent_calc_points _ _ hcons rfl, hpts]
  simp [satc_polygon_rotate, _satc_polygon_recalc, box20_at, satc_box_to_polygon,
    satc_polygon_create, satc_polygon_set_points, _satc_polygon_copy_points,
    satc_point_create, satc_point_add, _satc_polygon_reset_normals, _satc_polygon_reset_edges,
    _satc_polygon_reset_calc_points]

/-- The axis test on a supplied response: either the axis separates and the response is
handed back as it is, or the response block runs on the two ranges. -/
theorem satc_is_separating_axis_some (a_pos b_pos : satc_point K) (a_len : Nat)
    (a_points : List (satc_point K)) (b_len : Nat) (b_points : List (satc_point K))
    (axis : satc_point K) (r : satc_response K) :
    satc_is_separating_axis a_pos b_pos a_len a_points b_len b_points axis (some r) =
      if (satc_flatten_points_on a_len a_points axis).1 >
            (satc_flatten_points_on b_len b_points axis).2 +
              satc_point_dot (satc_point_sub b_pos a_pos) axis ∨
          (satc_flatten_points_on b_len b_points axis).1 +
              satc_point_dot (satc_point_sub b_pos a_pos) axis >
            (satc_flatten_points_on a_len a_points axis).2 then (true, some r)
      else (false, some (satc_is_separating_axis_response
        (satc_flatten_points_on a_len a_points axis)
        ((satc_flatten_points_on b_len b_points axis).1 +
            satc_point_dot (satc_point_sub b_pos a_pos) axis,
          (satc_flatten_points_on b_len b_points axis).2 +
            satc_point_dot (satc_point_sub b_pos a_pos) axis) axis r)) := rfl

/-- The response block stores `|overlap|` when it is smaller than the overlap of the
response. -/
theorem satc_is_separating_axis_response_overlap (range_a range_b : K × K)
    (axis : satc_point K) (r : satc_response K) :
    (satc_is_separating_axis_response range_a range_b axis r).overlap =
      if |satc_is_separating_axis_overlap range_a range_b| < r.overlap then
        |satc_is_separating_axis_overlap range_a range_b|
      else r.overlap := by
  unfold satc_is_separating_axis_response satc_is_separating_axis_overlap
  simp only [fabs_eq_abs]
  split_ifs <;> rfl

/-- The response block stores the axis, reversed when the overlap is negative, when
`|overlap|` is smaller than the overlap of the response. -/
theorem satc_is_separating_axis_response_overlap_n (range_a range_b : K × K)
    (axis : satc_point K) (r : satc_response K) :
    (satc_is_separating_axis_response range_a range_b axis r).overlap_n =
      if |satc_is_separating_axis_overlap range_a range_b| < r.overlap then
        (if satc_is_separating_axis_overlap range_a range_b < 0 then satc_point_reverse axis
          else axis)
      else r.overlap_n := by
  unfold satc_is_separating_axis_response satc_is_separating_axis_overlap
  simp only [fabs_eq_abs]
  split_ifs <;> rfl

/-- The response block does not write `overlap_v`, `a` and `b`. -/
theorem satc_is_separating_axis_response_frame (range_a range_b : K × K)
    (axis : satc_point K) (r : satc_response K) :
    (satc_is_separating_axis_response range_a range_b axis r).overlap_v = r.overlap_v ∧
      (satc_is_separating_axis_response range_a range_b axis r).a = r.a ∧
      (satc_is_separating_axis_response range_a range_b axis r).b = r.b := by
  unfold satc_is_separating_axis_response
  simp only []
  split_ifs <;> exact ⟨rfl, rfl, rfl⟩

/-- The response block only clears containment flags. -/
theorem satc_is_separating_axis_response_flags (range_a range_b : K × K)
    (axis : satc_point K) (r : satc_response K) :
    spec_flags_not_restored r (satc_is_separating_axis_response range_a range_b axis r) := by
  unfold satc_is_separating_axis_response spec_flags_not_restored
  simp only []
  split_ifs <;> exact ⟨fun h => by first | rfl | exact h, fun h => by first | rfl | exact h⟩

/-- The axis test hands a supplied response back and only clears containment flags. -/
theorem satc_is_separating_axis_flags (a_pos b_pos : satc_point K) (a_len : Nat)
    (a_points : List (satc_point K)) (b_len : Nat) (b_points : List (satc_point K))
    (axis : satc_point K) (r : satc_response K) :
    ∃ c r1, satc_is_separating_axis a_pos b_pos a_len a_points b_len b_points axis (some r) =
        (c, some r1) ∧ spec_flags_not_restored r r1 := by
  rw [satc_is_separating_axis_some]
  split_ifs
  · exact ⟨true, r, rfl, spec_flags_not_restored_refl r⟩
  · exact ⟨false, _, rfl, satc_is_separating_axis_response_flags _ _ _ r⟩

/-- A loop of the polygon-polygon test hands a supplied response back and only clears
containment flags. -/
theorem satc_test_polygon_polygon_loop_flags (a b : satc_polygon K)
    (normals : List (satc_point K)) (is : List Nat) (r : satc_response K) :
    ∃ c r1, satc_test_polygon_polygon_loop a b normals is (some r) = (c, some r1) ∧
      spec_flags_not_restored r r1 := by
  induction is generalizing r with
  | nil => exact ⟨true, r, rfl, spec_flags_not_restored_refl r⟩
  | cons i is ih =>
    rw [satc_test_polygon_polygon_loop]
    obtain ⟨c, r1, h1, hf1⟩ := satc_is_separating_axis_flags a.pos b.pos a.points.length
      a.points b.points.length b.points (normals.getD i satc_point_alloca) r
    rw [h1]
    cases c with
    | true => exact ⟨false, r1, rfl, hf1⟩
    | false =>
      obtain ⟨c2, r2, h2, hf2⟩ := ih r1
      exact ⟨c2, r2, h2, spec_flags_not_restored_trans hf1 hf2⟩

/-- The polygon-polygon test hands a supplied response back and only clears containment
flags. -/
theorem satc_test_polygon_polygon_flags (a b : satc_polygon K) (r : satc_response K) :
    ∃ c r1, satc_test_polygon_polygon a b (some r) = (c, some r1) ∧
      spec_flags_not_restored r r1 := by
  unfold satc_test_polygon_polygon
  obtain ⟨c1, r1, h1, hf1⟩ := satc_test_polygon_polygon_loop_flags a b a.normals
    (List.range a.points.length) r
  simp only [h1]
  cases c1 with
  | false => exact ⟨false, r1, rfl, hf1⟩
  | true =>
    obtain ⟨c2, r2, h2, hf2⟩ := satc_test_polygon_polygon_loop_flags a b b.normals
      (List.range b.points.length) r1
    simp only [h2]
    cases c2 with
    | false => exact ⟨false, r2, rfl, spec_flags_not_restored_trans hf1 hf2⟩
    | true => exact ⟨true, _, rfl, spec_flags_not_restored_trans hf1 hf2⟩

/-- With a response supplied, the branches on the region never dereference an absent
response and only clear containment flags. -/
theorem satc_test_polygon_circle_region_flags (m : MathFns K) (polygon : satc_polygon K)
    (circle_pos : satc_point K) (radius : K) (i : Nat) (edge point : satc_point K)
    (r : satc_response K) :
    satc_test_polygon_circle_region m polygon circle_pos radius i edge point (some r) =
        some none ∨
      ∃ overlap overlap_n r1,
        satc_test_polygon_circle_region m polygon circle_pos radius i edge point (some r) =
          some (some (overlap, overlap_n, some r1)) ∧ spec_flags_not_restored r r1 := by
  unfold satc_test_polygon_circle_region spec_flags_not_restored
  simp only []
  split_ifs <;> first
    | exact Or.inl rfl
    | exact Or.inr ⟨_, _, _, rfl, fun h => h, fun h => h⟩
    | exact Or.inr ⟨_, _, _, rfl, fun h => h, fun _ => rfl⟩

/-- With a response supplied, one pass of the polygon-circle loop body hands a response
back and only clears containment flags. -/
theorem satc_test_polygon_circle_body_flags (m : MathFns K) (polygon : satc_polygon K)
    (circle : satc_circle K) (i : Nat) (r : satc_response K) :
    ∃ c r1, satc_test_polygon_circle_body m polygon circle i (some r) = some (c, some r1) ∧
      spec_flags_not_restored r r1 := by
  unfold satc_test_polygon_circle_body
  simp only [satc_point_copy_eq, satc_test_polygon_circle_a_in_b_some]
  have h0 : spec_flags_not_restored r
      { r with a_in_b := r.a_in_b && !decide (satc_point_len2
        (satc_point_sub (satc_point_sub circle.pos polygon.pos)
          (polygon.calc_points.getD i satc_point_alloca)) > circle.r * circle.r) } :=
    ⟨fun h => by simp [h], fun h => h⟩
  rcases satc_test_polygon_circle_region_flags m polygon
    (satc_point_sub circle.pos polygon.pos) circle.r i
    (polygon.edges.getD i satc_point_alloca)
    (satc_point_sub (satc_point_sub circle.pos polygon.pos)
      (polygon.calc_points.getD i satc_point_alloca))
    { r with a_in_b := r.a_in_b && !decide (satc_point_len2
        (satc_point_sub (satc_point_sub circle.pos polygon.pos)
          (polygon.calc_points.getD i satc_point_alloca)) > circle.r * circle.r) }
    with h | ⟨ov, ovn, r1, h, hf⟩
  · rw [h]
    exact ⟨false, _, rfl, h0⟩
  · rw [h]
    obtain ⟨r2, h2, ha2, hb2⟩ := satc_test_polygon_circle_update_some ov ovn r1
    simp only [h2]
    refine ⟨true, r2, rfl, spec_flags_not_restored_trans h0
      (spec_flags_not_restored_trans hf ⟨fun h => ?_, fun h => ?_⟩)⟩
    · rw [ha2]; exact h
    · rw [hb2]; exact h

/-- With a response supplied, the polygon-circle loop hands a response back and only clears
containment flags. -/
theorem satc_test_polygon_circle_loop_flags (m : MathFns K) (polygon : satc_polygon K)
    (circle : satc_circle K) (is : List Nat) (r : satc_response K) :
    ∃ c r1, satc_test_polygon_circle_loop m polygon circle is (some r) = some (c, some r1) ∧
      spec_flags_not_restored r r1 := by
  induction is generalizing r with
  | nil => exact ⟨true, r, rfl, spec_flags_not_restored_refl r⟩
  | cons i is ih =>
    rw [satc_test_polygon_circle_loop]
    obtain ⟨c, r1, h1, hf1⟩ := satc_test_polygon_circle_body_flags m polygon circle i r
    rw [h1]
    cases c with
    | false => exact ⟨false, r1, rfl, hf1⟩
    | true =>
      obtain ⟨c2, r2, h2, hf2⟩ := ih r1
      exact ⟨c2, r2, h2, spec_flags_not_restored_trans hf1 hf2⟩

/-- With a response supplied, `satc_test_polygon_circle` hands a response back and only
clears containment flags. -/
theorem satc_test_polygon_circle_flags (m : MathFns K) (polygon : satc_polygon K)
    (circle : satc_circle K) (r : satc_response K) :
    ∃ c r1, satc_test_polygon_circle m polygon circle (some r) = some (c, some r1) ∧
      spec_flags_not_restored r r1 := by
  unfold satc_test_polygon_circle
  obtain ⟨c, r1, h1, hf1⟩ := satc_test_polygon_circle_loop_flags m polygon circle
    (List.range polygon.calc_points.length) r
  simp only [h1]
  cases c with
  | false => exact ⟨false, r1, rfl, hf1⟩
  | true => exact ⟨true, _, rfl, hf1⟩

/-- The range computed by `satc_flatten_points_on` is the least and the greatest projection
of the points, when there is a point and the projections are doubles. -/
theorem satc_flatten_points_on_eq (points : List (satc_point K)) (axis : satc_point K)
    (mn mx : K)
    (hmin : IsLeast {t | ∃ p ∈ points, satc_point_dot p axis = t} mn)
    (hmax : IsGreatest {t | ∃ p ∈ points, satc_point_dot p axis = t} mx)
    (hb : ∀ p ∈ points, |satc_point_dot p axis| ≤ DBL_MAX) :
    satc_flatten_points_on points.length points axis = (mn, mx) := by
  have h1 : (satc_flatten_points_on points.length points axis).1 = mn := by
    obtain ⟨p, hp, hpe⟩ := hmin.1
    apply le_antisymm
    · exact (satc_flatten_points_on_fst_le points axis mn).2 (Or.inr ⟨p, hp, hpe.le⟩)
    · rcases (satc_flatten_points_on_fst_le points axis _).1 le_rfl with h | ⟨q, hq, hle⟩
      · have := hb p hp
        rw [hpe] at this
        exact le_trans (le_trans (le_abs_self mn) this) h
      · exact le_trans (hmin.2 ⟨q, hq, rfl⟩) hle
  have h2 : (satc_flatten_points_on points.length points axis).2 = mx := by
    obtain ⟨p, hp, hpe⟩ := hmax.1
    apply le_antisymm
    · rcases (satc_flatten_points_on_le_snd points axis _).1 le_rfl with h | ⟨q, hq, hle⟩
      · have := hb p hp
        rw [hpe] at this
        have h3 := neg_abs_le mx
        linarith
      · exact le_trans hle (hmax.2 ⟨q, hq, rfl⟩)
    · exact (satc_flatten_points_on_le_snd points axis mx).2 (Or.inr ⟨p, hp, hpe.ge⟩)
  exact Prod.ext h1 h2

/-- The projections of the corners of the 20x20 box onto the axis `(1, 0)` range over
`[0, 20]`. -/
theorem box20_projections :
    IsLeast {t : K | ∃ p ∈ [(⟨0, 0⟩ : satc_point K), ⟨20, 0⟩, ⟨20, 20⟩, ⟨0, 20⟩],
        satc_point_dot p ⟨1, 0⟩ = t} 0 ∧
      IsGreatest {t : K | ∃ p ∈ [(⟨0, 0⟩ : satc_point K), ⟨20, 0⟩, ⟨20, 20⟩, ⟨0, 20⟩],
        satc_point_dot p ⟨1, 0⟩ = t} 20 ∧
      ∀ p ∈ [(⟨0, 0⟩ : satc_point K), ⟨20, 0⟩, ⟨20, 20⟩, ⟨0, 20⟩],
        |satc_point_dot p ⟨1, 0⟩| ≤ DBL_MAX := by
  have hD : (20 : K) ≤ DBL_MAX := DBL_MAX_gt_20.le
  refine ⟨⟨⟨⟨0, 0⟩, by simp, by simp [satc_point_dot]⟩, ?_⟩,
    ⟨⟨⟨20, 0⟩, by simp, by simp [satc_point_dot]⟩, ?_⟩, ?_⟩
  · rintro t ⟨p, hp, rfl⟩
    simp only [List.mem_cons, List.mem_singleton, List.not_mem_nil, or_false] at hp
    rcases hp with rfl | rfl | rfl | rfl <;> norm_num [satc_point_dot]
  · rintro t ⟨p, hp, rfl⟩
    simp only [List.mem_cons, List.mem_singleton, List.not_mem_nil, or_false] at hp
    rcases hp with rfl | rfl | rfl | rfl <;> norm_num [satc_point_dot]
  · intro p hp
    simp only [List.mem_cons, List.mem_singleton, List.not_mem_nil, or_false] at hp
    rcases hp with rfl | rfl | rfl | rfl <;> norm_num [satc_point_dot] <;>
      first | exact DBL_MAX_pos.le | exact hD

/-- The axis test of two 20x20 boxes on the axis `(1, 0)`, B's position being `(x, 0)`
relative to A's: the ranges are `[0, 20]` and `[x, 20 + x]`. -/
theorem axis_two_boxes_eval (x : K) (response : Option (satc_response K)) :
    satc_flatten_points_on 4 [(⟨0, 0⟩ : satc_point K), ⟨20, 0⟩, ⟨20, 20⟩, ⟨0, 20⟩] ⟨1, 0⟩ =
        (0, 20) ∧
      satc_point_dot (satc_point_sub (⟨x, 0⟩ : satc_point K) ⟨0, 0⟩) ⟨1, 0⟩ = x ∧
      (satc_is_separating_axis ⟨0, 0⟩ ⟨x, 0⟩ 4 [⟨0, 0⟩, ⟨20, 0⟩, ⟨20, 20⟩, ⟨0, 20⟩] 4
        [⟨0, 0⟩, ⟨20, 0⟩, ⟨20, 20⟩, ⟨0, 20⟩] ⟨1, 0⟩ response).1 =
          decide ((0 : K) > 20 + x ∨ 0 + x > 20) := by
  have h20 : (0 : K) < 20 := by norm_num
  have hf := (satc_flatten_box (20 : K) 20 h20 h20).2.1
  have hd : satc_point_dot (satc_point_sub (⟨x, 0⟩ : satc_point K) ⟨0, 0⟩) ⟨1, 0⟩ = x := by
    simp [satc_point_dot, satc_point_sub]
  refine ⟨hf, hd, ?_⟩
  rw [satc_is_separating_axis_fst, hf, hd]

/-- The axis test of two 20x20 boxes on the axis `(1, 0)`, B placed 5 to the right of A,
on a supplied response: the axis does not separate and the local `overlap` is
`20 - 25 = -5`. -/
theorem axis_two_boxes_overlap_eval (r : satc_response K) :
    satc_is_separating_axis ⟨0, 0⟩ ⟨5, 0⟩ 4 [⟨0, 0⟩, ⟨20, 0⟩, ⟨20, 20⟩, ⟨0, 20⟩] 4
        [⟨0, 0⟩, ⟨20, 0⟩, ⟨20, 20⟩, ⟨0, 20⟩] ⟨1, 0⟩ (some r) =
      (false, some (satc_is_separating_axis_response (0, 20) (0 + 5, 20 + 5) ⟨1, 0⟩ r)) ∧
      satc_is_separating_axis_overlap ((0 : K), (20 : K)) (0 + 5, 20 + 5) = -5 := by
  obtain ⟨hf, hd, _⟩ := axis_two_boxes_eval (5 : K) (some r)
  constructor
  · rw [satc_is_separating_axis_some, hf, hd, if_neg (by norm_num)]
  · unfold satc_is_separating_axis_overlap
    norm_num

/-- Distinct points are at a positive distance, whose square is the squared length of their
difference. -/
theorem satc_point_len_sub_pos (m : MathFns K) (hm : m.IsSqrt) (a b : satc_point K)
    (hne : a ≠ b) :
    0 < satc_point_len m (satc_point_sub b a) ∧
      satc_point_len m (satc_point_sub b a) * satc_point_len m (satc_point_sub b a) =
        satc_point_len2 (satc_point_sub b a) := by
  obtain ⟨hd0, hdd⟩ := hm _ (satc_point_len2_nonneg (satc_point_sub b a))
  have hpos : 0 < satc_point_len2 (satc_point_sub b a) := by
    rcases (satc_point_len2_nonneg (satc_point_sub b a)).lt_or_eq with h1 | h1
    · exact h1
    · exfalso
      apply hne
      have h2 := h1.symm
      simp only [satc_point_len2, satc_point_dot, satc_point_sub] at h2
      have hx : (b.x - a.x) * (b.x - a.x) = 0 :=
        le_antisymm (by linarith [mul_self_nonneg (b.y - a.y)]) (mul_self_nonneg _)
      have hy : (b.y - a.y) * (b.y - a.y) = 0 :=
        le_antisymm (by linarith [mul_self_nonneg (b.x - a.x)]) (mul_self_nonneg _)
      have hx2 := mul_self_eq_zero.1 hx
      have hy2 := mul_self_eq_zero.1 hy
      ext
      · linarith
      · linarith
  refine ⟨?_, hdd⟩
  unfold satc_point_len
  rcases hd0.lt_or_eq with h1 | h1
  · exact h1
  · rw [← h1] at hdd; simp at hdd; linarith

/-- In the middle region, a centre farther than the radius on the outward side of the edge
makes the branches on the region return false, whatever the response. -/
theorem satc_test_polygon_circle_region_middle_far (m : MathFns K) (polygon : satc_polygon K)
    (circle_pos : satc_point K) (radius : K) (i : Nat) (edge point : satc_point K)
    (response : Option (satc_response K))
    (hmid : satc_voronoi_region edge point = SATC_MIDDLE_VORONOI_REGION)
    (hpos : 0 < satc_point_dot point (satc_point_normalize m (satc_point_perp edge)))
    (hfar : satc_point_dot point (satc_point_normalize m (satc_point_perp edge)) > radius) :
    satc_test_polygon_circle_region m polygon circle_pos radius i edge point response =
      some none := by
  have h1 : ¬ (SATC_MIDDLE_VORONOI_REGION = SATC_LEFT_VORONOI_REGION) := by decide
  have h2 : ¬ (SATC_MIDDLE_VORONOI_REGION = SATC_RIGHT_VORONOI_REGION) := by decide
  unfold satc_test_polygon_circle_region
  simp only [hmid, if_neg h1, if_neg h2, satc_point_copy_eq]
  rw [if_pos ⟨hpos, by rw [fabs_eq_abs, abs_of_pos hpos]; exact hfar⟩]

/-- In the middle region, a centre that is not farther than the radius on the outward side
lets the branches on the region go on, on a supplied response. -/
theorem satc_test_polygon_circle_region_middle_near (m : MathFns K)
    (polygon : satc_polygon K) (circle_pos : satc_point K) (radius : K) (i : Nat)
    (edge point : satc_point K) (r : satc_response K)
    (hmid : satc_voronoi_region edge point = SATC_MIDDLE_VORONOI_REGION)
    (hnear : satc_point_dot point (satc_point_normalize m (satc_point_perp edge)) ≤ 0) :
    ∃ overlap overlap_n r1,
      satc_test_polygon_circle_region m polygon circle_pos radius i edge point (some r) =
        some (some (overlap, overlap_n, some r1)) := by
  have h1 : ¬ (SATC_MIDDLE_VORONOI_REGION = SATC_LEFT_VORONOI_REGION) := by decide
  have h2 : ¬ (SATC_MIDDLE_VORONOI_REGION = SATC_RIGHT_VORONOI_REGION) := by decide
  unfold satc_test_polygon_circle_region
  simp only [hmid, if_neg h1, if_neg h2, satc_point_copy_eq]
  rw [if_neg (fun h => absurd h.1 (not_lt.2 hnear))]
  split_ifs
  · exact ⟨_, _, _, rfl⟩
  · exact ⟨_, _, _, rfl⟩

/-- One pass of the polygon-circle loop body at an index whose region is the middle one and
where the centre is farther than the radius on the outward side returns false. -/
theorem satc_test_polygon_circle_body_middle_far (m : MathFns K) (polygon : satc_polygon K)
    (circle : satc_circle K) (i : Nat) (r : satc_response K)
    (hmid : satc_voronoi_region (polygon.edges.getD i satc_point_alloca)
      (satc_point_sub (satc_point_sub circle.pos polygon.pos)
        (polygon.calc_points.getD i satc_point_alloca)) = SATC_MIDDLE_VORONOI_REGION)
    (hpos : 0 < satc_point_dot (satc_point_sub (satc_point_sub circle.pos polygon.pos)
        (polygon.calc_points.getD i satc_point_alloca))
      (satc_point_normalize m (satc_point_perp (polygon.edges.getD i satc_point_alloca))))
    (hfar : satc_point_dot (satc_point_sub (satc_point_sub circle.pos polygon.pos)
        (polygon.calc_points.getD i satc_point_alloca))
      (satc_point_normalize m (satc_point_perp (polygon.edges.getD i satc_point_alloca))) >
        circle.r) :
    ∃ r1, satc_test_polygon_circle_body m polygon circle i (some r) =
      some (false, some r1) := by
  unfold satc_test_polygon_circle_body
  simp only [satc_point_copy_eq, satc_test_polygon_circle_a_in_b_some]
  rw [satc_test_polygon_circle_region_middle_far m polygon _ _ i _ _ _ hmid hpos hfar]
  exact ⟨_, rfl⟩

/-- One pass of the polygon-circle loop body at an index whose region is the middle one and
where the centre is not on the outward side of the edge goes on, on a supplied response. -/
theorem satc_test_polygon_circle_body_middle_near (m : MathFns K) (polygon : satc_polygon K)
    (circle : satc_circle K) (i : Nat) (r : satc_response K)
    (hmid : satc_voronoi_region (polygon.edges.getD i satc_point_alloca)
      (satc_point_sub (satc_point_sub circle.pos polygon.pos)
        (polygon.calc_points.getD i satc_point_alloca)) = SATC_MIDDLE_VORONOI_REGION)
    (hnear : satc_point_dot (satc_point_sub (satc_point_sub circle.pos polygon.pos)
        (polygon.calc_points.getD i satc_point_alloca))
      (satc_point_normalize m (satc_point_perp (polygon.edges.getD i satc_point_alloca))) ≤
        0) :
    ∃ r1, satc_test_polygon_circle_body m polygon circle i (some r) =
      some (true, some r1) := by
  unfold satc_test_polygon_circle_body
  simp only [satc_point_copy_eq, satc_test_polygon_circle_a_in_b_some]
  obtain ⟨ov, ovn, r1, h⟩ := satc_test_polygon_circle_region_middle_near m polygon
    (satc_point_sub circle.pos polygon.pos) circle.r i
    (polygon.edges.getD i satc_point_alloca)
    (satc_point_sub (satc_point_sub circle.pos polygon.pos)
      (polygon.calc_points.getD i satc_point_alloca))
    { r with a_in_b := r.a_in_b && !decide (satc_point_len2
        (satc_point_sub (satc_point_sub circle.pos polygon.pos)
          (polygon.calc_points.getD i satc_point_alloca)) > circle.r * circle.r) }
    hmid hnear
  rw [h]
  obtain ⟨r2, h2, _, _⟩ := satc_test_polygon_circle_update_some ov ovn r1
  simp only [h2]
  exact ⟨r2, rfl⟩

/-- The polygon-circle loop returns false when it visits an index at which the body returns
false on every supplied response. -/
theorem satc_test_polygon_circle_loop_false (m : MathFns K) (polygon : satc_polygon K)
    (circle : satc_circle K) (i : Nat)
    (hbody : ∀ r : satc_response K, ∃ r1,
      satc_test_polygon_circle_body m polygon circle i (some r) = some (false, some r1))
    (is : List Nat) (hi : i ∈ is) (r : satc_response K) :
    ∃ r1, satc_test_polygon_circle_loop m polygon circle is (some r) =
      some (false, some r1) := by
  induction is generalizing r with
  | nil => simp at hi
  | cons j is ih =>
    rw [satc_test_polygon_circle_loop]
    obtain ⟨c, r1, h1, _⟩ := satc_test_polygon_circle_body_some m polygon circle j r
    rw [h1]
    cases c with
    | false => exact ⟨r1, rfl⟩
    | true =>
      simp only []
      rcases List.mem_cons.1 hi with rfl | hmem
      · obtain ⟨r2, h2⟩ := hbody r
        rw [h2] at h1
        simp at h1
      · exact ih hmem r1

/-- The polygon-circle loop runs to its end when the body goes on at every index it visits,
on every supplied response. -/
theorem satc_test_polygon_circle_loop_true (m : MathFns K) (polygon : satc_polygon K)
    (circle : satc_circle K) (is : List Nat)
    (hbody : ∀ i ∈ is, ∀ r : satc_response K, ∃ r1,
      satc_test_polygon_circle_body m polygon circle i (some r) = some (true, some r1))
    (r : satc_response K) :
    ∃ r1, satc_test_polygon_circle_loop m polygon circle is (some r) =
      some (true, some r1) := by
  induction is generalizing r with
  | nil => exact ⟨r, rfl⟩
  | cons j is ih =>
    rw [satc_test_polygon_circle_loop]
    obtain ⟨r1, h1⟩ := hbody j (List.mem_cons_self _ _) r
    rw [h1]
    exact ih (fun i hi => hbody i (List.mem_cons_of_mem _ hi)) r1

/-- The 40x40 box polygon at `(0, 0)`, with a true square root. -/
theorem box40_eq (m : MathFns K) (hm : m.IsSqrt) :
    satc_box_to_polygon m (satc_box_create ⟨0, 0⟩ 40 40) =
      { pos := ⟨0, 0⟩
        points := [⟨0, 0⟩, ⟨40, 0⟩, ⟨40, 40⟩, ⟨0, 40⟩]
        angle := 0
        offset := ⟨0, 0⟩
        calc_points := [⟨0, 0⟩, ⟨40, 0⟩, ⟨40, 40⟩, ⟨0, 40⟩]
        edges := [⟨40, 0⟩, ⟨0, 40⟩, ⟨-40, 0⟩, ⟨0, -40⟩]
        normals := [⟨0, -1⟩, ⟨1, 0⟩, ⟨0, 1⟩, ⟨-1, 0⟩] } := by
  have h40 : (0 : K) < 40 := by norm_num
  rw [satc_box_to_polygon_eq]
  simp only [satc_box_create, satc_point_clone, satc_point_create,
    (satc_point_normalize_axis_x hm h40).1, (satc_point_normalize_axis_x hm h40).2,
    (satc_point_normalize_axis_y hm h40).1, (satc_point_normalize_axis_y hm h40).2]

/-- The 40x40 box polygon at `(0, 0)` and the circle of radius 10 centred at `(20, -15)`:
at index 0 the centre is in the middle region of the edge, at the signed distance 15 along
the normal. -/
theorem polygon_circle_far_input_eval (m : MathFns K) (hm : m.IsSqrt) :
    0 < (satc_box_to_polygon m (satc_box_create ⟨0, 0⟩ 40 40)).calc_points.length ∧
      satc_voronoi_region
        ((satc_box_to_polygon m (satc_box_create ⟨0, 0⟩ 40 40)).edges.getD 0 satc_point_alloca)
        (satc_point_sub (satc_point_sub ⟨20, -15⟩
          (satc_box_to_polygon m (satc_box_create ⟨0, 0⟩ 40 40)).pos)
          ((satc_box_to_polygon m (satc_box_create ⟨0, 0⟩ 40 40)).calc_points.getD 0
            satc_point_alloca)) = SATC_MIDDLE_VORONOI_REGION ∧
      (satc_box_to_polygon m (satc_box_create ⟨0, 0⟩ 40 40)).normals.getD 0
          satc_point_alloca =
        satc_point_normalize m (satc_point_perp
          ((satc_box_to_polygon m (satc_box_create ⟨0, 0⟩ 40 40)).edges.getD 0
            satc_point_alloca)) ∧
      satc_point_dot
        (satc_point_sub (satc_point_sub ⟨20, -15⟩
          (satc_box_to_polygon m (satc_box_create ⟨0, 0⟩ 40 40)).pos)
          ((satc_box_to_polygon m (satc_box_create ⟨0, 0⟩ 40 40)).calc_points.getD 0
            satc_point_alloca))
        ((satc_box_to_polygon m (satc_box_create ⟨0, 0⟩ 40 40)).normals.getD 0
          satc_point_alloca) = 15 := by
  have h40 : (0 : K) < 40 := by norm_num
  have hy := satc_point_normalize_axis_y hm h40
  rw [box40_eq m hm]
  refine ⟨by simp, ?_, ?_, ?_⟩
  · unfold satc_voronoi_region
    norm_num [satc_point_dot, satc_point_sub, satc_point_len2]
  · simp [satc_point_perp, hy.2]
  · norm_num [satc_point_dot, satc_point_sub]

/-- When `satc_point_normalize_checked` yields a point, it is the point that
`satc_point_normalize` returns. -/
theorem satc_point_normalize_checked_some (m : MathFns K) (p v : satc_point K)
    (h : satc_point_normalize_checked m p = some v) : satc_point_normalize m p = v := by
  unfold satc_point_normalize_checked at h
  unfold satc_point_normalize
  simp only [] at h ⊢
  by_cases h0 : satc_point_len m p = 0
  · rw [if_pos h0] at h
    simp at h
  · rw [if_neg h0] at h
    exact Option.some.inj h

/-- With a true square root, normalizing the zero vector divides by zero. -/
theorem satc_point_normalize_checked_zero (m : MathFns K) (hm : m.IsSqrt) :
    satc_point_normalize_checked m ⟨0, 0⟩ = none ∧
      satc_point_normalize_checked m (satc_point_perp ⟨0, 0⟩) = none := by
  have h0 : m.sqrt 0 = 0 := by
    have := hm.sqrt_mul_self (le_refl (0 : K))
    rwa [mul_zero] at this
  have hl : satc_point_len m (⟨0, 0⟩ : satc_point K) = 0 := by
    simp [satc_point_len, satc_point_len2, satc_point_dot, h0]
  have hl2 : satc_point_len m (satc_point_perp (⟨0, 0⟩ : satc_point K)) = 0 := by
    simp [satc_point_len, satc_point_len2, satc_point_dot, satc_point_perp, h0]
  constructor
  · unfold satc_point_normalize_checked
    simp only [hl, if_true]
  · unfold satc_point_normalize_checked
    simp only [hl2, if_true]

/-- With a true square root, the normalized perpendicular of a non-zero vector is
perpendicular to it and has length 1. -/
theorem satc_point_normalize_perp (m : MathFns K) (hm : m.IsSqrt) (v : satc_point K)
    (hv : v ≠ ⟨0, 0⟩) :
    satc_point_dot (satc_point_normalize m (satc_point_perp v)) v = 0 ∧
      satc_point_len m (satc_point_normalize m (satc_point_perp v)) = 1 := by
  have hne : (⟨0, 0⟩ : satc_point K) ≠ satc_point_perp v := by
    intro h
    apply hv
    have hx := congrArg satc_point.x h
    have hy := congrArg satc_point.y h
    simp only [satc_point_perp] at hx hy
    ext
    · simp only []; linarith
    · simp only []; linarith
  obtain ⟨hd, hdd⟩ := satc_point_len_sub_pos m hm ⟨0, 0⟩ (satc_point_perp v) hne
  have e : satc_point_sub (satc_point_perp v) ⟨0, 0⟩ = satc_point_perp v := by
    ext <;> simp [satc_point_sub]
  rw [e] at hd hdd
  have hn : satc_point_normalize m (satc_point_perp v) =
      ⟨(satc_point_perp v).x / satc_point_len m (satc_point_perp v),
        (satc_point_perp v).y / satc_point_len m (satc_point_perp v)⟩ := by
    unfold satc_point_normalize
    simp only [if_pos hd]
  have hd2 : satc_point_len m (satc_point_perp v) ≠ 0 := hd.ne'
  constructor
  · rw [hn]
    generalize satc_point_len m (satc_point_perp v) = d at hd hdd hd2
    simp only [satc_point_dot, satc_point_perp]
    field_simp
    ring
  · have e2 : satc_point_len2 (satc_point_normalize m (satc_point_perp v)) = 1 * 1 := by
      rw [hn]
      generalize satc_point_len m (satc_point_perp v) = d at hd hdd hd2
      simp only [satc_point_len2, satc_point_dot] at hdd ⊢
      field_simp
      linear_combination -hdd
    exact (congrArg m.sqrt e2).trans (hm.sqrt_mul_self zero_le_one)

/-- After recalculation the normal at an index is the normalized perpendicular of the edge
at that index. -/
theorem _satc_polygon_recalc_normals_getD (m : MathFns K) (p : satc_polygon K)
    (hc : p.points.length ≤ p.calc_points.length) (he : p.points.length ≤ p.edges.length)
    (hn : p.points.length ≤ p.normals.length) (i : Nat) (hi : i < p.points.length) :
    (_satc_polygon_recalc m p).normals.getD i satc_point_alloca =
      satc_point_normalize m (satc_point_perp
        ((_satc_polygon_recalc m p).edges.getD i satc_point_alloca)) := by
  have hedge : (_satc_polygon_recalc m p).edges[i]? =
      some (spec_edge p.points.length (_satc_polygon_recalc m p).calc_points i) := by
    rw [_satc_polygon_recalc_eq m p hc he hn]
    simp only []
    rw [List.getElem?_append_left (by simpa using hi), List.getElem?_map,
      List.getElem?_range hi]
    rfl
  rw [List.getD_eq_getElem?_getD, List.getD_eq_getElem?_getD, hedge, Option.getD_some]
  rw [_satc_polygon_recalc_eq m p hc he hn]
  simp only []
  rw [List.getElem?_append_left (by simpa using hi), List.getElem?_map,
    List.getElem?_range hi]
  rfl

/-- The triangle with a repeated vertex: its first edge is the zero vector and its first
normal is the normalized perpendicular of the zero vector. -/
theorem triangle_repeated_vertex_eq (m : MathFns K) :
    (triangle_repeated_vertex m).edges.getD 0 satc_point_alloca = ⟨0, 0⟩ ∧
      (triangle_repeated_vertex m).normals.getD 0 satc_point_alloca =
        satc_point_normalize m (satc_point_perp ⟨0, 0⟩) := by
  obtain ⟨_, _, _, _, _, he, hn⟩ := satc_polygon_create_triangle m ⟨0, 0⟩
    ⟨0, 0⟩ ⟨0, 0⟩ ⟨10, 0⟩
  unfold triangle_repeated_vertex
  rw [he, hn]
  constructor
  · simp [satc_point_sub]
  · simp [satc_point_sub]

end Lemmas

/-- Values of the arithmetic of doubles: `0.1 + 0.2` is `0.30000000000000004`, `sqrt 2` is
`1.4142135623730951`, which is `6369051672525773 / 2^52`, `1 / 3` is `0.3333333333333333`,
`1 / 0` is an infinity and `0 / 0` a NaN, the double `0.1` is `3602879701896397 / 2^55`,
`DBL_MAX` is `(2^53 - 1) * 2^971`, and `DBL_MAX + DBL_MAX` is an infinity. -/
theorem Dbl_examples :
    (1 / 10 : Dbl) + 2 / 10 = 30000000000000004 / 100000000000000000 ∧
      Dbl.toRat (Dbl.sqrt 2) = 6369051672525773 / 4503599627370496 ∧
      (1 : Dbl) / 3 = 3333333333333333 / 10000000000000000 ∧
      (1 : Dbl) / 0 = Dbl.inf false ∧ (0 : Dbl) / 0 = Dbl.nan ∧
      Dbl.toRat (1 / 10) = 3602879701896397 / 36028797018963968 ∧
      (DBL_MAX : Dbl) = Dbl.fin false ((2 ^ 53 - 1) * 2 ^ 2045) ∧
      (DBL_MAX : Dbl) + DBL_MAX = Dbl.inf false := by
  decide!

section Claims

variable {K : Type} [LinearOrderedField K]

/-- C3, as stated, on doubles: A is the unit square at `(0, 0)` and B the rectangle with
corners `(0.1, 0), (0.2, 0), (0.2, 1), (0.1, 1)` at position `(0.9, 0)`.  On the axis
`(1, 0)` the call with A first moves B's range `[0.1, 0.2]` by `0.9`, and `0.1 + 0.9` rounds
to `1.0`, which touches A's range `[0, 1]`; the call with B first moves A's range by `-0.9`,
and `1.0 - 0.9` rounds to `0.09999999999999998 < 0.1`, which separates.  The first call
returns true and the second false. -/
theorem C3_rounded_offset_counterexample :
    (satc_test_polygon_polygon
        (satc_polygon_create Dbl.math ⟨0, 0⟩ [⟨0, 0⟩, ⟨1, 0⟩, ⟨1, 1⟩, ⟨0, 1⟩])
        (satc_polygon_create Dbl.math ⟨9 / 10, 0⟩
          [⟨1 / 10, 0⟩, ⟨2 / 10, 0⟩, ⟨2 / 10, 1⟩, ⟨1 / 10, 1⟩]) none).1 = true ∧
      (satc_test_polygon_polygon
        (satc_polygon_create Dbl.math ⟨9 / 10, 0⟩
          [⟨1 / 10, 0⟩, ⟨2 / 10, 0⟩, ⟨2 / 10, 1⟩, ⟨1 / 10, 1⟩])
        (satc_polygon_create Dbl.math ⟨0, 0⟩ [⟨0, 0⟩, ⟨1, 0⟩, ⟨1, 1⟩, ⟨0, 1⟩]) none).1 = false ∧
      (1 / 10 : Dbl) + 9 / 10 = 1 ∧
      (1 : Dbl) - 9 / 10 = 9999999999999998 / 100000000000000000 := by
  decide!

/-- C3 (amended): in exact arithmetic the boolean returned by `satc_test_polygon_polygon`
is symmetric in the two polygons, whatever response (absent or supplied) each of the two
calls is given; on doubles the boolean of a call is the same with and without a response,
and the two orders can differ by the rounding of the projected offset. -/
theorem C3_polygon_polygon_symmetric (a b : satc_polygon K)
    (r1 r2 : Option (satc_response K)) :
    ((satc_test_polygon_polygon a b r1).1 = true ↔
        (satc_test_polygon_polygon b a r2).1 = true) ∧
      ∀ (p q : satc_polygon Dbl) (r : Option (satc_response Dbl)),
        (satc_test_polygon_polygon p q r).1 = (satc_test_polygon_polygon p q none).1 := by
  refine ⟨?_, fun p q r => by
    rw [satc_test_polygon_polygon_fst, satc_test_polygon_polygon_fst p q none]⟩
  rw [satc_test_polygon_polygon_fst, satc_test_polygon_polygon_fst]
  simp only [Bool.and_eq_true, List.all_eq_true]
  rw [and_comm]
  constructor
  · rintro ⟨h1, h2⟩
    refine ⟨fun i hi => ?_, fun i hi => ?_⟩
    · rw [← satc_is_separating_axis_swap a.pos b.pos _ _ _ _ _ none none]; exact h1 i hi
    · rw [← satc_is_separating_axis_swap a.pos b.pos _ _ _ _ _ none none]; exact h2 i hi
  · rintro ⟨h1, h2⟩
    refine ⟨fun i hi => ?_, fun i hi => ?_⟩
    · rw [satc_is_separating_axis_swap a.pos b.pos _ _ _ _ _ none none]; exact h1 i hi
    · rw [satc_is_separating_axis_swap a.pos b.pos _ _ _ _ _ none none]; exact h2 i hi

/-- C5, as stated, on doubles.  Circles of radii `0.3` and `0.7` with centres `(0, 0)` and
`(1, 0)`: the test returns true, but the distance 1 of the centres is greater than the sum
of the values of the doubles `0.3` and `0.7`.  Circles of radii `2` and `1.4` with centres
`(0, 0)` and `(3, 1.6)`: the test returns false, although the distance computed on doubles,
`3.4`, is equal to the sum of the radii computed on doubles. -/
theorem C5_circle_circle_counterexample :
    ((satc_test_circle_circle Dbl.math ⟨⟨0, 0⟩, 3 / 10⟩ ⟨⟨1, 0⟩, 7 / 10⟩ none).1 = true ∧
        ¬ Dbl.toRat 1 ≤ Dbl.toRat (3 / 10) + Dbl.toRat (7 / 10)) ∧
      ((satc_test_circle_circle Dbl.math ⟨⟨0, 0⟩, 2⟩ ⟨⟨3, 16 / 10⟩, 14 / 10⟩ none).1 = false ∧
        satc_point_len Dbl.math (satc_point_sub (⟨3, 16 / 10⟩ : satc_point Dbl) ⟨0, 0⟩) =
          34 / 10 ∧
        (2 : Dbl) + 14 / 10 = 34 / 10 ∧
        satc_point_len Dbl.math (satc_point_sub (⟨3, 16 / 10⟩ : satc_point Dbl) ⟨0, 0⟩) ≤
          2 + 14 / 10) := by
  decide!

/-- C5 (amended): on doubles `satc_test_circle_circle` returns true iff the squared distance
of the centres is not greater than the square of the sum of the radii, both as the function
computes them, with or without a response; in exact arithmetic and for non-negative radii
that is: iff the distance of the centres is at most the sum of the radii (touching circles
collide). -/
theorem C5_circle_circle (m : MathFns K) (hm : m.IsSqrt) (a b : satc_circle K)
    (ha : 0 ≤ a.r) (hb : 0 ≤ b.r) (r : Option (satc_response K)) :
    ((satc_test_circle_circle m a b r).1 = true ↔
        satc_point_len m (satc_point_sub b.pos a.pos) ≤ a.r + b.r) ∧
      ∀ (p q : satc_circle Dbl) (ro : Option (satc_response Dbl)),
        (satc_test_circle_circle Dbl.math p q ro).1 = true ↔
          ¬ satc_point_len2 (satc_point_sub q.pos p.pos) > (p.r + q.r) * (p.r + q.r) := by
  refine ⟨?_, fun p q ro => by rw [satc_test_circle_circle_fst]; simp⟩
  unfold satc_point_len
  rw [hm.sqrt_le_iff (satc_point_len2_nonneg _) (add_nonneg ha hb),
    satc_test_circle_circle_fst]
  simp

/-- C8, as stated, on doubles: for A of radius `0.8` at `(0.8, 0)` and B of radius `2.5` at
`(1.6, 1.5)` the test returns true with `a_in_b = true`, but the point
`(0.4235294117647059, -0.7058823529411765)` is in A and not in B by
`satc_point_in_circle`. -/
theorem C8_containment_flags_counterexample :
    (satc_test_circle_circle Dbl.math ⟨⟨8 / 10, 0⟩, 8 / 10⟩ ⟨⟨16 / 10, 15 / 10⟩, 25 / 10⟩
        (some satc_response_create)).1 = true ∧
      ((satc_test_circle_circle Dbl.math ⟨⟨8 / 10, 0⟩, 8 / 10⟩ ⟨⟨16 / 10, 15 / 10⟩, 25 / 10⟩
        (some satc_response_create)).2.map fun r => r.a_in_b) = some true ∧
      satc_point_in_circle
        (⟨4235294117647059 / 10000000000000000, -(7058823529411765 / 10000000000000000)⟩ :
          satc_point Dbl) ⟨⟨8 / 10, 0⟩, 8 / 10⟩ = true ∧
      satc_point_in_circle
        (⟨4235294117647059 / 10000000000000000, -(7058823529411765 / 10000000000000000)⟩ :
          satc_point Dbl) ⟨⟨16 / 10, 15 / 10⟩, 25 / 10⟩ = false := by
  decide!

/-- C8 (amended): when `satc_test_circle_circle` returns true on a supplied response, on
doubles `a_in_b` is true iff `A.r ≤ B.r` and the distance of the centres is at most
`B.r - A.r`, both as the function computes them, and `b_in_a` likewise with A and B
exchanged; in exact arithmetic and for non-negative radii that is: `a_in_b` is true iff
every point in circle A is in circle B, and `b_in_a` is true iff every point in circle B is
in circle A. -/
theorem C8_containment_flags (m : MathFns K) (hm : m.IsSqrt) (a b : satc_circle K)
    (ha : 0 ≤ a.r) (hb : 0 ≤ b.r) (r0 : satc_response K)
    (h : (satc_test_circle_circle m a b (some r0)).1 = true) :
    (∃ r, (satc_test_circle_circle m a b (some r0)).2 = some r ∧
        (r.a_in_b = true ↔
          ∀ p : satc_point K, satc_point_in_circle p a = true →
            satc_point_in_circle p b = true) ∧
        (r.b_in_a = true ↔
          ∀ p : satc_point K, satc_point_in_circle p b = true →
            satc_point_in_circle p a = true)) ∧
      ∀ (p q : satc_circle Dbl) (s0 : satc_response Dbl),
        (satc_test_circle_circle Dbl.math p q (some s0)).1 = true →
          ∃ s, (satc_test_circle_circle Dbl.math p q (some s0)).2 = some s ∧
            (s.a_in_b = true ↔ p.r ≤ q.r ∧
              satc_point_len Dbl.math (satc_point_sub q.pos p.pos) ≤ q.r - p.r) ∧
            (s.b_in_a = true ↔ q.r ≤ p.r ∧
              satc_point_len Dbl.math (satc_point_sub q.pos p.pos) ≤ p.r - q.r) := by
  refine ⟨?_, fun p q s0 hs =>
    ⟨_, satc_test_circle_circle_snd Dbl.math p q s0 hs, by simp, by simp⟩⟩
  refine ⟨_, satc_test_circle_circle_snd m a b r0 h, ?_, ?_⟩
  · obtain ⟨hd0, hdd⟩ := hm _ (satc_point_len2_nonneg (satc_point_sub b.pos a.pos))
    have key := disk_subset_iff a.pos.x a.pos.y b.pos.x b.pos.y a.r b.r
      (satc_point_len m (satc_point_sub b.pos a.pos)) ha hb hd0 hdd
    simp only [Bool.and_eq_true, decide_eq_true_eq]
    rw [← key]
    simp only [satc_point_in_circle, satc_point_copy_eq, satc_point_len2, satc_point_dot,
      satc_point_sub, decide_eq_true_eq]
    exact ⟨fun hh p => hh p.x p.y, fun hh px py => hh ⟨px, py⟩⟩
  · obtain ⟨hd0, hdd⟩ := hm _ (satc_point_len2_nonneg (satc_point_sub b.pos a.pos))
    have hdd' : satc_point_len m (satc_point_sub b.pos a.pos) *
        satc_point_len m (satc_point_sub b.pos a.pos) =
        (a.pos.x - b.pos.x) * (a.pos.x - b.pos.x) + (a.pos.y - b.pos.y) * (a.pos.y - b.pos.y) := by
      rw [show satc_point_len m (satc_point_sub b.pos a.pos) *
        satc_point_len m (satc_point_sub b.pos a.pos) =
        satc_point_len2 (satc_point_sub b.pos a.pos) from hdd]
      simp only [satc_point_len2, satc_point_dot, satc_point_sub]
      ring
    have key := disk_subset_iff b.pos.x b.pos.y a.pos.x a.pos.y b.r a.r
      (satc_point_len m (satc_point_sub b.pos a.pos)) hb ha hd0 hdd'
    simp only [Bool.and_eq_true, decide_eq_true_eq]
    rw [← key]
    simp only [satc_point_in_circle, satc_point_copy_eq, satc_point_len2, satc_point_dot,
      satc_point_sub, decide_eq_true_eq]
    exact ⟨fun hh p => hh p.x p.y, fun hh px py => hh ⟨px, py⟩⟩

/-- C9, as stated, on doubles: for the point `(0.6, 0.8)` and the circle of radius 1 at
`(0, 0)` the function returns true, but the squared distance of the two points, the sum of
the squares of the values of the doubles `0.6` and `0.8`, is greater than 1. -/
theorem C9_point_in_circle_counterexample :
    satc_point_in_circle (⟨6 / 10, 8 / 10⟩ : satc_point Dbl) ⟨⟨0, 0⟩, 1⟩ = true ∧
      ¬ (Dbl.toRat (6 / 10) - Dbl.toRat 0) ^ 2 + (Dbl.toRat (8 / 10) - Dbl.toRat 0) ^ 2 ≤
        Dbl.toRat 1 ^ 2 := by
  decide!

/-- C9 (amended): `satc_point_in_circle` returns true iff the squared distance from the
point to the centre is at most the squared radius, both as the function computes them
(`dx * dx + dy * dy` with `dx = p.x - c.pos.x` and `dy = p.y - c.pos.y`, against
`c.r * c.r`), in every arithmetic, that of doubles included: a point for which the two
computed values are equal is contained.  On doubles the circle at `(100, 100)` of radius 20
contains `(110, 110)` and not `(0, 0)`. -/
theorem C9_point_in_circle {K : Type} [Zero K] [Add K] [Sub K] [Mul K] [LE K]
    [∀ a b : K, Decidable (a ≤ b)] (point : satc_point K) (circle : satc_circle K) :
    (satc_point_in_circle point circle = true ↔
      (point.x - circle.pos.x) * (point.x - circle.pos.x) +
        (point.y - circle.pos.y) * (point.y - circle.pos.y) ≤ circle.r * circle.r) ∧
    satc_point_in_circle (⟨110, 110⟩ : satc_point Dbl) (satc_circle_create ⟨100, 100⟩ 20) =
      true ∧
    satc_point_in_circle (⟨0, 0⟩ : satc_point Dbl) (satc_circle_create ⟨100, 100⟩ 20) =
      false := by
  refine ⟨?_, by decide!, by decide!⟩
  simp [satc_point_in_circle, satc_point_copy, satc_point_sub, satc_point_len2, satc_point_dot]

/-- C10 (amended): `satc_point_in_polygon(q, P)` equals "collided and `a_in_b`" of
`satc_test_polygon_polygon(S, P, fresh response)`, where `S` is the box polygon of side
`1e-6` whose position (its corner `(0, 0)`) is `q`, with corners `q + (0 or 1e-6, 0 or 1e-6)`. -/
theorem C10_point_in_polygon_corner_square (m : MathFns K) (q : satc_point K)
    (P : satc_polygon K) :
    satc_point_in_polygon m q P =
      spec_collided_and_a_in_b (satc_test_polygon_polygon
        (satc_box_to_polygon m (satc_box_create q (1 / 1000000) (1 / 1000000))) P
        (some satc_response_create)) :=
  satc_point_in_polygon_eq m q P

/-- C1 (the code at the failing input): box A = 20x20 at `(0, 0)` with offset `(100, 0)` set
through `satc_polygon_set_offset`, box B = 20x20 at `(0, 0)`.  The world points of A lie in
`[100, 120] x [0, 20]`, so the normal `(1, 0)` separates the world-space point sets; the
code, which hands `a->points` instead of `a->calc_points` to the axis test, returns true. -/
theorem C1_polygon_polygon_ignores_offset :
    (satc_test_polygon_polygon
        (satc_polygon_set_offset (MathFns.mk Real.sqrt Real.cos Real.sin)
          (box20_at (MathFns.mk Real.sqrt Real.cos Real.sin) 0 0) ⟨100, 0⟩)
        (box20_at (MathFns.mk Real.sqrt Real.cos Real.sin) 0 0) none).1 = true ∧
      ¬ spec_no_separating_normal
        (satc_polygon_set_offset (MathFns.mk Real.sqrt Real.cos Real.sin)
          (box20_at (MathFns.mk Real.sqrt Real.cos Real.sin) 0 0) ⟨100, 0⟩)
        (box20_at (MathFns.mk Real.sqrt Real.cos Real.sin) 0 0) :=
  polygon_polygon_offset_eval _ real_isSqrt

/-- C2 (the code at the failing input): for the two 20x20 boxes at `(0, 0)` and `(5, 0)` the
test returns true with `overlap = 5`, `overlap_n = (-1, 0)` and `overlap_v = (-5, 0)`, not
`15` and `(15, 0)`; moving A by `-overlap_v` puts it on top of B, so the projections onto
`overlap_n` do not overlap in at most a single point. -/
theorem C2_overlap_of_two_boxes :
    ∃ r, satc_test_polygon_polygon (box20_at (MathFns.mk Real.sqrt Real.cos Real.sin) 0 0)
        (box20_at (MathFns.mk Real.sqrt Real.cos Real.sin) 5 0) (some satc_response_create) =
        (true, some r) ∧
      r.overlap = 5 ∧ r.overlap_n = ⟨-1, 0⟩ ∧ r.overlap_v = ⟨-5, 0⟩ ∧
      ¬ spec_separated_by (box20_at (MathFns.mk Real.sqrt Real.cos Real.sin) 0 0)
        (box20_at (MathFns.mk Real.sqrt Real.cos Real.sin) 5 0) r :=
  polygon_polygon_two_boxes_eval _ real_isSqrt

/-- C5 (amended) at the circles of the test, in exact arithmetic: centres `(0, 0)` and
`(30, 0)`, both of radius 20. -/
theorem C5_circle_circle_witness :
    (MathFns.mk Real.sqrt Real.cos Real.sin).IsSqrt ∧ (0 : ℝ) ≤ 20 ∧
      ((satc_test_circle_circle (MathFns.mk Real.sqrt Real.cos Real.sin)
          ⟨⟨0, 0⟩, 20⟩ ⟨⟨30, 0⟩, 20⟩ none).1 = true ↔
        satc_point_len (MathFns.mk Real.sqrt Real.cos Real.sin)
          (satc_point_sub ⟨30, 0⟩ ⟨0, 0⟩) ≤ 20 + 20) :=
  ⟨real_isSqrt, by norm_num,
    (C5_circle_circle (MathFns.mk Real.sqrt Real.cos Real.sin) real_isSqrt
      ⟨⟨0, 0⟩, 20⟩ ⟨⟨30, 0⟩, 20⟩ (by norm_num) (by norm_num) none).1⟩

/-- The circles of the test collide, and the distance of their centres is 30. -/
theorem circle_circle_test_input :
    (satc_test_circle_circle (MathFns.mk Real.sqrt Real.cos Real.sin)
        ⟨⟨0, 0⟩, 20⟩ ⟨⟨30, 0⟩, 20⟩ (some satc_response_create)).1 = true ∧
      satc_point_sub (⟨30, 0⟩ : satc_point ℝ) ⟨0, 0⟩ = ⟨30, 0⟩ ∧
      satc_point_len (MathFns.mk Real.sqrt Real.cos Real.sin) (⟨30, 0⟩ : satc_point ℝ) = 30 := by
  refine ⟨?_, ?_, ?_⟩
  · rw [satc_test_circle_circle_fst]
    norm_num [satc_point_len2, satc_point_dot, satc_point_sub]
  · simp [satc_point_sub]
  · have h := real_isSqrt.sqrt_mul_self (show (0 : ℝ) ≤ 30 by norm_num)
    simp only [satc_point_len, satc_point_len2, satc_point_dot, mul_zero, add_zero]
    exact h

/-- C8 (amended) at the circles of the test, in exact arithmetic. -/
theorem C8_containment_flags_witness :
    (MathFns.mk Real.sqrt Real.cos Real.sin).IsSqrt ∧ (0 : ℝ) ≤ 20 ∧
      (satc_test_circle_circle (MathFns.mk Real.sqrt Real.cos Real.sin)
        ⟨⟨0, 0⟩, 20⟩ ⟨⟨30, 0⟩, 20⟩ (some satc_response_create)).1 = true ∧
      ∃ r, (satc_test_circle_circle (MathFns.mk Real.sqrt Real.cos Real.sin)
          ⟨⟨0, 0⟩, 20⟩ ⟨⟨30, 0⟩, 20⟩ (some satc_response_create)).2 = some r ∧
        (r.a_in_b = true ↔ ∀ p : satc_point ℝ,
          satc_point_in_circle p ⟨⟨0, 0⟩, 20⟩ = true →
            satc_point_in_circle p ⟨⟨30, 0⟩, 20⟩ = true) ∧
        (r.b_in_a = true ↔ ∀ p : satc_point ℝ,
          satc_point_in_circle p ⟨⟨30, 0⟩, 20⟩ = true →
            satc_point_in_circle p ⟨⟨0, 0⟩, 20⟩ = true) :=
  ⟨real_isSqrt, by norm_num, circle_circle_test_input.1,
    (C8_containment_flags (MathFns.mk Real.sqrt Real.cos Real.sin) real_isSqrt
      ⟨⟨0, 0⟩, 20⟩ ⟨⟨30, 0⟩, 20⟩ (by norm_num) (by norm_num) satc_response_create
      circle_circle_test_input.1).1⟩

/-- C10 (counterexample): for the 20x20 box at `(0, 0)` and the point `q = (0, 10)` on its
left edge, `satc_point_in_polygon` returns true, while the square of side `1e-6` centered at
`q` sticks out of the box, so "collided and `a_in_b`" of the polygon-polygon test on it is
false, whether the square is given by position `q` and vertices `(±0.5e-6, ±0.5e-6)` or as
the box polygon at `q - (0.5e-6, 0.5e-6)`. -/
theorem C10_centered_square_counterexample :
    satc_point_in_polygon (MathFns.mk Real.sqrt Real.cos Real.sin) ⟨0, 10⟩
        (box20_at (MathFns.mk Real.sqrt Real.cos Real.sin) 0 0) ≠
      spec_collided_and_a_in_b (satc_test_polygon_polygon
        (spec_centered_square (MathFns.mk Real.sqrt Real.cos Real.sin) ⟨0, 10⟩)
        (box20_at (MathFns.mk Real.sqrt Real.cos Real.sin) 0 0) (some satc_response_create)) ∧
    satc_point_in_polygon (MathFns.mk Real.sqrt Real.cos Real.sin) ⟨0, 10⟩
        (box20_at (MathFns.mk Real.sqrt Real.cos Real.sin) 0 0) ≠
      spec_collided_and_a_in_b (satc_test_polygon_polygon
        (satc_box_to_polygon (MathFns.mk Real.sqrt Real.cos Real.sin)
          (satc_box_create ⟨0 - 1 / 2000000, 10 - 1 / 2000000⟩ (1 / 1000000) (1 / 1000000)))
        (box20_at (MathFns.mk Real.sqrt Real.cos Real.sin) 0 0) (some satc_response_create)) := by
  obtain ⟨h1, h2, h3⟩ := point_in_polygon_left_edge_eval
    (MathFns.mk Real.sqrt Real.cos Real.sin) real_isSqrt
  rw [h1, h2, h3]
  decide

/-- C19 (the code at every input): the polygon returned by `satc_polygon_create` is
consistent, and `satc_polygon_set_points`, `satc_polygon_set_angle`,
`satc_polygon_set_offset` and `satc_polygon_rotate` keep a polygon consistent; but
`satc_polygon_translate` accesses `points[num_points]`, one cell behind the array, on every
polygon, so no polygon is handed back by it. -/
theorem C19_polygon_api_consistency (m : MathFns K) :
    (∀ (pos : satc_point K) (points : List (satc_point K)),
        satc_polygon_consistent m (satc_polygon_create m pos points)) ∧
      (∀ (p : satc_polygon K) (points : List (satc_point K)),
        satc_polygon_consistent m p →
          satc_polygon_consistent m (satc_polygon_set_points m p points)) ∧
      (∀ (p : satc_polygon K) (angle : K),
        satc_polygon_consistent m p →
          satc_polygon_consistent m (satc_polygon_set_angle m p angle)) ∧
      (∀ (p : satc_polygon K) (offset : satc_point K),
        satc_polygon_consistent m p →
          satc_polygon_consistent m (satc_polygon_set_offset m p offset)) ∧
      (∀ (p : satc_polygon K) (angle : K),
        satc_polygon_consistent m p →
          satc_polygon_consistent m (satc_polygon_rotate m p angle)) ∧
      (∀ (p : satc_polygon K) (x y : K), satc_polygon_translate m p x y = none) :=
  ⟨satc_polygon_create_consistent m,
    fun p points hp => satc_polygon_set_points_consistent m p points hp,
    fun p angle hp => satc_polygon_set_angle_consistent m p angle hp,
    fun p offset hp => satc_polygon_set_offset_consistent m p offset hp,
    fun p angle hp => satc_polygon_rotate_consistent m p angle hp,
    satc_polygon_translate_eq_none m⟩

/-- C20 (the code at the failing input): `satc_point_rotate(p, 0)` is `(p.x, -p.y)`, so
the point `(0, 1)` becomes `(0, -1)`, and `satc_polygon_rotate(polygon, 0)` on the 20x20 box
polygon turns the vertices `(20, 20)` and `(0, 20)` into `(20, -20)` and `(0, -20)`. -/
theorem C20_rotate_by_zero_flips_y :
    (∀ p : satc_point ℝ,
        satc_point_rotate (MathFns.mk Real.sqrt Real.cos Real.sin) p 0 = ⟨p.x, -p.y⟩) ∧
      satc_point_rotate (MathFns.mk Real.sqrt Real.cos Real.sin) (⟨0, 1⟩ : satc_point ℝ) 0 =
        ⟨0, -1⟩ ∧
      satc_point_rotate (MathFns.mk Real.sqrt Real.cos Real.sin) (⟨0, 1⟩ : satc_point ℝ) 0 ≠
        ⟨0, 1⟩ ∧
      (satc_polygon_rotate (MathFns.mk Real.sqrt Real.cos Real.sin)
        (box20_at (MathFns.mk Real.sqrt Real.cos Real.sin) 0 0) 0).points =
        [⟨0, 0⟩, ⟨20, 0⟩, ⟨20, -20⟩, ⟨0, -20⟩] := by
  have h : ∀ p : satc_point ℝ,
      satc_point_rotate (MathFns.mk Real.sqrt Real.cos Real.sin) p 0 = ⟨p.x, -p.y⟩ := by
    intro p
    simp [satc_point_rotate]
  refine ⟨h, by rw [h], ?_, ?_⟩
  · rw [h]
    intro hc
    have := congrArg satc_point.y hc
    norm_num at this
  · have e : (satc_polygon_rotate (MathFns.mk Real.sqrt Real.cos Real.sin)
        (box20_at (MathFns.mk Real.sqrt Real.cos Real.sin) 0 0) 0).points =
        (box20_at (MathFns.mk Real.sqrt Real.cos Real.sin) 0 0).points.map
          (fun p => satc_point_rotate (MathFns.mk Real.sqrt Real.cos Real.sin) p 0) := by
      unfold satc_polygon_rotate
      rw [satc_polygon_rotate_points]
      rfl
    rw [e, box20_at_eq _ real_isSqrt]
    simp [h]

/-- C12 (the code at the failing input): for the 40x40 box polygon at `(0, 0)` and the
circle of radius 10 at `(20, -5)`, whose centre projects onto the first edge,
`satc_test_polygon_circle` and `satc_test_circle_polygon` with the response absent reach
the unguarded `response->b_in_a = false` of the middle region and dereference the absent
response, while with a fresh response the call hands back a boolean and a response. -/
theorem C12_absent_response_dereferenced :
    satc_test_polygon_circle (MathFns.mk Real.sqrt Real.cos Real.sin)
        (satc_box_to_polygon (MathFns.mk Real.sqrt Real.cos Real.sin)
          (satc_box_create ⟨0, 0⟩ 40 40)) ⟨⟨20, -5⟩, 10⟩ none = none ∧
      satc_test_circle_polygon (MathFns.mk Real.sqrt Real.cos Real.sin) ⟨⟨20, -5⟩, 10⟩
        (satc_box_to_polygon (MathFns.mk Real.sqrt Real.cos Real.sin)
          (satc_box_create ⟨0, 0⟩ 40 40)) none = none ∧
      ∃ c r, satc_test_polygon_circle (MathFns.mk Real.sqrt Real.cos Real.sin)
        (satc_box_to_polygon (MathFns.mk Real.sqrt Real.cos Real.sin)
          (satc_box_create ⟨0, 0⟩ 40 40)) ⟨⟨20, -5⟩, 10⟩ (some satc_response_create) =
        some (c, some r) := by
  obtain ⟨h1, h2⟩ := polygon_circle_absent_response_eval
    (MathFns.mk Real.sqrt Real.cos Real.sin) real_isSqrt
  obtain ⟨c, r, h3, _⟩ := satc_test_polygon_circle_some
    (MathFns.mk Real.sqrt Real.cos Real.sin)
    (satc_box_to_polygon (MathFns.mk Real.sqrt Real.cos Real.sin)
      (satc_box_create ⟨0, 0⟩ 40 40)) ⟨⟨20, -5⟩, 10⟩ satc_response_create
  exact ⟨h1, h2, c, r, h3⟩

/-- C13, as stated, on doubles: for the box polygon 1.8x0.2 at `(2, 2.2)` and the circle of
radius `2.9` at `(1.7, 0.4)` the test on a fresh response returns true with
`a_in_b = false`, although every world point placed at the position of the polygon is in
the circle by `satc_point_in_circle`. -/
theorem C13_polygon_in_circle_flag_counterexample :
    (satc_test_polygon_circle Dbl.math
        (satc_box_to_polygon Dbl.math (satc_box_create ⟨2, 22 / 10⟩ (18 / 10) (2 / 10)))
        ⟨⟨17 / 10, 4 / 10⟩, 29 / 10⟩ (some satc_response_create)).map Prod.fst = some true ∧
      ((satc_test_polygon_circle Dbl.math
        (satc_box_to_polygon Dbl.math (satc_box_create ⟨2, 22 / 10⟩ (18 / 10) (2 / 10)))
        ⟨⟨17 / 10, 4 / 10⟩, 29 / 10⟩ (some satc_response_create)).bind Prod.snd).map
          (fun r => r.a_in_b) = some false ∧
      (satc_box_to_polygon Dbl.math
        (satc_box_create ⟨2, 22 / 10⟩ (18 / 10) (2 / 10))).calc_points.all
          (fun w => satc_point_in_circle (satc_point_add w ⟨2, 22 / 10⟩)
            ⟨⟨17 / 10, 4 / 10⟩, 29 / 10⟩) = true := by
  decide!

/-- C13 (amended): when `satc_test_polygon_circle` returns true on a fresh response, on
doubles `a_in_b` is true iff for no world point `w` of the polygon the squared length of
`C.pos - P.pos - w` is greater than `C.r * C.r`, both as the function computes them; in
exact arithmetic that is: iff every world point `w` satisfies `|C.pos - P.pos - w|² ≤ C.r²`,
that is iff every world point placed at `P.pos` is in the circle by
`satc_point_in_circle`. -/
theorem C13_polygon_in_circle_flag (m : MathFns K) (polygon : satc_polygon K)
    (circle : satc_circle K) (r : satc_response K)
    (h : satc_test_polygon_circle m polygon circle (some satc_response_create) =
      some (true, some r)) :
    ((r.a_in_b = true ↔ ∀ w ∈ polygon.calc_points,
          satc_point_len2 (satc_point_sub (satc_point_sub circle.pos polygon.pos) w) ≤
            circle.r * circle.r) ∧
        (r.a_in_b = true ↔ ∀ w ∈ polygon.calc_points,
          satc_point_in_circle (satc_point_add w polygon.pos) circle = true)) ∧
      ∀ (p : satc_polygon Dbl) (c : satc_circle Dbl) (s : satc_response Dbl),
        satc_test_polygon_circle Dbl.math p c (some satc_response_create) =
            some (true, some s) →
          (s.a_in_b = true ↔ ∀ w ∈ p.calc_points,
            ¬ satc_point_len2 (satc_point_sub (satc_point_sub c.pos p.pos) w) > c.r * c.r) := by
  refine ⟨?_, fun p c s hs => satc_test_polygon_circle_a_in_b_iff Dbl.math p c s hs⟩
  obtain ⟨c, r1, h1, ha⟩ := satc_test_polygon_circle_some m polygon circle satc_response_create
  rw [h] at h1
  have hc : c = true := by
    have := congrArg (fun x => x.map Prod.fst) h1
    simpa using this.symm
  have hr : r1 = r := by
    have := congrArg (fun x => x.bind Prod.snd) h1
    simpa using this.symm
  subst hr
  have ha2 := ha hc
  rw [all_range_getD polygon.calc_points satc_point_alloca
    (fun w => !decide (satc_point_len2
      (satc_point_sub (satc_point_sub circle.pos polygon.pos) w) > circle.r * circle.r))]
    at ha2
  have e1 : r1.a_in_b = true ↔ ∀ w ∈ polygon.calc_points,
      satc_point_len2 (satc_point_sub (satc_point_sub circle.pos polygon.pos) w) ≤
        circle.r * circle.r := by
    rw [ha2]
    simp [satc_response_create]
  refine ⟨e1, ?_⟩
  rw [e1]
  have e2 : ∀ w : satc_point K,
      satc_point_in_circle (satc_point_add w polygon.pos) circle = true ↔
        satc_point_len2 (satc_point_sub (satc_point_sub circle.pos polygon.pos) w) ≤
          circle.r * circle.r := by
    intro w
    simp only [satc_point_in_circle, satc_point_copy_eq, satc_point_len2, satc_point_dot,
      satc_point_sub, satc_point_add, decide_eq_true_eq]
    constructor <;> intro hh <;> linarith [hh]
  simp only [e2]

/-- C13 (amended) at the shapes of the test, in exact arithmetic: the 40x40 square at `(0, 0)`
and the circle of radius 20 at `(50, 50)`. -/
theorem C13_polygon_in_circle_flag_witness :
    ∃ r, satc_test_polygon_circle (MathFns.mk Real.sqrt Real.cos Real.sin)
        (satc_box_to_polygon (MathFns.mk Real.sqrt Real.cos Real.sin) ⟨⟨0, 0⟩, 40, 40⟩)
        ⟨⟨50, 50⟩, 20⟩ (some satc_response_create) = some (true, some r) ∧
      (r.a_in_b = true ↔
        ∀ w ∈ (satc_box_to_polygon (MathFns.mk Real.sqrt Real.cos Real.sin)
            ⟨⟨0, 0⟩, 40, 40⟩).calc_points,
          satc_point_len2 (satc_point_sub (satc_point_sub ⟨50, 50⟩ ⟨0, 0⟩) w) ≤ 20 * 20) ∧
      (r.a_in_b = true ↔
        ∀ w ∈ (satc_box_to_polygon (MathFns.mk Real.sqrt Real.cos Real.sin)
            ⟨⟨0, 0⟩, 40, 40⟩).calc_points,
          satc_point_in_circle (satc_point_add w ⟨0, 0⟩) ⟨⟨50, 50⟩, 20⟩ = true) := by
  obtain ⟨hD, hlen, hle, _⟩ := polygon_circle_test_input
  have e : satc_point_sub (satc_point_sub (⟨50, 50⟩ : satc_point ℝ) ⟨0, 0⟩) ⟨40, 40⟩ =
      satc_point_sub (⟨50, 50⟩ : satc_point ℝ) ⟨0 + 40, 0 + 40⟩ := by
    ext <;> simp only [satc_point_sub] <;> ring
  obtain ⟨r, hr, _⟩ := (satc_test_polygon_circle_corner
    (MathFns.mk Real.sqrt Real.cos Real.sin) real_isSqrt
    ⟨⟨0, 0⟩, 40, 40⟩ ⟨⟨50, 50⟩, 20⟩ (by norm_num) (by norm_num) hD (by norm_num)
    (by norm_num)).2 (by rw [e, hlen]; exact hle)
  exact ⟨r, hr, (C13_polygon_in_circle_flag (MathFns.mk Real.sqrt Real.cos Real.sin)
    _ _ r hr).1⟩

/-- C15: `satc_test_circle_polygon(C, P, r)` is `satc_test_polygon_circle(P, C, r)` followed,
when the boolean is true and a response was supplied, by the swap of `a` and `b` and of
`a_in_b` and `b_in_a` and the negation of `overlap_n` and `overlap_v`, the overlap being
kept; when the boolean is false the response is handed back as it is; and with a response
supplied the call never fails. -/
theorem C15_circle_polygon_flips (m : MathFns K) (circle : satc_circle K)
    (polygon : satc_polygon K) (response : Option (satc_response K)) :
    satc_test_circle_polygon m circle polygon response =
        (satc_test_polygon_circle m polygon circle response).map (fun res =>
          match res with
          | (true, some r) => (true, some (spec_flip_response r))
          | (true, none) => (true, none)
          | (false, ro) => (false, ro)) ∧
      ∀ r0 : satc_response K, ∃ c r,
        satc_test_polygon_circle m polygon circle (some r0) = some (c, some r) := by
  constructor
  · unfold satc_test_circle_polygon
    rcases satc_test_polygon_circle m polygon circle response with _ | ⟨c, ro⟩
    · rfl
    · cases c with
      | false => rfl
      | true =>
        cases ro with
        | none => rfl
        | some r => rfl
  · intro r0
    obtain ⟨c, r, h, _⟩ := satc_test_polygon_circle_some m polygon circle r0
    exact ⟨c, r, h⟩

/-- C21 (the code at the failing input): with the real cosine and sine,
`satc_point_rotate` by `θ` and then by `-θ` moves `p` to
`(p.x - 2 p.y sin θ cos θ, p.y - 2 p.x sin θ cos θ)`; for the 20x20 box polygon,
`satc_polygon_rotate` by `π/4` and then by `-π/4` leaves the vertices and the world points
`(0,0), (20,-20), (0,0), (-20,20)`, not the original `(0,0), (20,0), (20,20), (0,20)`. -/
theorem C21_rotate_back_not_restored :
    (∀ (p : satc_point ℝ) (θ : ℝ),
        satc_point_rotate (MathFns.mk Real.sqrt Real.cos Real.sin)
            (satc_point_rotate (MathFns.mk Real.sqrt Real.cos Real.sin) p θ) (-θ) =
          ⟨p.x - 2 * p.y * (Real.sin θ * Real.cos θ),
            p.y - 2 * p.x * (Real.sin θ * Real.cos θ)⟩) ∧
      (box20_at (MathFns.mk Real.sqrt Real.cos Real.sin) 0 0).points =
        [⟨0, 0⟩, ⟨20, 0⟩, ⟨20, 20⟩, ⟨0, 20⟩] ∧
      (satc_polygon_rotate (MathFns.mk Real.sqrt Real.cos Real.sin)
          (satc_polygon_rotate (MathFns.mk Real.sqrt Real.cos Real.sin)
            (box20_at (MathFns.mk Real.sqrt Real.cos Real.sin) 0 0) (Real.pi / 4))
          (-(Real.pi / 4))).points = [⟨0, 0⟩, ⟨20, -20⟩, ⟨0, 0⟩, ⟨-20, 20⟩] ∧
      (satc_polygon_rotate (MathFns.mk Real.sqrt Real.cos Real.sin)
          (satc_polygon_rotate (MathFns.mk Real.sqrt Real.cos Real.sin)
            (box20_at (MathFns.mk Real.sqrt Real.cos Real.sin) 0 0) (Real.pi / 4))
          (-(Real.pi / 4))).calc_points = [⟨0, 0⟩, ⟨20, -20⟩, ⟨0, 0⟩, ⟨-20, 20⟩] ∧
      (satc_polygon_rotate (MathFns.mk Real.sqrt Real.cos Real.sin)
          (satc_polygon_rotate (MathFns.mk Real.sqrt Real.cos Real.sin)
            (box20_at (MathFns.mk Real.sqrt Real.cos Real.sin) 0 0) (Real.pi / 4))
          (-(Real.pi / 4))).points ≠
        (box20_at (MathFns.mk Real.sqrt Real.cos Real.sin) 0 0).points := by
  obtain ⟨h1, h2⟩ := polygon_rotate_back_eval
  have e : (box20_at (MathFns.mk Real.sqrt Real.cos Real.sin) 0 0).points =
      [⟨0, 0⟩, ⟨20, 0⟩, ⟨20, 20⟩, ⟨0, 20⟩] := by
    rw [box20_at_eq _ real_isSqrt]
  refine ⟨satc_point_rotate_back, e, h1, h2, ?_⟩
  rw [h1, e]
  simp

/-- C22 (the code at every input): the loop of `satc_polygon_translate` overwrites the
first coordinate of every vertex with `x` and leaves the second as it is, and the statement
`points[i][1] = y` that follows the loop accesses `points[num_points]`, one cell behind the
array, so no polygon is handed back; on the 20x20 box polygon with `x = y = 1` the loop
leaves the vertices `(1,0), (1,0), (1,20), (1,20)`. -/
theorem C22_translate_overwrites_x (m : MathFns K) :
    (∀ (points : List (satc_point K)) (x : K),
        satc_polygon_translate_loop points x = points.map (fun p => ⟨x, p.y⟩)) ∧
      (∀ (p : satc_polygon K) (x y : K),
        satc_polygon_translate m p x y =
          if p.points.length < (satc_polygon_translate_loop p.points x).length then
            some (_satc_polygon_recalc m
              { p with
                points := (satc_polygon_translate_loop p.points x).set p.points.length
                  ⟨((satc_polygon_translate_loop p.points x).getD p.points.length
                    satc_point_alloca).x, y⟩ })
          else none) ∧
      (satc_box_to_polygon m (satc_box_create ⟨0, 0⟩ 20 20)).points =
        [⟨0, 0⟩, ⟨20, 0⟩, ⟨20, 20⟩, ⟨0, 20⟩] ∧
      satc_polygon_translate_loop
          (satc_box_to_polygon m (satc_box_create ⟨0, 0⟩ 20 20)).points 1 =
        [⟨1, 0⟩, ⟨1, 0⟩, ⟨1, 20⟩, ⟨1, 20⟩] ∧
      satc_polygon_translate m (satc_box_to_polygon m (satc_box_create ⟨0, 0⟩ 20 20)) 1 1 =
        none := by
  refine ⟨satc_polygon_translate_loop_eq, satc_polygon_translate_eq_loop m, ?_, ?_,
    satc_polygon_translate_eq_none m _ 1 1⟩
  · rw [satc_box_to_polygon_eq]; rfl
  · rw [satc_polygon_translate_loop_eq, satc_box_to_polygon_eq]; rfl

/-- C23: for every box, `satc_box_to_polygon` returns a polygon at the position of the box,
with angle 0 and offset `(0, 0)`, whose vertices and world points are
`[(0,0), (w,0), (w,h), (0,h)]` in that order; for the box made by `satc_box_create` the
position is the one given. -/
theorem C23_box_to_polygon (m : MathFns K) (box : satc_box K) (P : satc_point K) (w h : K) :
    (satc_box_to_polygon m box).pos = box.pos ∧
      (satc_box_to_polygon m box).angle = 0 ∧
      (satc_box_to_polygon m box).offset = ⟨0, 0⟩ ∧
      (satc_box_to_polygon m box).points =
        [⟨0, 0⟩, ⟨box.w, 0⟩, ⟨box.w, box.h⟩, ⟨0, box.h⟩] ∧
      (satc_box_to_polygon m box).calc_points =
        [⟨0, 0⟩, ⟨box.w, 0⟩, ⟨box.w, box.h⟩, ⟨0, box.h⟩] ∧
      (satc_box_to_polygon m (satc_box_create P w h)).pos = P ∧
      (satc_box_to_polygon m (satc_box_create P w h)).points =
        [⟨0, 0⟩, ⟨w, 0⟩, ⟨w, h⟩, ⟨0, h⟩] := by
  rw [satc_box_to_polygon_eq, satc_box_to_polygon_eq]
  exact ⟨rfl, rfl, rfl, rfl, rfl, rfl, rfl⟩

/-- C24 (the code at the failing input): for the rectangle with vertices
`(10,0), (10,5), (0,5), (0,0)`, whose `y` values range over `[0, 5]`, `satc_polygon_get_aabb`
returns the box polygon of width 10 and height 10, with vertices
`(0,0), (10,0), (10,10), (0,10)`, whatever the contents of the unwritten point `pos`; its
position is those contents moved by `(x_min, y_min)`. -/
theorem C24_aabb_height_from_x (pos0 : satc_point ℝ) :
    (rectangle_10_5 (MathFns.mk Real.sqrt Real.cos Real.sin)).points =
        [⟨10, 0⟩, ⟨10, 5⟩, ⟨0, 5⟩, ⟨0, 0⟩] ∧
      ∃ box, satc_polygon_get_aabb (MathFns.mk Real.sqrt Real.cos Real.sin) pos0
          (rectangle_10_5 (MathFns.mk Real.sqrt Real.cos Real.sin)) = some box ∧
        box.points = [⟨0, 0⟩, ⟨10, 0⟩, ⟨10, 10⟩, ⟨0, 10⟩] ∧
        box.points ≠ [⟨0, 0⟩, ⟨10, 0⟩, ⟨10, 5⟩, ⟨0, 5⟩] ∧
        box.pos = ⟨pos0.x + 0, pos0.y + 0⟩ := by
  refine ⟨rectangle_10_5_points _, _, polygon_aabb_rectangle_eval _ pos0, ?_, ?_, ?_⟩
  · rw [satc_box_to_polygon_eq]
    simp
  · rw [satc_box_to_polygon_eq]
    simp
  · rw [satc_box_to_polygon_eq]

/-- C25, as stated, on doubles: the point `(1.8, -0.9)` is in the circle of radius `1.2` at
`(1.8, 0.3)` by `satc_point_in_circle`, but `c.pos.y - r` is greater than `p.y`, computed on
doubles (`-0.8999999999999999`) and exactly. -/
theorem C25_circle_aabb_counterexample :
    satc_point_in_circle (⟨18 / 10, -(9 / 10)⟩ : satc_point Dbl) ⟨⟨18 / 10, 3 / 10⟩, 12 / 10⟩ =
        true ∧
      (3 / 10 : Dbl) - 12 / 10 = -(8999999999999999 / 10000000000000000) ∧
      ¬ (3 / 10 : Dbl) - 12 / 10 ≤ -(9 / 10) ∧
      ¬ Dbl.toRat (3 / 10) - Dbl.toRat (12 / 10) ≤ Dbl.toRat (-(9 / 10)) := by
  decide!

/-- C25 (amended): on doubles, for every circle of radius `r`, `satc_circle_get_aabb` is the
box polygon at `(c.pos.x - r, c.pos.y - r)` with vertices `(0,0), (2r,0), (2r,2r), (0,2r)`,
`2r` computed as `r * 2`; in exact arithmetic and for `r ≥ 0` it bounds the circle: every
point that `satc_point_in_circle` places in the circle lies within `r` of the centre in each
coordinate. -/
theorem C25_circle_aabb (m : MathFns K) (c : satc_circle K) (hr : 0 ≤ c.r) :
    (satc_circle_get_aabb m c =
          satc_box_to_polygon m (satc_box_create ⟨c.pos.x - c.r, c.pos.y - c.r⟩
            (2 * c.r) (2 * c.r)) ∧
        (satc_circle_get_aabb m c).pos = ⟨c.pos.x - c.r, c.pos.y - c.r⟩ ∧
        (satc_circle_get_aabb m c).points =
          [⟨0, 0⟩, ⟨2 * c.r, 0⟩, ⟨2 * c.r, 2 * c.r⟩, ⟨0, 2 * c.r⟩] ∧
        (satc_circle_get_aabb m c).calc_points =
          [⟨0, 0⟩, ⟨2 * c.r, 0⟩, ⟨2 * c.r, 2 * c.r⟩, ⟨0, 2 * c.r⟩] ∧
        ∀ p : satc_point K, satc_point_in_circle p c = true →
          c.pos.x - c.r ≤ p.x ∧ p.x ≤ c.pos.x + c.r ∧
            c.pos.y - c.r ≤ p.y ∧ p.y ≤ c.pos.y + c.r) ∧
      ∀ d : satc_circle Dbl,
        satc_circle_get_aabb Dbl.math d =
            satc_box_to_polygon Dbl.math
              (satc_box_create ⟨d.pos.x - d.r, d.pos.y - d.r⟩ (d.r * 2) (d.r * 2)) ∧
          (satc_circle_get_aabb Dbl.math d).pos = ⟨d.pos.x - d.r, d.pos.y - d.r⟩ ∧
          (satc_circle_get_aabb Dbl.math d).points =
            [⟨0, 0⟩, ⟨d.r * 2, 0⟩, ⟨d.r * 2, d.r * 2⟩, ⟨0, d.r * 2⟩] := by
  refine ⟨?_, fun _ =>
    ⟨rfl, satc_polygon_create_pos _ _ _, satc_polygon_create_points _ _ _⟩⟩
  have e : satc_circle_get_aabb m c =
      satc_box_to_polygon m (satc_box_create ⟨c.pos.x - c.r, c.pos.y - c.r⟩
        (2 * c.r) (2 * c.r)) := by
    rw [satc_circle_get_aabb_eq, mul_comm c.r 2]
    rfl
  refine ⟨e, ?_, ?_, ?_, fun p hp => satc_point_in_circle_bounds p c hr hp⟩
  · rw [e, satc_box_to_polygon_eq]; rfl
  · rw [e, satc_box_to_polygon_eq]; rfl
  · rw [e, satc_box_to_polygon_eq]; rfl

/-- C25 (amended) at the circle of the test, in exact arithmetic, centre `(100, 100)` and
radius 20: its bounding box is
the box polygon at `(80, 80)` of side 40, and the point `(110, 110)` of the circle lies
in it. -/
theorem C25_circle_aabb_witness :
    (0 : ℝ) ≤ 20 ∧
      (satc_circle_get_aabb (MathFns.mk Real.sqrt Real.cos Real.sin) ⟨⟨100, 100⟩, 20⟩).pos =
        ⟨80, 80⟩ ∧
      (satc_circle_get_aabb (MathFns.mk Real.sqrt Real.cos Real.sin)
        ⟨⟨100, 100⟩, 20⟩).points = [⟨0, 0⟩, ⟨40, 0⟩, ⟨40, 40⟩, ⟨0, 40⟩] ∧
      satc_point_in_circle (⟨110, 110⟩ : satc_point ℝ) ⟨⟨100, 100⟩, 20⟩ = true ∧
      ((100 : ℝ) - 20 ≤ 110 ∧ (110 : ℝ) ≤ 100 + 20 ∧ (100 : ℝ) - 20 ≤ 110 ∧
        (110 : ℝ) ≤ 100 + 20) := by
  have hr : (0 : ℝ) ≤ 20 := by norm_num
  obtain ⟨_, h2, h3, _, h5⟩ := (C25_circle_aabb (MathFns.mk Real.sqrt Real.cos Real.sin)
    ⟨⟨100, 100⟩, 20⟩ hr).1
  have hin : satc_point_in_circle (⟨110, 110⟩ : satc_point ℝ) ⟨⟨100, 100⟩, 20⟩ = true := by
    simp only [satc_point_in_circle, satc_point_copy_eq, satc_point_len2, satc_point_dot,
      satc_point_sub, decide_eq_true_eq]
    norm_num
  refine ⟨hr, ?_, ?_, hin, h5 ⟨110, 110⟩ hin⟩
  · rw [h2]; norm_num
  · rw [h3]; norm_num

/-- C26: `satc_is_separating_axis`, `satc_test_polygon_polygon` and
`satc_test_polygon_circle`, called with a supplied response, hand that response back, and a
flag `a_in_b` or `b_in_a` that is false before the call is false after it. -/
theorem C26_flags_never_restored (m : MathFns K) (a_pos b_pos : satc_point K) (a_len : Nat)
    (a_points : List (satc_point K)) (b_len : Nat) (b_points : List (satc_point K))
    (axis : satc_point K) (a b polygon : satc_polygon K) (circle : satc_circle K)
    (r : satc_response K) :
    (∃ c r1, satc_is_separating_axis a_pos b_pos a_len a_points b_len b_points axis (some r) =
        (c, some r1) ∧
      (r.a_in_b = false → r1.a_in_b = false) ∧ (r.b_in_a = false → r1.b_in_a = false)) ∧
    (∃ c r1, satc_test_polygon_polygon a b (some r) = (c, some r1) ∧
      (r.a_in_b = false → r1.a_in_b = false) ∧ (r.b_in_a = false → r1.b_in_a = false)) ∧
    (∃ c r1, satc_test_polygon_circle m polygon circle (some r) = some (c, some r1) ∧
      (r.a_in_b = false → r1.a_in_b = false) ∧ (r.b_in_a = false → r1.b_in_a = false)) :=
  ⟨satc_is_separating_axis_flags a_pos b_pos a_len a_points b_len b_points axis r,
    satc_test_polygon_polygon_flags a b r, satc_test_polygon_circle_flags m polygon circle r⟩

/-- C27, as stated, on doubles: A has the points `(0, 0), (1, 0)`, B the points
`(0.1, 0), (0.2, 0)`, the positions are `(0, 0)` and `(0.9, 0)` and the axis is `(1, 0)`, so
`maxA = 1`, `minB = 0.1` and `d = 0.9`.  The sum of the values of the doubles `0.1` and `0.9`
is greater than 1, so `maxA < minB + d` holds, but the function returns false: the sum
computed on doubles is `1.0`. -/
theorem C27_separating_axis_counterexample :
    satc_flatten_points_on 2 [(⟨0, 0⟩ : satc_point Dbl), ⟨1, 0⟩] ⟨1, 0⟩ = (0, 1) ∧
      satc_flatten_points_on 2 [(⟨1 / 10, 0⟩ : satc_point Dbl), ⟨2 / 10, 0⟩] ⟨1, 0⟩ =
        (1 / 10, 2 / 10) ∧
      satc_point_dot (satc_point_sub (⟨9 / 10, 0⟩ : satc_point Dbl) ⟨0, 0⟩) ⟨1, 0⟩ = 9 / 10 ∧
      Dbl.toRat 1 < Dbl.toRat (1 / 10) + Dbl.toRat (9 / 10) ∧
      (satc_is_separating_axis (⟨0, 0⟩ : satc_point Dbl) ⟨9 / 10, 0⟩ 2 [⟨0, 0⟩, ⟨1, 0⟩] 2
        [⟨1 / 10, 0⟩, ⟨2 / 10, 0⟩] ⟨1, 0⟩ none).1 = false := by
  decide!

/-- C27 (amended): on doubles `satc_is_separating_axis` returns true iff
`maxA < minB + d` or `maxB + d < minA`, where `[minA, maxA]` and `[minB, maxB]` are the
ranges that `satc_flatten_points_on` computes, `d = dot(b_pos - a_pos, axis)` and the sums
are the rounded sums that the function computes, so that ranges touching in these computed
values are not separating; the boolean is the same with and without a response.  In exact
arithmetic the ranges are the least and greatest values of `dot(point, axis)` over the two
point sets, and ranges that touch in one point are not separating. -/
theorem C27_separating_axis_iff (a_pos b_pos : satc_point K)
    (a_points b_points : List (satc_point K)) (axis : satc_point K) (minA maxA minB maxB : K)
    (hminA : IsLeast {t | ∃ p ∈ a_points, satc_point_dot p axis = t} minA)
    (hmaxA : IsGreatest {t | ∃ p ∈ a_points, satc_point_dot p axis = t} maxA)
    (hminB : IsLeast {t | ∃ p ∈ b_points, satc_point_dot p axis = t} minB)
    (hmaxB : IsGreatest {t | ∃ p ∈ b_points, satc_point_dot p axis = t} maxB)
    (hbA : ∀ p ∈ a_points, |satc_point_dot p axis| ≤ DBL_MAX)
    (hbB : ∀ p ∈ b_points, |satc_point_dot p axis| ≤ DBL_MAX)
    (response : Option (satc_response K)) :
    (((satc_is_separating_axis a_pos b_pos a_points.length a_points b_points.length b_points
            axis response).1 = true ↔
          maxA < minB + satc_point_dot (satc_point_sub b_pos a_pos) axis ∨
            maxB + satc_point_dot (satc_point_sub b_pos a_pos) axis < minA) ∧
        (maxA = minB + satc_point_dot (satc_point_sub b_pos a_pos) axis ∨
            maxB + satc_point_dot (satc_point_sub b_pos a_pos) axis = minA →
          (satc_is_separating_axis a_pos b_pos a_points.length a_points b_points.length
            b_points axis response).1 = false) ∧
        (satc_is_separating_axis a_pos b_pos a_points.length a_points b_points.length b_points
            axis response).1 =
          (satc_is_separating_axis a_pos b_pos a_points.length a_points b_points.length
            b_points axis none).1) ∧
      ∀ (p_pos q_pos : satc_point Dbl) (p_len : Nat) (p_points : List (satc_point Dbl))
        (q_len : Nat) (q_points : List (satc_point Dbl)) (n : satc_point Dbl)
        (ro : Option (satc_response Dbl)),
        ((satc_is_separating_axis p_pos q_pos p_len p_points q_len q_points n ro).1 = true ↔
          (satc_flatten_points_on p_len p_points n).2 <
              (satc_flatten_points_on q_len q_points n).1 +
                satc_point_dot (satc_point_sub q_pos p_pos) n ∨
            (satc_flatten_points_on q_len q_points n).2 +
                satc_point_dot (satc_point_sub q_pos p_pos) n <
              (satc_flatten_points_on p_len p_points n).1) ∧
          (satc_is_separating_axis p_pos q_pos p_len p_points q_len q_points n ro).1 =
            (satc_is_separating_axis p_pos q_pos p_len p_points q_len q_points n none).1 := by
  refine ⟨?_, fun p_pos q_pos p_len p_points q_len q_points n ro => by
    rw [satc_is_separating_axis_fst,
      satc_is_separating_axis_fst p_pos q_pos p_len p_points q_len q_points n none]
    simp only [decide_eq_true_eq, gt_iff_lt, and_true]
    exact or_comm⟩
  have hA := satc_flatten_points_on_eq a_points axis minA maxA hminA hmaxA hbA
  have hB := satc_flatten_points_on_eq b_points axis minB maxB hminB hmaxB hbB
  have hAle : minA ≤ maxA := hminA.2 hmaxA.1
  have hBle : minB ≤ maxB := hminB.2 hmaxB.1
  have key : (satc_is_separating_axis a_pos b_pos a_points.length a_points b_points.length
      b_points axis response).1 = true ↔
        maxA < minB + satc_point_dot (satc_point_sub b_pos a_pos) axis ∨
          maxB + satc_point_dot (satc_point_sub b_pos a_pos) axis < minA := by
    rw [satc_is_separating_axis_fst, hA, hB, decide_eq_true_eq]
    simp only [gt_iff_lt]
    exact or_comm
  refine ⟨key, ?_, ?_⟩
  · intro h
    rw [← Bool.not_eq_true, key]
    rcases h with h | h
    · rintro (h2 | h2) <;> linarith
    · rintro (h2 | h2) <;> linarith
  · rw [satc_is_separating_axis_fst, satc_is_separating_axis_fst]

/-- C27 (amended) in exact arithmetic at two 20x20 boxes on the axis `(1, 0)`, B placed 20 to
the right of A: the ranges `[0, 20]` and `[20, 40]` touch in one point and the axis does not
separate. -/
theorem C27_separating_axis_iff_witness :
    IsLeast {t : ℚ | ∃ p ∈ [(⟨0, 0⟩ : satc_point ℚ), ⟨20, 0⟩, ⟨20, 20⟩, ⟨0, 20⟩],
        satc_point_dot p ⟨1, 0⟩ = t} 0 ∧
      IsGreatest {t : ℚ | ∃ p ∈ [(⟨0, 0⟩ : satc_point ℚ), ⟨20, 0⟩, ⟨20, 20⟩, ⟨0, 20⟩],
        satc_point_dot p ⟨1, 0⟩ = t} 20 ∧
      (∀ p ∈ [(⟨0, 0⟩ : satc_point ℚ), ⟨20, 0⟩, ⟨20, 20⟩, ⟨0, 20⟩],
        |satc_point_dot p ⟨1, 0⟩| ≤ DBL_MAX) ∧
      (satc_is_separating_axis (⟨0, 0⟩ : satc_point ℚ) ⟨20, 0⟩ 4
        [⟨0, 0⟩, ⟨20, 0⟩, ⟨20, 20⟩, ⟨0, 20⟩] 4 [⟨0, 0⟩, ⟨20, 0⟩, ⟨20, 20⟩, ⟨0, 20⟩] ⟨1, 0⟩
        (some satc_response_create)).1 = false := by
  obtain ⟨h1, h2, h3⟩ := box20_projections (K := ℚ)
  refine ⟨h1, h2, h3, ?_⟩
  apply (C27_separating_axis_iff (⟨0, 0⟩ : satc_point ℚ) ⟨20, 0⟩
    [⟨0, 0⟩, ⟨20, 0⟩, ⟨20, 20⟩, ⟨0, 20⟩] [⟨0, 0⟩, ⟨20, 0⟩, ⟨20, 20⟩, ⟨0, 20⟩] ⟨1, 0⟩ 0 20 0 20
    h1 h2 h1 h2 h3 h3 (some satc_response_create)).1.2.1
  left
  norm_num [satc_point_dot, satc_point_sub]

/-- C28: when `satc_is_separating_axis` returns true, the response after the call is the
response before the call, in every field. -/
theorem C28_separating_leaves_response (a_pos b_pos : satc_point K) (a_len : Nat)
    (a_points : List (satc_point K)) (b_len : Nat) (b_points : List (satc_point K))
    (axis : satc_point K) (response : Option (satc_response K))
    (h : (satc_is_separating_axis a_pos b_pos a_len a_points b_len b_points axis
      response).1 = true) :
    (satc_is_separating_axis a_pos b_pos a_len a_points b_len b_points axis response).2 =
      response := by
  unfold satc_is_separating_axis at h ⊢
  simp only [] at h ⊢
  split_ifs with hc
  · rfl
  · rw [if_neg hc] at h
    cases response <;> simp at h

/-- C28 at two 20x20 boxes on the axis `(1, 0)`, B placed 100 to the right of A: the axis
separates and the fresh response comes back as it was. -/
theorem C28_separating_leaves_response_witness :
    (satc_is_separating_axis (⟨0, 0⟩ : satc_point ℚ) ⟨100, 0⟩ 4
        [⟨0, 0⟩, ⟨20, 0⟩, ⟨20, 20⟩, ⟨0, 20⟩] 4 [⟨0, 0⟩, ⟨20, 0⟩, ⟨20, 20⟩, ⟨0, 20⟩] ⟨1, 0⟩
        (some satc_response_create)).1 = true ∧
      (satc_is_separating_axis (⟨0, 0⟩ : satc_point ℚ) ⟨100, 0⟩ 4
        [⟨0, 0⟩, ⟨20, 0⟩, ⟨20, 20⟩, ⟨0, 20⟩] 4 [⟨0, 0⟩, ⟨20, 0⟩, ⟨20, 20⟩, ⟨0, 20⟩] ⟨1, 0⟩
        (some satc_response_create)).2 = some satc_response_create := by
  have h : (satc_is_separating_axis (⟨0, 0⟩ : satc_point ℚ) ⟨100, 0⟩ 4
      [⟨0, 0⟩, ⟨20, 0⟩, ⟨20, 20⟩, ⟨0, 20⟩] 4 [⟨0, 0⟩, ⟨20, 0⟩, ⟨20, 20⟩, ⟨0, 20⟩] ⟨1, 0⟩
      (some satc_response_create)).1 = true := by
    rw [(axis_two_boxes_eval (100 : ℚ) _).2.2]
    norm_num
  exact ⟨h, C28_separating_leaves_response _ _ _ _ _ _ _ _ h⟩

/-- C29 (the code at the failing input): for two 20x20 boxes on the axis `(1, 0)`, B placed
5 to the right of A, A starts left of B and ends before B ends; on a fresh response the
axis test records `overlap = 5` and `overlap_n = -axis`, so `s = -5`, not
`maxA - (minB + d) = 15`, and A's range moved by `-s` is `[5, 25]`, which is B's range: the
two meet in more than one point. -/
theorem C29_push_out_uses_far_end :
    satc_flatten_points_on 4 [(⟨0, 0⟩ : satc_point K), ⟨20, 0⟩, ⟨20, 20⟩, ⟨0, 20⟩] ⟨1, 0⟩ =
        (0, 20) ∧
      satc_point_dot (satc_point_sub (⟨5, 0⟩ : satc_point K) ⟨0, 0⟩) ⟨1, 0⟩ = 5 ∧
      ∃ r : satc_response K,
        satc_is_separating_axis ⟨0, 0⟩ ⟨5, 0⟩ 4 [⟨0, 0⟩, ⟨20, 0⟩, ⟨20, 20⟩, ⟨0, 20⟩] 4
            [⟨0, 0⟩, ⟨20, 0⟩, ⟨20, 20⟩, ⟨0, 20⟩] ⟨1, 0⟩ (some satc_response_create) =
          (false, some r) ∧
        r.overlap = 5 ∧ r.overlap_n = ⟨-1, 0⟩ ∧ r.overlap_n ≠ ⟨1, 0⟩ ∧
        -r.overlap ≠ 20 - (0 + 5) ∧
        ¬ spec_ranges_meet_in_at_most_one_point ((0 : K) - -r.overlap, (20 : K) - -r.overlap)
          (0 + 5, 20 + 5) := by
  obtain ⟨hf, hd, _⟩ := axis_two_boxes_eval (5 : K) none
  obtain ⟨h1, h2⟩ := axis_two_boxes_overlap_eval (satc_response_create : satc_response K)
  have h5 : |(-5 : K)| < DBL_MAX := by
    rw [abs_neg, abs_of_pos (by norm_num)]
    exact lt_trans (by norm_num) DBL_MAX_gt_20
  have ho : (satc_is_separating_axis_response ((0 : K), (20 : K)) (0 + 5, 20 + 5) ⟨1, 0⟩
      satc_response_create).overlap = 5 := by
    rw [satc_is_separating_axis_response_overlap, h2]
    rw [show (satc_response_create : satc_response K).overlap = DBL_MAX from rfl, if_pos h5,
      abs_neg, abs_of_pos (by norm_num)]
  have hn : (satc_is_separating_axis_response ((0 : K), (20 : K)) (0 + 5, 20 + 5) ⟨1, 0⟩
      satc_response_create).overlap_n = ⟨-1, 0⟩ := by
    rw [satc_is_separating_axis_response_overlap_n, h2]
    rw [show (satc_response_create : satc_response K).overlap = DBL_MAX from rfl, if_pos h5,
      if_pos (by norm_num)]
    simp [satc_point_reverse]
  refine ⟨hf, hd, _, h1, ho, hn, ?_, ?_, ?_⟩
  · rw [hn]
    intro hc
    have := congrArg satc_point.x hc
    norm_num at this
  · rw [ho]; norm_num
  · rw [ho]
    intro hc
    have := hc 5 25 (by norm_num) (by norm_num)
    norm_num at this

/-- C30: when `satc_is_separating_axis` returns false on a supplied response, the overlap of
the response afterwards is the minimum of the overlap before and `|overlap|` of this axis,
so it does not increase and stays non-negative; `overlap_n` changes only when the overlap
strictly decreases, and then it is the axis when the signed overlap is non-negative and the
reversed axis when it is negative; `overlap_v`, `a` and `b` are not written. -/
theorem C30_overlap_minimum (a_pos b_pos : satc_point K) (a_len : Nat)
    (a_points : List (satc_point K)) (b_len : Nat) (b_points : List (satc_point K))
    (axis : satc_point K) (r : satc_response K)
    (h : (satc_is_separating_axis a_pos b_pos a_len a_points b_len b_points axis
      (some r)).1 = false) :
    ∃ r1, (satc_is_separating_axis a_pos b_pos a_len a_points b_len b_points axis
        (some r)).2 = some r1 ∧
      r1.overlap = min r.overlap |satc_is_separating_axis_overlap
        (satc_flatten_points_on a_len a_points axis)
        ((satc_flatten_points_on b_len b_points axis).1 +
            satc_point_dot (satc_point_sub b_pos a_pos) axis,
          (satc_flatten_points_on b_len b_points axis).2 +
            satc_point_dot (satc_point_sub b_pos a_pos) axis)| ∧
      r1.overlap ≤ r.overlap ∧ (0 ≤ r.overlap → 0 ≤ r1.overlap) ∧
      (r1.overlap_n ≠ r.overlap_n → r1.overlap < r.overlap) ∧
      (r1.overlap < r.overlap →
        r1.overlap_n = if satc_is_separating_axis_overlap
            (satc_flatten_points_on a_len a_points axis)
            ((satc_flatten_points_on b_len b_points axis).1 +
                satc_point_dot (satc_point_sub b_pos a_pos) axis,
              (satc_flatten_points_on b_len b_points axis).2 +
                satc_point_dot (satc_point_sub b_pos a_pos) axis) < 0
          then ⟨-axis.x, -axis.y⟩ else axis) ∧
      r1.overlap_v = r.overlap_v ∧ r1.a = r.a ∧ r1.b = r.b := by
  rw [satc_is_separating_axis_some] at h ⊢
  by_cases hc : (satc_flatten_points_on a_len a_points axis).1 >
        (satc_flatten_points_on b_len b_points axis).2 +
          satc_point_dot (satc_point_sub b_pos a_pos) axis ∨
      (satc_flatten_points_on b_len b_points axis).1 +
          satc_point_dot (satc_point_sub b_pos a_pos) axis >
        (satc_flatten_points_on a_len a_points axis).2
  · rw [if_pos hc] at h
    simp at h
  · rw [if_neg hc]
    refine ⟨_, rfl, ?_⟩
    obtain ⟨hv, ha, hb⟩ := satc_is_separating_axis_response_frame
      (satc_flatten_points_on a_len a_points axis)
      ((satc_flatten_points_on b_len b_points axis).1 +
          satc_point_dot (satc_point_sub b_pos a_pos) axis,
        (satc_flatten_points_on b_len b_points axis).2 +
          satc_point_dot (satc_point_sub b_pos a_pos) axis) axis r
    rw [satc_is_separating_axis_response_overlap, satc_is_separating_axis_response_overlap_n]
    generalize satc_is_separating_axis_overlap
      (satc_flatten_points_on a_len a_points axis)
      ((satc_flatten_points_on b_len b_points axis).1 +
          satc_point_dot (satc_point_sub b_pos a_pos) axis,
        (satc_flatten_points_on b_len b_points axis).2 +
          satc_point_dot (satc_point_sub b_pos a_pos) axis) = o
    refine ⟨?_, ?_, ?_, ?_, ?_, hv, ha, hb⟩
    · by_cases ht : |o| < r.overlap
      · rw [if_pos ht, min_eq_right ht.le]
      · rw [if_neg ht, min_eq_left (not_lt.1 ht)]
    · by_cases ht : |o| < r.overlap
      · rw [if_pos ht]; exact ht.le
      · rw [if_neg ht]
    · intro h0
      by_cases ht : |o| < r.overlap
      · rw [if_pos ht]; exact abs_nonneg o
      · rw [if_neg ht]; exact h0
    · intro hne
      by_cases ht : |o| < r.overlap
      · rw [if_pos ht]; exact ht
      · rw [if_neg ht] at hne; exact absurd rfl hne
    · intro hlt
      by_cases ht : |o| < r.overlap
      · rw [if_pos ht]; rfl
      · rw [if_neg ht] at hlt; exact absurd hlt (lt_irrefl _)

/-- C30 at two 20x20 boxes on the axis `(1, 0)`, B placed 5 to the right of A, on a fresh
response: the axis does not separate, the overlap drops from `DBL_MAX` to `|-5| = 5` and
`overlap_n` becomes the reversed axis. -/
theorem C30_overlap_minimum_witness :
    (satc_is_separating_axis (⟨0, 0⟩ : satc_point ℚ) ⟨5, 0⟩ 4
        [⟨0, 0⟩, ⟨20, 0⟩, ⟨20, 20⟩, ⟨0, 20⟩] 4 [⟨0, 0⟩, ⟨20, 0⟩, ⟨20, 20⟩, ⟨0, 20⟩] ⟨1, 0⟩
        (some satc_response_create)).1 = false ∧
      ∃ r1 : satc_response ℚ, (satc_is_separating_axis (⟨0, 0⟩ : satc_point ℚ) ⟨5, 0⟩ 4
          [⟨0, 0⟩, ⟨20, 0⟩, ⟨20, 20⟩, ⟨0, 20⟩] 4 [⟨0, 0⟩, ⟨20, 0⟩, ⟨20, 20⟩, ⟨0, 20⟩] ⟨1, 0⟩
          (some satc_response_create)).2 = some r1 ∧
        r1.overlap = min DBL_MAX |(-5 : ℚ)| ∧ r1.overlap = 5 ∧ r1.overlap_n = ⟨-1, 0⟩ := by
  have h : (satc_is_separating_axis (⟨0, 0⟩ : satc_point ℚ) ⟨5, 0⟩ 4
      [⟨0, 0⟩, ⟨20, 0⟩, ⟨20, 20⟩, ⟨0, 20⟩] 4 [⟨0, 0⟩, ⟨20, 0⟩, ⟨20, 20⟩, ⟨0, 20⟩] ⟨1, 0⟩
      (some satc_response_create)).1 = false := by
    rw [(axis_two_boxes_eval (5 : ℚ) _).2.2]
    norm_num
  obtain ⟨hf, hd, _⟩ := axis_two_boxes_eval (5 : ℚ) none
  obtain ⟨_, h2⟩ := axis_two_boxes_overlap_eval (satc_response_create : satc_response ℚ)
  have h5 : (5 : ℚ) < DBL_MAX := lt_trans (by norm_num) DBL_MAX_gt_20
  obtain ⟨r1, hr1, ho, _, _, _, hn, _⟩ := C30_overlap_minimum (⟨0, 0⟩ : satc_point ℚ) ⟨5, 0⟩ 4
    [⟨0, 0⟩, ⟨20, 0⟩, ⟨20, 20⟩, ⟨0, 20⟩] 4 [⟨0, 0⟩, ⟨20, 0⟩, ⟨20, 20⟩, ⟨0, 20⟩] ⟨1, 0⟩
    satc_response_create h
  rw [hf, hd, h2] at ho hn
  have hD : (satc_response_create : satc_response ℚ).overlap = DBL_MAX := rfl
  rw [hD] at ho hn
  have e5 : min (DBL_MAX : ℚ) |(-5 : ℚ)| = 5 := by
    rw [abs_neg, abs_of_pos (by norm_num), min_eq_right h5.le]
  refine ⟨h, r1, hr1, ho, by rw [ho, e5], ?_⟩
  rw [hn (by rw [ho, e5]; exact h5), if_pos (by norm_num)]
  norm_num

/-- C33: for a non-empty list of points whose projections on the axis are doubles (at most
`DBL_MAX` in absolute value), `satc_flatten_points_on` returns `(min, max)` with
`min ≤ dot(p, axis) ≤ max` for every point `p` of the list, both attained by points of the
list, and `min ≤ max`. -/
theorem C33_flatten_range (points : List (satc_point K)) (axis : satc_point K)
    (hne : points ≠ [])
    (hb : ∀ p ∈ points, |satc_point_dot p axis| ≤ DBL_MAX) :
    (∀ p ∈ points, (satc_flatten_points_on points.length points axis).1 ≤
          satc_point_dot p axis ∧
        satc_point_dot p axis ≤ (satc_flatten_points_on points.length points axis).2) ∧
      (∃ p ∈ points, satc_point_dot p axis =
        (satc_flatten_points_on points.length points axis).1) ∧
      (∃ p ∈ points, satc_point_dot p axis =
        (satc_flatten_points_on points.length points axis).2) ∧
      (satc_flatten_points_on points.length points axis).1 ≤
        (satc_flatten_points_on points.length points axis).2 := by
  obtain ⟨p0, hp0⟩ := List.exists_mem_of_ne_nil points hne
  have hlo : ∀ p ∈ points, (satc_flatten_points_on points.length points axis).1 ≤
      satc_point_dot p axis := fun p hp =>
    (satc_flatten_points_on_fst_le points axis _).2 (Or.inr ⟨p, hp, le_rfl⟩)
  have hhi : ∀ p ∈ points, satc_point_dot p axis ≤
      (satc_flatten_points_on points.length points axis).2 := fun p hp =>
    (satc_flatten_points_on_le_snd points axis _).2 (Or.inr ⟨p, hp, le_rfl⟩)
  refine ⟨fun p hp => ⟨hlo p hp, hhi p hp⟩, ?_, ?_, le_trans (hlo p0 hp0) (hhi p0 hp0)⟩
  · rcases (satc_flatten_points_on_fst_le points axis _).1 le_rfl with h | ⟨q, hq, hle⟩
    · refine ⟨p0, hp0, le_antisymm ?_ (hlo p0 hp0)⟩
      exact le_trans (le_trans (le_abs_self _) (hb p0 hp0)) h
    · exact ⟨q, hq, le_antisymm hle (hlo q hq)⟩
  · rcases (satc_flatten_points_on_le_snd points axis _).1 le_rfl with h | ⟨q, hq, hle⟩
    · refine ⟨p0, hp0, le_antisymm (hhi p0 hp0) ?_⟩
      have h1 := hb p0 hp0
      have h2 := neg_abs_le (satc_point_dot p0 axis)
      linarith
    · exact ⟨q, hq, le_antisymm (hhi q hq) hle⟩

/-- C33 at the corners of the 20x20 box and the axis `(1, 0)`: the range is `(0, 20)`. -/
theorem C33_flatten_range_witness :
    [(⟨0, 0⟩ : satc_point ℚ), ⟨20, 0⟩, ⟨20, 20⟩, ⟨0, 20⟩] ≠ [] ∧
      (∀ p ∈ [(⟨0, 0⟩ : satc_point ℚ), ⟨20, 0⟩, ⟨20, 20⟩, ⟨0, 20⟩],
        |satc_point_dot p ⟨1, 0⟩| ≤ DBL_MAX) ∧
      satc_flatten_points_on 4 [(⟨0, 0⟩ : satc_point ℚ), ⟨20, 0⟩, ⟨20, 20⟩, ⟨0, 20⟩] ⟨1, 0⟩ =
        (0, 20) ∧
      (satc_flatten_points_on 4 [(⟨0, 0⟩ : satc_point ℚ), ⟨20, 0⟩, ⟨20, 20⟩, ⟨0, 20⟩]
          ⟨1, 0⟩).1 ≤
        (satc_flatten_points_on 4 [(⟨0, 0⟩ : satc_point ℚ), ⟨20, 0⟩, ⟨20, 20⟩, ⟨0, 20⟩]
          ⟨1, 0⟩).2 := by
  obtain ⟨_, _, h3⟩ := box20_projections (K := ℚ)
  have hne : [(⟨0, 0⟩ : satc_point ℚ), ⟨20, 0⟩, ⟨20, 20⟩, ⟨0, 20⟩] ≠ [] := by simp
  exact ⟨hne, h3, (axis_two_boxes_eval (0 : ℚ) none).1,
    (C33_flatten_range [(⟨0, 0⟩ : satc_point ℚ), ⟨20, 0⟩, ⟨20, 20⟩, ⟨0, 20⟩] ⟨1, 0⟩
      hne h3).2.2.2⟩

/-- C34 (the code, with the real square root): after `_satc_polygon_recalc`, `normals[i]` is
`satc_point_normalize` of the perpendicular of `edges[i]`, and for a non-zero `edges[i]` it
is perpendicular to the edge and of length 1; but `satc_point_normalize` computes the second
coordinate as `p[1] / d` outside the guard `d > 0`, so for the zero vector it divides by
zero: on the triangle `(0,0), (0,0), (10,0)` the first edge is the zero vector and its
normal is the outcome of that division. -/
theorem C34_zero_edge_divides_by_zero :
    (∀ (p : satc_polygon ℝ) (i : Nat), p.points.length ≤ p.calc_points.length →
        p.points.length ≤ p.edges.length → p.points.length ≤ p.normals.length →
        i < p.points.length →
        (_satc_polygon_recalc (MathFns.mk Real.sqrt Real.cos Real.sin) p).normals.getD i
            satc_point_alloca =
          satc_point_normalize (MathFns.mk Real.sqrt Real.cos Real.sin) (satc_point_perp
            ((_satc_polygon_recalc (MathFns.mk Real.sqrt Real.cos Real.sin) p).edges.getD i
              satc_point_alloca)) ∧
        ((_satc_polygon_recalc (MathFns.mk Real.sqrt Real.cos Real.sin) p).edges.getD i
            satc_point_alloca ≠ ⟨0, 0⟩ →
          satc_point_dot
              ((_satc_polygon_recalc (MathFns.mk Real.sqrt Real.cos Real.sin) p).normals.getD i
                satc_point_alloca)
              ((_satc_polygon_recalc (MathFns.mk Real.sqrt Real.cos Real.sin) p).edges.getD i
                satc_point_alloca) = 0 ∧
            satc_point_len (MathFns.mk Real.sqrt Real.cos Real.sin)
              ((_satc_polygon_recalc (MathFns.mk Real.sqrt Real.cos Real.sin) p).normals.getD i
                satc_point_alloca) = 1)) ∧
      (∀ p : satc_point ℝ,
        (satc_point_normalize (MathFns.mk Real.sqrt Real.cos Real.sin) p).y =
          p.y / satc_point_len (MathFns.mk Real.sqrt Real.cos Real.sin) p) ∧
      (∀ p v : satc_point ℝ,
        satc_point_normalize_checked (MathFns.mk Real.sqrt Real.cos Real.sin) p = some v →
          satc_point_normalize (MathFns.mk Real.sqrt Real.cos Real.sin) p = v) ∧
      (triangle_repeated_vertex (MathFns.mk Real.sqrt Real.cos Real.sin)).edges.getD 0
          satc_point_alloca = ⟨0, 0⟩ ∧
      (triangle_repeated_vertex (MathFns.mk Real.sqrt Real.cos Real.sin)).normals.getD 0
          satc_point_alloca =
        satc_point_normalize (MathFns.mk Real.sqrt Real.cos Real.sin)
          (satc_point_perp ⟨0, 0⟩) ∧
      satc_point_len (MathFns.mk Real.sqrt Real.cos Real.sin)
        (satc_point_perp (⟨0, 0⟩ : satc_point ℝ)) = 0 ∧
      satc_point_normalize_checked (MathFns.mk Real.sqrt Real.cos Real.sin)
        (satc_point_perp ⟨0, 0⟩) = none := by
  obtain ⟨h1, h2⟩ := triangle_repeated_vertex_eq (MathFns.mk Real.sqrt Real.cos Real.sin)
  refine ⟨fun p i hc he hn hi => ?_, fun p => rfl,
    fun p v h => satc_point_normalize_checked_some _ p v h, h1, h2, ?_,
    (satc_point_normalize_checked_zero _ real_isSqrt).2⟩
  · have e := _satc_polygon_recalc_normals_getD (MathFns.mk Real.sqrt Real.cos Real.sin)
      p hc he hn i hi
    refine ⟨e, fun hne => ?_⟩
    rw [e]
    exact satc_point_normalize_perp _ real_isSqrt _ hne
  · simp [satc_point_len, satc_point_len2, satc_point_dot, satc_point_perp]

/-- C35: for a circle of non-negative radius, a polygon and a supplied response, if the
circle centre relative to `calc_points[i]` is in the middle region of `edges[i]` and its
signed distance along the normal of that edge is greater than the radius, then
`satc_test_polygon_circle` returns false.  The function takes the normal as the normalized
perpendicular of `edges[i]`; in a consistent polygon (C19) that is `normals[i]`. -/
theorem C35_middle_region_far (m : MathFns K) (polygon : satc_polygon K)
    (circle : satc_circle K) (r : satc_response K) (i : Nat) (hr : 0 ≤ circle.r)
    (hi : i < polygon.calc_points.length)
    (hmid : satc_voronoi_region (polygon.edges.getD i satc_point_alloca)
      (satc_point_sub (satc_point_sub circle.pos polygon.pos)
        (polygon.calc_points.getD i satc_point_alloca)) = SATC_MIDDLE_VORONOI_REGION) :
    (satc_point_dot (satc_point_sub (satc_point_sub circle.pos polygon.pos)
          (polygon.calc_points.getD i satc_point_alloca))
        (satc_point_normalize m (satc_point_perp (polygon.edges.getD i satc_point_alloca))) >
          circle.r →
      ∃ r1, satc_test_polygon_circle m polygon circle (some r) = some (false, some r1)) ∧
    (satc_polygon_consistent m polygon →
      satc_point_dot (satc_point_sub (satc_point_sub circle.pos polygon.pos)
          (polygon.calc_points.getD i satc_point_alloca))
        (polygon.normals.getD i satc_point_alloca) > circle.r →
      ∃ r1, satc_test_polygon_circle m polygon circle (some r) = some (false, some r1)) := by
  have key : satc_point_dot (satc_point_sub (satc_point_sub circle.pos polygon.pos)
          (polygon.calc_points.getD i satc_point_alloca))
        (satc_point_normalize m (satc_point_perp (polygon.edges.getD i satc_point_alloca))) >
          circle.r →
      ∃ r1, satc_test_polygon_circle m polygon circle (some r) = some (false, some r1) := by
    intro hfar
    have hpos : 0 < satc_point_dot (satc_point_sub (satc_point_sub circle.pos polygon.pos)
          (polygon.calc_points.getD i satc_point_alloca))
        (satc_point_normalize m (satc_point_perp (polygon.edges.getD i satc_point_alloca))) :=
      lt_of_le_of_lt hr hfar
    obtain ⟨r1, h1⟩ := satc_test_polygon_circle_loop_false m polygon circle i
      (fun r => satc_test_polygon_circle_body_middle_far m polygon circle i r hmid hpos hfar)
      (List.range polygon.calc_points.length) (List.mem_range.2 hi) r
    unfold satc_test_polygon_circle
    simp only [h1]
    exact ⟨r1, rfl⟩
  refine ⟨key, fun hp hfar => key ?_⟩
  obtain ⟨hc, he, hn, hrec⟩ := hp
  have e := _satc_polygon_recalc_normals_getD m polygon hc.ge he.ge hn.ge i (hc ▸ hi)
  rw [hrec] at e
  rw [← e]
  exact hfar

/-- C35 at the 40x40 box polygon at `(0, 0)` and the circle of radius 10 centred at
`(20, -15)`: at index 0 the centre is in the middle region at the signed distance 15 along
`normals[0]`, the polygon is consistent, and the test returns false, with the real square
root and on doubles. -/
theorem C35_middle_region_far_witness :
    (0 : ℝ) ≤ 10 ∧
      0 < (satc_box_to_polygon (MathFns.mk Real.sqrt Real.cos Real.sin)
        (satc_box_create ⟨0, 0⟩ 40 40)).calc_points.length ∧
      satc_voronoi_region
        ((satc_box_to_polygon (MathFns.mk Real.sqrt Real.cos Real.sin)
          (satc_box_create ⟨0, 0⟩ 40 40)).edges.getD 0 satc_point_alloca)
        (satc_point_sub (satc_point_sub ⟨20, -15⟩
          (satc_box_to_polygon (MathFns.mk Real.sqrt Real.cos Real.sin)
            (satc_box_create ⟨0, 0⟩ 40 40)).pos)
          ((satc_box_to_polygon (MathFns.mk Real.sqrt Real.cos Real.sin)
            (satc_box_create ⟨0, 0⟩ 40 40)).calc_points.getD 0 satc_point_alloca)) =
        SATC_MIDDLE_VORONOI_REGION ∧
      satc_polygon_consistent (MathFns.mk Real.sqrt Real.cos Real.sin)
        (satc_box_to_polygon (MathFns.mk Real.sqrt Real.cos Real.sin)
          (satc_box_create ⟨0, 0⟩ 40 40)) ∧
      satc_point_dot
        (satc_point_sub (satc_point_sub ⟨20, -15⟩
          (satc_box_to_polygon (MathFns.mk Real.sqrt Real.cos Real.sin)
            (satc_box_create ⟨0, 0⟩ 40 40)).pos)
          ((satc_box_to_polygon (MathFns.mk Real.sqrt Real.cos Real.sin)
            (satc_box_create ⟨0, 0⟩ 40 40)).calc_points.getD 0 satc_point_alloca))
        ((satc_box_to_polygon (MathFns.mk Real.sqrt Real.cos Real.sin)
          (satc_box_create ⟨0, 0⟩ 40 40)).normals.getD 0 satc_point_alloca) = 15 ∧
      (∃ r1, satc_test_polygon_circle (MathFns.mk Real.sqrt Real.cos Real.sin)
          (satc_box_to_polygon (MathFns.mk Real.sqrt Real.cos Real.sin)
            (satc_box_create ⟨0, 0⟩ 40 40))
          ⟨⟨20, -15⟩, 10⟩ (some satc_response_create) = some (false, some r1)) ∧
      (satc_test_polygon_circle Dbl.math
        (satc_box_to_polygon Dbl.math (satc_box_create ⟨0, 0⟩ 40 40))
        ⟨⟨20, -15⟩, 10⟩ (some satc_response_create)).map Prod.fst = some false := by
  obtain ⟨h1, h2, _, h4⟩ := polygon_circle_far_input_eval
    (MathFns.mk Real.sqrt Real.cos Real.sin) real_isSqrt
  have hc : satc_polygon_consistent (MathFns.mk Real.sqrt Real.cos Real.sin)
      (satc_box_to_polygon (MathFns.mk Real.sqrt Real.cos Real.sin)
        (satc_box_create ⟨0, 0⟩ 40 40)) := satc_polygon_create_consistent _ _ _
  exact ⟨by norm_num, h1, h2, hc, h4,
    (C35_middle_region_far (MathFns.mk Real.sqrt Real.cos Real.sin) _ ⟨⟨20, -15⟩, 10⟩
      satc_response_create 0 (by norm_num) h1 h2).2 hc (by rw [h4]; norm_num), by decide!⟩

/-- C36 (the code at every input and at the failing input): `satc_point_project(p, q)`
scales `p` by `p.x * q.x + p.y * q.y / q.x * q.x + q.y * q.y`; for `p = (3, 4)` and
`q = (2, 0)` it yields `(18, 24)`, while the orthogonal projection of `p` onto `q` is
`(3, 0)`; `satc_point_project_n` scales `p` by `dot(p, q)`. -/
theorem C36_project_scales_p :
    (∀ p q : satc_point K, satc_point_project p q =
        satc_point_scale_x p (p.x * q.x + p.y * q.y / q.x * q.x + q.y * q.y)) ∧
      (∀ p q : satc_point K, satc_point_project_n p q =
        satc_point_scale_x p (satc_point_dot p q)) ∧
      satc_point_project (⟨3, 4⟩ : satc_point K) ⟨2, 0⟩ = ⟨18, 24⟩ ∧
      spec_orthogonal_projection (⟨3, 4⟩ : satc_point K) ⟨2, 0⟩ = ⟨3, 0⟩ ∧
      satc_point_project (⟨3, 4⟩ : satc_point K) ⟨2, 0⟩ ≠
        spec_orthogonal_projection (⟨3, 4⟩ : satc_point K) ⟨2, 0⟩ := by
  have h1 : satc_point_project (⟨3, 4⟩ : satc_point K) ⟨2, 0⟩ = ⟨18, 24⟩ := by
    simp only [satc_point_project]
    ext <;> norm_num
  have h2 : spec_orthogonal_projection (⟨3, 4⟩ : satc_point K) ⟨2, 0⟩ = ⟨3, 0⟩ := by
    simp only [spec_orthogonal_projection, satc_point_scale_x, satc_point_scale_xy,
      satc_point_dot, satc_point_len2]
    ext <;> norm_num
  refine ⟨fun p q => ?_, fun p q => ?_, h1, h2, ?_⟩
  · simp only [satc_point_project, satc_point_scale_x, satc_point_scale_xy]
    ext <;> simp only [] <;> ring
  · simp only [satc_point_project_n, satc_point_scale_x, satc_point_scale_xy]
    ext <;> simp only [] <;> ring
  · rw [h1, h2]
    intro h
    have := congrArg satc_point.x h
    norm_num at this

end Claims
